import Mathlib

/-!
# Virtio video device: control plane

A shallow embedding of `hw/virtio/virtio-video.c` and
`include/hw/virtio/virtio-video.h`.

* Machine integers are natural numbers.  The sums the code forms are byte
  sizes of objects held in memory (the capability table, the entry list of a
  request), far below the 64 bits of `size_t`, so no wrap-around is modelled.
* A read beyond the end of an array yields a zero element (in C such a read
  is undefined behaviour).
* Intrusive lists (`QLIST`, `QTAILQ`) are Lean lists in traversal order; a
  pointer to a list node is the position of the node in its list.
* Calls into the host (mapping, locking, virtqueue operations) are recorded,
  in program order, in a trace of `Effect`s.
* Declarations of `standard-headers/linux/virtio_video.h` (enum values, wire
  struct sizes and layouts) are parameters, collected in `Proto`.
* A node that has been freed is no longer in its list: after the teardown of
  the device its event queue and format lists are empty.
-/

set_option autoImplicit false

namespace VirtioVideo

/-! ## Constants of `include/hw/virtio/virtio-video.h` -/

def VIRTIO_VIDEO_VERSION : Nat := 0
def VIRTIO_VIDEO_CAPS_LENGTH_MAX : Nat := 1024
def VIRTIO_VIDEO_RESPONSE_LENGTH_MAX : Nat := 1024

def VIRTIO_VIDEO_QUEUE_NUM : Nat := 2
def VIRTIO_VIDEO_QUEUE_INPUT : Nat := 0
def VIRTIO_VIDEO_QUEUE_OUTPUT : Nat := 1

def VIRTIO_VIDEO_DEVICE_V4L2_ENC : Nat := 1
def VIRTIO_VIDEO_DEVICE_V4L2_DEC : Nat := 2

def VIRTIO_VIDEO_BACKEND_VAAPI : Nat := 1
def VIRTIO_VIDEO_BACKEND_FFMPEG : Nat := 2
def VIRTIO_VIDEO_BACKEND_GSTREAMER : Nat := 3
def VIRTIO_VIDEO_BACKEND_MEDIA_SDK : Nat := 4

/-! ## Wire structures (fields as used by the source) -/

/-- Common header of every request and response: `{type, stream_id}`. -/
structure virtio_video_cmd_hdr where
  type : Nat
  stream_id : Nat
deriving DecidableEq, Repr, Inhabited

/-- Request of `VIRTIO_VIDEO_CMD_QUERY_CAPABILITY`. -/
structure virtio_video_query_capability where
  hdr : virtio_video_cmd_hdr
  queue_type : Nat
deriving DecidableEq, Repr, Inhabited

/-- One guest scatter-gather entry: guest physical address and length. -/
structure virtio_video_mem_entry where
  addr : Nat
  length : Nat
deriving DecidableEq, Repr, Inhabited

/-- Request of `VIRTIO_VIDEO_CMD_RESOURCE_CREATE`; the two arrays have
`VIRTIO_VIDEO_MAX_PLANES` slots. -/
structure virtio_video_resource_create where
  hdr : virtio_video_cmd_hdr
  queue_type : Nat
  resource_id : Nat
  planes_layout : Nat
  num_planes : Nat
  plane_offsets : List Nat
  num_entries : List Nat
deriving DecidableEq, Repr, Inhabited

/-- Format descriptor record; only its identity matters to the serializer. -/
structure virtio_video_format_desc where
  image : List Nat
deriving DecidableEq, Repr, Inhabited

/-- Frame-size record: `num_rates` is the field the serializer reads, `image`
stands for the remaining fields. -/
structure virtio_video_format_frame where
  num_rates : Nat
  image : List Nat
deriving DecidableEq, Repr, Inhabited

/-- Frame-rate range record. -/
structure virtio_video_format_range where
  min : Nat
  max : Nat
  step : Nat
deriving DecidableEq, Repr, Inhabited

/-- Device configuration block. -/
structure virtio_video_config where
  version : Nat
  max_caps_length : Nat
  max_resp_length : Nat
deriving DecidableEq, Repr, Inhabited

/-- Declarations of `standard-headers/linux/virtio_video.h`, which the source
includes but which is not part of it: enum values, `sizeof` of the wire
structs, and the layout of the structs the source reads (as decoders from the
bytes of a request).  Case labels of one C `switch` are pairwise distinct,
and so are the response types, which are enumerators of one wire enum. -/
structure Proto where
  VIRTIO_VIDEO_CMD_QUERY_CAPABILITY : Nat
  VIRTIO_VIDEO_CMD_STREAM_CREATE : Nat
  VIRTIO_VIDEO_CMD_STREAM_DESTROY : Nat
  VIRTIO_VIDEO_CMD_STREAM_DRAIN : Nat
  VIRTIO_VIDEO_CMD_RESOURCE_CREATE : Nat
  VIRTIO_VIDEO_CMD_RESOURCE_QUEUE : Nat
  VIRTIO_VIDEO_CMD_RESOURCE_DESTROY_ALL : Nat
  VIRTIO_VIDEO_CMD_QUEUE_CLEAR : Nat
  VIRTIO_VIDEO_CMD_GET_PARAMS : Nat
  VIRTIO_VIDEO_CMD_SET_PARAMS : Nat
  VIRTIO_VIDEO_CMD_QUERY_CONTROL : Nat
  VIRTIO_VIDEO_CMD_GET_CONTROL : Nat
  VIRTIO_VIDEO_CMD_SET_CONTROL : Nat
  VIRTIO_VIDEO_RESP_OK_NODATA : Nat
  VIRTIO_VIDEO_RESP_OK_QUERY_CAPABILITY : Nat
  VIRTIO_VIDEO_RESP_ERR_INVALID_OPERATION : Nat
  VIRTIO_VIDEO_RESP_ERR_INVALID_STREAM_ID : Nat
  VIRTIO_VIDEO_RESP_ERR_INVALID_RESOURCE_ID : Nat
  VIRTIO_VIDEO_RESP_ERR_INVALID_PARAMETER : Nat
  VIRTIO_VIDEO_QUEUE_TYPE_INPUT : Nat
  VIRTIO_VIDEO_QUEUE_TYPE_OUTPUT : Nat
  VIRTIO_VIDEO_MEM_TYPE_GUEST_PAGES : Nat
  VIRTIO_VIDEO_MEM_TYPE_VIRTIO_OBJECT : Nat
  VIRTIO_VIDEO_PLANES_LAYOUT_SINGLE_BUFFER : Nat
  VIRTIO_VIDEO_PLANES_LAYOUT_PER_PLANE : Nat
  VIRTIO_VIDEO_FORMAT_NV12 : Nat
  sizeof_cmd_hdr : Nat
  sizeof_query_capability : Nat
  sizeof_query_capability_resp : Nat
  sizeof_format_desc : Nat
  sizeof_format_frame : Nat
  sizeof_format_range : Nat
  sizeof_stream_create : Nat
  sizeof_stream_destroy : Nat
  sizeof_stream_drain : Nat
  sizeof_resource_create : Nat
  sizeof_mem_entry : Nat
  sizeof_resource_queue : Nat
  sizeof_resource_destroy_all : Nat
  sizeof_queue_clear : Nat
  sizeof_get_params : Nat
  sizeof_set_params : Nat
  sizeof_query_control : Nat
  sizeof_get_control : Nat
  sizeof_set_control : Nat
  sizeof_event : Nat
  decode_cmd_hdr : List Nat → virtio_video_cmd_hdr
  decode_query_capability : List Nat → virtio_video_query_capability
  decode_resource_create : List Nat → virtio_video_resource_create
  decode_mem_entry : List Nat → virtio_video_mem_entry
  cmd_labels_distinct :
    [VIRTIO_VIDEO_CMD_QUERY_CAPABILITY, VIRTIO_VIDEO_CMD_STREAM_CREATE,
     VIRTIO_VIDEO_CMD_STREAM_DESTROY, VIRTIO_VIDEO_CMD_STREAM_DRAIN,
     VIRTIO_VIDEO_CMD_RESOURCE_CREATE, VIRTIO_VIDEO_CMD_RESOURCE_QUEUE,
     VIRTIO_VIDEO_CMD_RESOURCE_DESTROY_ALL, VIRTIO_VIDEO_CMD_QUEUE_CLEAR,
     VIRTIO_VIDEO_CMD_GET_PARAMS, VIRTIO_VIDEO_CMD_SET_PARAMS,
     VIRTIO_VIDEO_CMD_QUERY_CONTROL, VIRTIO_VIDEO_CMD_GET_CONTROL,
     VIRTIO_VIDEO_CMD_SET_CONTROL].Nodup
  queue_type_labels_distinct :
    VIRTIO_VIDEO_QUEUE_TYPE_INPUT ≠ VIRTIO_VIDEO_QUEUE_TYPE_OUTPUT
  mem_type_labels_distinct :
    VIRTIO_VIDEO_MEM_TYPE_GUEST_PAGES ≠ VIRTIO_VIDEO_MEM_TYPE_VIRTIO_OBJECT
  resp_types_distinct :
    [VIRTIO_VIDEO_RESP_OK_NODATA, VIRTIO_VIDEO_RESP_OK_QUERY_CAPABILITY,
     VIRTIO_VIDEO_RESP_ERR_INVALID_OPERATION, VIRTIO_VIDEO_RESP_ERR_INVALID_STREAM_ID,
     VIRTIO_VIDEO_RESP_ERR_INVALID_RESOURCE_ID,
     VIRTIO_VIDEO_RESP_ERR_INVALID_PARAMETER].Nodup

/-! ## Virtqueue elements and scatter-gather buffers -/

/-- A popped virtqueue element: `out_sg` are the request segments (their
bytes), `in_sg` the response segments (their `iov_len`).  `out_num` and
`in_num` are the lengths of the two lists. -/
structure VirtQueueElement where
  out_sg : List (List Nat)
  in_sg : List Nat
deriving DecidableEq, Repr, Inhabited

def VirtQueueElement.out_num (elem : VirtQueueElement) : Nat := elem.out_sg.length

def VirtQueueElement.in_num (elem : VirtQueueElement) : Nat := elem.in_sg.length

/-- The bytes `iov_to_buf(sg, cnt, offset, buf, bytes)` stores into `buf`; the
call returns their number, which is `bytes` unless the buffers end early. -/
def iov_to_buf (sg : List (List Nat)) (offset bytes : Nat) : List Nat :=
  (sg.flatten.drop offset).take bytes

/-- The value `iov_from_buf(sg, cnt, 0, buf, bytes)` returns: the number of
bytes copied into the segments, which is `bytes` unless they are too small. -/
def iov_from_buf (sg : List Nat) (bytes : Nat) : Nat :=
  min bytes sg.sum

/-! ## Resources -/

/-- The `page` member of `VirtIOVideoResourceSlice`; `remapped_addr = none`
is the null pointer left by `g_new0`. -/
structure VirtIOVideoResourceSlice where
  base : Nat
  remapped_addr : Option Nat
  len : Nat
deriving DecidableEq, Repr, Inhabited

/-- A guest buffer registered with a stream.  `slices` holds, per plane, the
array allocated for that plane; `remapped_base = none` is `NULL`. -/
structure VirtIOVideoResource where
  id : Nat
  planes_layout : Nat
  num_planes : Nat
  plane_offsets : List Nat
  num_entries : List Nat
  slices : List (List VirtIOVideoResourceSlice)
  remapped_base : Option Nat
  remapped_size : Nat
deriving DecidableEq, Repr, Inhabited

/-- Work item of a `RESOURCE_QUEUE` command. -/
structure VirtIOVideoWork where
  elem : VirtQueueElement
  resource : VirtIOVideoResource
  queue_type : Nat
  timestamp : Nat
  flags : Nat
  size : Nat
deriving DecidableEq, Repr, Inhabited

/-- The field of `virtio_video_params` the source reads. -/
structure virtio_video_params where
  format : Nat
deriving DecidableEq, Repr, Inhabited

structure VirtIOVideoQueueInfo where
  mem_type : Nat
  params : virtio_video_params
  setted : Bool
deriving DecidableEq, Repr, Inhabited

/-- A codec session.  `resource_list_input` and `resource_list_output` are
`resource_list[VIRTIO_VIDEO_QUEUE_INPUT]` and
`resource_list[VIRTIO_VIDEO_QUEUE_OUTPUT]`; `in_` is the member `in`. -/
structure VirtIOVideoStream where
  id : Nat
  in_ : VirtIOVideoQueueInfo
  out : VirtIOVideoQueueInfo
  state : Nat
  resource_list_input : List VirtIOVideoResource
  resource_list_output : List VirtIOVideoResource
  input_work : List VirtIOVideoWork
  output_work : List VirtIOVideoWork
deriving DecidableEq, Repr, Inhabited

/-- Reads `stream->resource_list[dir]`. -/
def VirtIOVideoStream.resource_list (stream : VirtIOVideoStream) (dir : Nat) :
    List VirtIOVideoResource :=
  if dir = VIRTIO_VIDEO_QUEUE_INPUT then stream.resource_list_input
  else stream.resource_list_output

/-- Writes `stream->resource_list[dir]`. -/
def VirtIOVideoStream.set_resource_list (stream : VirtIOVideoStream) (dir : Nat)
    (l : List VirtIOVideoResource) : VirtIOVideoStream :=
  if dir = VIRTIO_VIDEO_QUEUE_INPUT then { stream with resource_list_input := l }
  else { stream with resource_list_output := l }

/-! ## Capability registry, events, device -/

structure VirtIOVideoFormatFrame where
  frame : virtio_video_format_frame
  frame_rates : List virtio_video_format_range
deriving DecidableEq, Repr, Inhabited

structure VirtIOVideoFormat where
  desc : virtio_video_format_desc
  frames : List VirtIOVideoFormatFrame
deriving DecidableEq, Repr, Inhabited

/-- A raised event; `elem = none` is the null pointer. -/
structure VirtIOVideoEvent where
  elem : Option VirtQueueElement
  event_type : Nat
  stream_id : Nat
deriving DecidableEq, Repr, Inhabited

/-- The device.  `format_list_input` and `format_list_output` are
`format_list[VIRTIO_VIDEO_QUEUE_INPUT]` and `format_list[VIRTIO_VIDEO_QUEUE_OUTPUT]`. -/
structure VirtIOVideo where
  model : Nat
  backend : Nat
  config : virtio_video_config
  event_queue : List VirtIOVideoEvent
  stream_list : List VirtIOVideoStream
  format_list_input : List VirtIOVideoFormat
  format_list_output : List VirtIOVideoFormat
deriving DecidableEq, Repr, Inhabited

/-- Reads `v->format_list[dir]`. -/
def VirtIOVideo.format_list (v : VirtIOVideo) (dir : Nat) : List VirtIOVideoFormat :=
  if dir = VIRTIO_VIDEO_QUEUE_INPUT then v.format_list_input else v.format_list_output

/-! ## Responses -/

/-- A record of the capability table. -/
inductive CapRecord where
  | desc (d : virtio_video_format_desc)
  | frame (f : virtio_video_format_frame)
  | range (r : virtio_video_format_range)
deriving DecidableEq, Repr

/-- The heap buffer the capability query builds: `size` is the argument of
`g_malloc0`, `hdr` and `num_descs` are the fields of the leading
`virtio_video_query_capability_resp`, and `table` lists every record copied
behind it together with the byte offset it was copied to (the value of the
write cursor `buf`, relative to the start of the buffer). -/
structure virtio_video_query_capability_resp where
  size : Nat
  hdr : virtio_video_cmd_hdr
  num_descs : Nat
  table : List (Nat × CapRecord)
deriving DecidableEq, Repr

/-- A response object handed to `CMD_SET_RESP`. -/
inductive Resp where
  | cmd_hdr (h : virtio_video_cmd_hdr)
  | query_capability (r : virtio_video_query_capability_resp)
  | raw (image : List Nat)
deriving DecidableEq, Repr

/-! ## Host calls -/

inductive Mutex where
  | device
  | stream (id : Nat)
deriving DecidableEq, Repr

/-- A call the device code makes into the host, with its arguments (and, for
`dma_memory_map`, its results `base` and `mapped`). -/
inductive Effect where
  | dma_memory_map (addr len : Nat) (output : Bool) (base mapped : Nat)
  | dma_memory_unmap (base len : Nat) (output : Bool)
  | munmap (base size : Nat)
  | qemu_mutex_lock (m : Mutex)
  | qemu_mutex_unlock (m : Mutex)
  | virtio_error
  | iov_from_buf (resp : Resp) (copied : Nat)
  | virtqueue_detach_element (elem : VirtQueueElement) (len : Nat)
  | virtqueue_push (elem : VirtQueueElement) (len : Nat)
  | virtio_notify
  | g_free_elem (elem : VirtQueueElement)
  | virtio_video_event_complete (event : VirtIOVideoEvent)
  | g_free_event (event : VirtIOVideoEvent)
  | virtio_init (name : String)
  | virtio_add_queue
  | qemu_mutex_init
  | qemu_mutex_destroy
  | object_ref
  | object_unref
  | virtio_del_queue (n : Nat)
  | virtio_cleanup
deriving DecidableEq, Repr

/-- Collaborators on the host side that are not defined in the source:
`map addr len output` is the address-space mapping primitive behind
`dma_memory_map` (host pointer and mapped length), and
`virtio_video_format_is_valid format num_planes` is the plane-count check of
`virtio-video-util.c`. -/
structure Host where
  map : Nat → Nat → Bool → Nat × Nat
  virtio_video_format_is_valid : Nat → Nat → Bool

/-- Modelled from the spec: `dma_memory_map` is the host memory-mapping
primitive, "map guest range → host pointer, with a length that may be shorter
than requested"; it returns the host pointer and the mapped length, which never
exceeds the requested one. -/
def dma_memory_map (H : Host) (addr len : Nat) (output : Bool) : Nat × Nat :=
  ((H.map addr len output).1, min (H.map addr len output).2 len)

/-- The mappings that are live after a trace: every `dma_memory_map` adds its
`(base, mapped)` pair, every `dma_memory_unmap` removes one such pair. -/
def live_mappings (trace : List Effect) : List (Nat × Nat) :=
  trace.foldl
    (fun live e =>
      match e with
      | Effect.dma_memory_map _ _ _ base mapped => live ++ [(base, mapped)]
      | Effect.dma_memory_unmap base len _ => live.erase (base, len)
      | _ => live)
    []

/-- The `(base, len)` pairs handed to `dma_memory_unmap` in a trace, in the
order of the calls. -/
def unmapped_slices (trace : List Effect) : List (Nat × Nat) :=
  trace.filterMap
    (fun e =>
      match e with
      | Effect.dma_memory_unmap base len _ => some (base, len)
      | _ => none)

/-- The `(base, mapped)` pairs `dma_memory_map` returned in a trace, in the
order of the calls. -/
def mapped_slices (trace : List Effect) : List (Nat × Nat) :=
  trace.filterMap
    (fun e =>
      match e with
      | Effect.dma_memory_map _ _ _ base mapped => some (base, mapped)
      | _ => none)

/-- Tells the `dma_memory_map` calls from the others. -/
def Effect.is_map : Effect → Bool
  | Effect.dma_memory_map _ _ _ _ _ => true
  | _ => false

/-- Tells the `dma_memory_unmap` calls from the others. -/
def Effect.is_unmap : Effect → Bool
  | Effect.dma_memory_unmap _ _ _ => true
  | _ => false

/-- Tells the writes into the response buffers from the other calls. -/
def Effect.is_resp_write : Effect → Bool
  | Effect.iov_from_buf _ _ => true
  | _ => false

/-- Tells the completions `virtqueue_push` from the other calls. -/
def Effect.is_push : Effect → Bool
  | Effect.virtqueue_push _ _ => true
  | _ => false

/-- The slice that results from mapping one entry. -/
def slice_of (H : Host) (output : Bool) (e : virtio_video_mem_entry) :
    VirtIOVideoResourceSlice :=
  { base := (dma_memory_map H e.addr e.length output).1
    remapped_addr := none
    len := (dma_memory_map H e.addr e.length output).2 }

/-- The `dma_memory_map` call made for one entry. -/
def map_effect (H : Host) (output : Bool) (e : virtio_video_mem_entry) : Effect :=
  Effect.dma_memory_map e.addr e.length output
    (dma_memory_map H e.addr e.length output).1 (dma_memory_map H e.addr e.length output).2

/-- Index of the first entry of plane `i`:
`num_entries[0] + ... + num_entries[i-1]`. -/
def plane_first_entry (num_entries : List Nat) (i : Nat) : Nat :=
  ((List.range i).map (fun k => num_entries.getD k 0)).sum

/-- Number of entries of the `p` planes from plane `i` on:
`num_entries[i] + ... + num_entries[i+p-1]`. -/
def plane_span (num_entries : List Nat) (i p : Nat) : Nat :=
  ((List.range p).map (fun q => num_entries.getD (i + q) 0)).sum

/-! ## `virtio_video_resource_create_page` -/

/-- Inner loop `for (j = 0; j < resource->num_entries[i]; j++, n++)` of
`virtio_video_resource_create_page`, with `k` iterations left, `row` the
slices `slices[i][0 .. j)` filled so far and `n` the index of the next entry.
The result is `(ok, n, row, trace)`.  `ok = false` is the `goto error` after
the short slice `slices[i][j]` has been unmapped; `row` then still is
`slices[i][0 .. j)`.  An entry index beyond the array reads as a zero entry. -/
def create_page_entries (H : Host) (entries : List virtio_video_mem_entry) (output : Bool) :
    Nat → Nat → List VirtIOVideoResourceSlice → List Effect →
      Bool × Nat × List VirtIOVideoResourceSlice × List Effect
  | 0, n, row, trace => (true, n, row, trace)
  | k + 1, n, row, trace =>
    let e := entries.getD n default
    let slice := slice_of H output e
    let trace1 := trace ++ [map_effect H output e]
    if slice.len < e.length then
      (false, n, row, trace1 ++ [Effect.dma_memory_unmap slice.base slice.len output])
    else
      create_page_entries H entries output k (n + 1) (row ++ [slice]) trace1

/-- Result of `virtio_video_resource_create_page`: the returned `int`, the
resource as left behind, and the host calls made. -/
structure PageResult where
  ret : Int
  resource : VirtIOVideoResource
  trace : List Effect
deriving DecidableEq, Repr

/-- The tail of `virtio_video_resource_create_page` after the mapping
loops, with `slices` the per-plane arrays.  For an output resource it sets
`remapped_base` to `NULL`: `ENABLE_MEMORY_REMAP` is not defined, so
`remapped_base = MAP_FAILED` and the remap is skipped.  (`real_size` only
feeds the disabled remap and a debug print.) -/
def create_page_done (resource : VirtIOVideoResource) (output : Bool)
    (slices : List (List VirtIOVideoResourceSlice)) : VirtIOVideoResource :=
  if output then { resource with slices := slices, remapped_base := none }
  else { resource with slices := slices }

/-- Outer loop `for (i = 0, n = 0; i < resource->num_planes; i++)` with `p`
planes left, followed by the function's tail.  `slices` are the per-plane
arrays completed so far.  At `error:` the slices `slices[i][0 .. j)` of the
current plane are unmapped, in increasing index, and the arrays
`slices[0 .. i]` are freed. -/
def create_page_planes (H : Host) (resource : VirtIOVideoResource)
    (entries : List virtio_video_mem_entry) (output : Bool) :
    Nat → Nat → Nat → List (List VirtIOVideoResourceSlice) → List Effect → PageResult
  | 0, _, _, slices, trace =>
    { ret := 0, resource := create_page_done resource output slices, trace := trace }
  | p + 1, i, n, slices, trace =>
    match create_page_entries H entries output (resource.num_entries.getD i 0) n [] trace with
    | (true, n1, row, trace1) =>
      create_page_planes H resource entries output p (i + 1) n1 (slices ++ [row]) trace1
    | (false, _, row, trace1) =>
      { ret := -1
        resource := { resource with slices := [] }
        trace := trace1 ++ row.map (fun s => Effect.dma_memory_unmap s.base s.len output) }

/-- The function `virtio_video_resource_create_page(resource, entries, output)`. -/
def virtio_video_resource_create_page (H : Host) (resource : VirtIOVideoResource)
    (entries : List virtio_video_mem_entry) (output : Bool) : PageResult :=
  create_page_planes H resource entries output resource.num_planes 0 0 [] []

/-! ## `virtio_video_process_cmd_resource_create` -/

/-- Modelled from the spec: the host calls of `virtio_video_destroy_resource`
(defined in `virtio-video-util.c`, outside the source), which "unmaps every
slice, releases the optional remap region": one unmap per slice, plane by
plane, then the release of the remap region if there is one. -/
def destroy_effects (resource : VirtIOVideoResource) (input : Bool) : List Effect :=
  resource.slices.flatten.map (fun s => Effect.dma_memory_unmap s.base s.len (!input)) ++
    (match resource.remapped_base with
     | some base => [Effect.munmap base resource.remapped_size]
     | none => [])

/-- Modelled from the spec: `virtio_video_destroy_resource` is defined in
`virtio-video-util.c`, outside the source.  "Destruction (explicit, by
replacement, or by stream teardown) unmaps every slice, releases the optional
remap region, and frees the per-plane slice arrays"; a destroyed resource is
no longer in its stream's list (the new resource "replaces it").  `list` is
the list holding `resource`; the result is the list without that node and the
host calls made. -/
def virtio_video_destroy_resource (list : List VirtIOVideoResource)
    (resource : VirtIOVideoResource) (_mem_type : Nat) (input : Bool) :
    List VirtIOVideoResource × List Effect :=
  (list.erase resource, destroy_effects resource input)

/-- The loop `QLIST_FOREACH(stream, &v->stream_list, next)` that breaks at
the first stream with the id; `none` is `stream == NULL`. -/
def find_stream (stream_list : List VirtIOVideoStream) (id : Nat) : Option VirtIOVideoStream :=
  stream_list.find? (fun stream => stream.id = id)

/-- The loop `QTAILQ_FOREACH(work, ..., next)` that breaks at the first work
item whose resource has the id; `none` is `work == NULL`. -/
def find_work (work_queue : List VirtIOVideoWork) (resource_id : Nat) : Option VirtIOVideoWork :=
  work_queue.find? (fun work => work.resource.id = resource_id)

/-- The loop `QLIST_FOREACH(resource, ..., next)` that breaks at the first
resource with the id; `none` is `resource == NULL`. -/
def find_resource (list : List VirtIOVideoResource) (resource_id : Nat) :
    Option VirtIOVideoResource :=
  list.find? (fun resource => resource.id = resource_id)

/-- The `switch (req->queue_type)` of resource creation.  For the two valid
queue types the result is `(format, mem_type, dir, work)`, `work` being where
the `QTAILQ_FOREACH` over that direction's work queue stopped; `none` is the
`default:` label. -/
def resource_create_queue (K : Proto) (stream : VirtIOVideoStream)
    (req : virtio_video_resource_create) : Option (Nat × Nat × Nat × Option VirtIOVideoWork) :=
  if req.queue_type = K.VIRTIO_VIDEO_QUEUE_TYPE_INPUT then
    some (stream.in_.params.format, stream.in_.mem_type, VIRTIO_VIDEO_QUEUE_INPUT,
      find_work stream.input_work req.resource_id)
  else if req.queue_type = K.VIRTIO_VIDEO_QUEUE_TYPE_OUTPUT then
    some (stream.out.params.format, stream.out.mem_type, VIRTIO_VIDEO_QUEUE_OUTPUT,
      find_work stream.output_work req.resource_id)
  else none

/-- The direction `dir` a queue type selects in `switch (req->queue_type)`;
`none` is the `default:` label. -/
def queue_dir (K : Proto) (queue_type : Nat) : Option Nat :=
  if queue_type = K.VIRTIO_VIDEO_QUEUE_TYPE_INPUT then some VIRTIO_VIDEO_QUEUE_INPUT
  else if queue_type = K.VIRTIO_VIDEO_QUEUE_TYPE_OUTPUT then some VIRTIO_VIDEO_QUEUE_OUTPUT
  else none

/-- The queue parameters of a direction: `stream->in` or `stream->out`. -/
def VirtIOVideoStream.queue_info (stream : VirtIOVideoStream) (dir : Nat) :
    VirtIOVideoQueueInfo :=
  if dir = VIRTIO_VIDEO_QUEUE_INPUT then stream.in_ else stream.out

/-- The work queue of a direction: `input_work` or `output_work`. -/
def VirtIOVideoStream.work_queue (stream : VirtIOVideoStream) (dir : Nat) :
    List VirtIOVideoWork :=
  if dir = VIRTIO_VIDEO_QUEUE_INPUT then stream.input_work else stream.output_work

/-- The replacement step: the `QLIST_FOREACH` looking for a resource with the
requested id in `resource_list[dir]` and, if it stopped at one, its
destruction. -/
def resource_create_replace (stream : VirtIOVideoStream) (resource_id mem_type dir : Nat) :
    VirtIOVideoStream × List Effect :=
  match find_resource (stream.resource_list dir) resource_id with
  | some resource =>
    let d := virtio_video_destroy_resource (stream.resource_list dir) resource mem_type
      (dir = VIRTIO_VIDEO_QUEUE_INPUT)
    (stream.set_resource_list dir d.1, d.2)
  | none => (stream, [])

/-- The plane-layout fix-up ("Frontend will not set planes_layout sometimes"). -/
def resource_create_planes_layout (K : Proto) (stream : VirtIOVideoStream)
    (mem_type planes_layout : Nat) : Nat :=
  if planes_layout ≠ K.VIRTIO_VIDEO_PLANES_LAYOUT_PER_PLANE ∧
      planes_layout ≠ K.VIRTIO_VIDEO_PLANES_LAYOUT_SINGLE_BUFFER then
    let fixed :=
      if mem_type = K.VIRTIO_VIDEO_MEM_TYPE_GUEST_PAGES then
        K.VIRTIO_VIDEO_PLANES_LAYOUT_PER_PLANE
      else K.VIRTIO_VIDEO_PLANES_LAYOUT_SINGLE_BUFFER
    if stream.in_.params.format = K.VIRTIO_VIDEO_FORMAT_NV12 then
      K.VIRTIO_VIDEO_PLANES_LAYOUT_SINGLE_BUFFER
    else fixed
  else planes_layout

/-- The local `num_entries` after the loop
`for (i = 0; i < req->num_planes; i++) num_entries += req->num_entries[i];`
(a plane index beyond the array reads as 0). -/
def resource_create_num_entries (req : virtio_video_resource_create) : Nat :=
  ((List.range req.num_planes).map (fun i => req.num_entries.getD i 0)).sum

/-- The resource after `g_new0` and the field assignments, before any slice
is mapped.  The loop copies `num_entries[i]` for `i < num_planes`; the other
slots keep the zero of `g_new0`. -/
def resource_create_new (K : Proto) (stream : VirtIOVideoStream)
    (req : virtio_video_resource_create) (mem_type : Nat) : VirtIOVideoResource :=
  { id := req.resource_id
    planes_layout := resource_create_planes_layout K stream mem_type req.planes_layout
    num_planes := req.num_planes
    plane_offsets := req.plane_offsets
    num_entries :=
      (List.range req.num_entries.length).map
        (fun i => if i < req.num_planes then req.num_entries.getD i 0 else 0)
    slices := []
    remapped_base := none
    remapped_size := 0 }

/-- The array `entries` read from `size` bytes holding `num` entries. -/
def decode_mem_entries (K : Proto) (bytes : List Nat) (num : Nat) :
    List virtio_video_mem_entry :=
  (List.range num).map
    (fun n => K.decode_mem_entry ((bytes.drop (n * K.sizeof_mem_entry)).take K.sizeof_mem_entry))

/-- What the part of the handler that runs under the stream mutex yields:
the value to return (`len`, or 0 after `virtio_error`), the response type,
the stream as left behind and the host calls made. -/
structure StreamResult where
  len : Nat
  type : Nat
  stream : VirtIOVideoStream
  trace : List Effect
deriving DecidableEq, Repr

/-- The bytes `iov_to_buf(elem->out_sg, elem->out_num, sizeof(*req), entries,
size)` stores, with `size = sizeof(virtio_video_mem_entry) * num_entries`. -/
def resource_create_entry_bytes (K : Proto) (req : virtio_video_resource_create)
    (elem : VirtQueueElement) : List Nat :=
  iov_to_buf elem.out_sg K.sizeof_resource_create
    (K.sizeof_mem_entry * resource_create_num_entries req)

/-- The array `entries` of the request. -/
def resource_create_entries (K : Proto) (req : virtio_video_resource_create)
    (elem : VirtQueueElement) : List virtio_video_mem_entry :=
  decode_mem_entries K (resource_create_entry_bytes K req elem) (resource_create_num_entries req)

/-- The call `virtio_video_resource_create_page(resource, entries,
req->queue_type == VIRTIO_VIDEO_QUEUE_TYPE_OUTPUT)`. -/
def resource_create_page (K : Proto) (H : Host) (stream : VirtIOVideoStream)
    (req : virtio_video_resource_create) (elem : VirtQueueElement) (mem_type : Nat) :
    PageResult :=
  virtio_video_resource_create_page H (resource_create_new K stream req mem_type)
    (resource_create_entries K req elem)
    (req.queue_type = K.VIRTIO_VIDEO_QUEUE_TYPE_OUTPUT)

/-- The `switch (mem_type)` of resource creation and the insertion that
follows it; `stream` is the stream after the replacement step. -/
def resource_create_mem (K : Proto) (H : Host) (stream : VirtIOVideoStream)
    (req : virtio_video_resource_create) (elem : VirtQueueElement) (mem_type dir : Nat) :
    StreamResult :=
  if mem_type = K.VIRTIO_VIDEO_MEM_TYPE_GUEST_PAGES then
    if (resource_create_entry_bytes K req elem).length ≠
        K.sizeof_mem_entry * resource_create_num_entries req then
      { len := 0, type := K.VIRTIO_VIDEO_RESP_OK_NODATA, stream := stream,
        trace := [Effect.virtio_error] }
    else
      let page := resource_create_page K H stream req elem mem_type
      if page.ret < 0 then
        { len := K.sizeof_cmd_hdr, type := K.VIRTIO_VIDEO_RESP_ERR_INVALID_OPERATION,
          stream := stream, trace := page.trace }
      else
        { len := K.sizeof_cmd_hdr, type := K.VIRTIO_VIDEO_RESP_OK_NODATA,
          stream := stream.set_resource_list dir (page.resource :: stream.resource_list dir),
          trace := page.trace }
  else if mem_type = K.VIRTIO_VIDEO_MEM_TYPE_VIRTIO_OBJECT then
    { len := K.sizeof_cmd_hdr, type := K.VIRTIO_VIDEO_RESP_ERR_INVALID_PARAMETER,
      stream := stream, trace := [] }
  else
    { len := K.sizeof_cmd_hdr, type := K.VIRTIO_VIDEO_RESP_ERR_INVALID_PARAMETER,
      stream := stream, trace := [] }

/-- The handler between `qemu_mutex_lock(&stream->mutex)` and the unlock. -/
def resource_create_locked (K : Proto) (H : Host) (stream : VirtIOVideoStream)
    (req : virtio_video_resource_create) (elem : VirtQueueElement) : StreamResult :=
  match resource_create_queue K stream req with
  | none =>
    { len := K.sizeof_cmd_hdr, type := K.VIRTIO_VIDEO_RESP_ERR_INVALID_PARAMETER,
      stream := stream, trace := [] }
  | some (_, _, _, some _) =>
    { len := K.sizeof_cmd_hdr, type := K.VIRTIO_VIDEO_RESP_ERR_INVALID_RESOURCE_ID,
      stream := stream, trace := [] }
  | some (format, mem_type, dir, none) =>
    let replaced := resource_create_replace stream req.resource_id mem_type dir
    if ¬ H.virtio_video_format_is_valid format req.num_planes then
      { len := K.sizeof_cmd_hdr, type := K.VIRTIO_VIDEO_RESP_ERR_INVALID_PARAMETER,
        stream := replaced.1, trace := replaced.2 }
    else
      let r := resource_create_mem K H replaced.1 req elem mem_type dir
      { r with trace := replaced.2 ++ r.trace }

/-- Stores `stream` back into the node of `stream_list` the lookup by `id`
stopped at (the first one with that id). -/
def update_stream (stream_list : List VirtIOVideoStream) (id : Nat)
    (stream : VirtIOVideoStream) : List VirtIOVideoStream :=
  match stream_list with
  | [] => []
  | s :: rest => if s.id = id then stream :: rest else s :: update_stream rest id stream

/-- Result of a handler defined in the source that answers with a
`virtio_video_cmd_hdr`. -/
structure HandlerResult where
  len : Nat
  resp : virtio_video_cmd_hdr
  v : VirtIOVideo
  trace : List Effect
deriving DecidableEq, Repr

/-- The handler `virtio_video_process_cmd_resource_create(vdev, req, resp, elem)`. -/
def virtio_video_process_cmd_resource_create (K : Proto) (H : Host) (v : VirtIOVideo)
    (req : virtio_video_resource_create) (elem : VirtQueueElement) : HandlerResult :=
  match find_stream v.stream_list req.hdr.stream_id with
  | none =>
    { len := K.sizeof_cmd_hdr
      resp := { type := K.VIRTIO_VIDEO_RESP_ERR_INVALID_STREAM_ID, stream_id := req.hdr.stream_id }
      v := v
      trace := [] }
  | some stream =>
    let r := resource_create_locked K H stream req elem
    { len := r.len
      resp := { type := r.type, stream_id := req.hdr.stream_id }
      v := { v with stream_list := update_stream v.stream_list req.hdr.stream_id r.stream }
      trace := [Effect.qemu_mutex_lock (Mutex.stream stream.id)] ++ r.trace ++
        [Effect.qemu_mutex_unlock (Mutex.stream stream.id)] }

/-! ## `virtio_video_process_cmd_query_capability` -/

/-- Counting pass, inner `QLIST_FOREACH(fmt_frame, &fmt->frames, next)`. -/
def query_capability_len_frames (K : Proto) : List VirtIOVideoFormatFrame → Nat → Nat
  | [], len => len
  | fmt_frame :: rest, len =>
    query_capability_len_frames K rest
      (len + (K.sizeof_format_frame + fmt_frame.frame.num_rates * K.sizeof_format_range))

/-- Counting pass, outer `QLIST_FOREACH(fmt, &v->format_list[dir], next)`;
the state is `(num_descs, len)`. -/
def query_capability_len (K : Proto) : List VirtIOVideoFormat → Nat → Nat → Nat × Nat
  | [], num_descs, len => (num_descs, len)
  | fmt :: rest, num_descs, len =>
    query_capability_len K rest (num_descs + 1)
      (query_capability_len_frames K fmt.frames (len + K.sizeof_format_desc))

/-- Copy pass, `for (i = 0; i < fmt_frame->frame.num_rates; i++)` with `k`
iterations left; the state is the write cursor `buf` and the records copied
so far.  An index beyond `frame_rates` reads as a zero record. -/
def query_capability_copy_rates (K : Proto) (frame_rates : List virtio_video_format_range) :
    Nat → Nat → Nat → List (Nat × CapRecord) → Nat × List (Nat × CapRecord)
  | 0, _, buf, table => (buf, table)
  | k + 1, i, buf, table =>
    query_capability_copy_rates K frame_rates k (i + 1) (buf + K.sizeof_format_range)
      (table ++ [(buf, CapRecord.range (frame_rates.getD i default))])

/-- Copy pass, inner `QLIST_FOREACH(fmt_frame, &fmt->frames, next)`. -/
def query_capability_copy_frames (K : Proto) :
    List VirtIOVideoFormatFrame → Nat → List (Nat × CapRecord) → Nat × List (Nat × CapRecord)
  | [], buf, table => (buf, table)
  | fmt_frame :: rest, buf, table =>
    let r := query_capability_copy_rates K fmt_frame.frame_rates fmt_frame.frame.num_rates 0
      (buf + K.sizeof_format_frame) (table ++ [(buf, CapRecord.frame fmt_frame.frame)])
    query_capability_copy_frames K rest r.1 r.2

/-- Copy pass, outer `QLIST_FOREACH(fmt, &v->format_list[dir], next)`. -/
def query_capability_copy (K : Proto) :
    List VirtIOVideoFormat → Nat → List (Nat × CapRecord) → Nat × List (Nat × CapRecord)
  | [], buf, table => (buf, table)
  | fmt :: rest, buf, table =>
    let r := query_capability_copy_frames K fmt.frames (buf + K.sizeof_format_desc)
      (table ++ [(buf, CapRecord.desc fmt.desc)])
    query_capability_copy K rest r.1 r.2

/-- Result of the capability query: the returned length, the buffer stored
into `*resp`, the final value of the write cursor `buf` (as an offset into
that buffer) and the device, which the function only reads. -/
structure QueryCapabilityResult where
  len : Nat
  resp : virtio_video_query_capability_resp
  buf : Nat
  v : VirtIOVideo
deriving DecidableEq, Repr

/-- The handler `virtio_video_process_cmd_query_capability(vdev, req, resp)`. -/
def virtio_video_process_cmd_query_capability (K : Proto) (v : VirtIOVideo)
    (req : virtio_video_query_capability) : QueryCapabilityResult :=
  let dir : Option Nat :=
    if req.queue_type = K.VIRTIO_VIDEO_QUEUE_TYPE_INPUT then some VIRTIO_VIDEO_QUEUE_INPUT
    else if req.queue_type = K.VIRTIO_VIDEO_QUEUE_TYPE_OUTPUT then some VIRTIO_VIDEO_QUEUE_OUTPUT
    else none
  match dir with
  | none =>
    { len := K.sizeof_query_capability_resp
      resp :=
        { size := K.sizeof_query_capability_resp
          hdr := { type := K.VIRTIO_VIDEO_RESP_ERR_INVALID_PARAMETER,
                   stream_id := req.hdr.stream_id }
          num_descs := 0
          table := [] }
      buf := K.sizeof_query_capability_resp
      v := v }
  | some dir =>
    let count := query_capability_len K (v.format_list dir) 0 K.sizeof_query_capability_resp
    let copy := query_capability_copy K (v.format_list dir) K.sizeof_query_capability_resp []
    { len := count.2
      resp :=
        { size := count.2
          hdr := { type := K.VIRTIO_VIDEO_RESP_OK_QUERY_CAPABILITY,
                   stream_id := req.hdr.stream_id }
          num_descs := count.1
          table := copy.2 }
      buf := copy.1
      v := v }

/-- Reference serialization, in the words of the specification: "for each
format in registry order, its descriptor record and then, for each of its
frame entries in stored order, the frame record followed by its num_rates
frame-rate records". -/
def reference_records (formats : List VirtIOVideoFormat) : List CapRecord :=
  formats.flatMap (fun fmt =>
    CapRecord.desc fmt.desc ::
      fmt.frames.flatMap (fun fmt_frame =>
        CapRecord.frame fmt_frame.frame ::
          (fmt_frame.frame_rates.take fmt_frame.frame.num_rates).map CapRecord.range))

/-- Size of a record of the capability table. -/
def CapRecord.sizeof (K : Proto) : CapRecord → Nat
  | CapRecord.desc _ => K.sizeof_format_desc
  | CapRecord.frame _ => K.sizeof_format_frame
  | CapRecord.range _ => K.sizeof_format_range

/-- Places records one after the other from offset `start` on. -/
def layout_records (K : Proto) : Nat → List CapRecord → List (Nat × CapRecord)
  | _, [] => []
  | start, r :: rest => (start, r) :: layout_records K (start + r.sizeof K) rest

/-- Reference length, in the words of the specification: "header + sum over
formats of (descriptor size + sum over frames of (frame size + num_rates *
rate size))". -/
def reference_length (K : Proto) (formats : List VirtIOVideoFormat) : Nat :=
  K.sizeof_query_capability_resp +
    (formats.map (fun fmt =>
      K.sizeof_format_desc +
        (fmt.frames.map (fun fmt_frame =>
          K.sizeof_format_frame + fmt_frame.frame.num_rates * K.sizeof_format_range)).sum)).sum

/-- The reads `fmt_frame->frame_rates[i]`, `i < num_rates`, of the copy pass
stay inside the stored array: every frame entry of the registry stores at
least `num_rates` frame-rate records. -/
def registry_rates_in_bounds (formats : List VirtIOVideoFormat) : Prop :=
  ∀ fmt ∈ formats, ∀ fmt_frame ∈ fmt.frames,
    fmt_frame.frame.num_rates ≤ fmt_frame.frame_rates.length

/-- The records the copy pass stores for one frame entry, in order. -/
def frame_records (fmt_frame : VirtIOVideoFormatFrame) : List CapRecord :=
  CapRecord.frame fmt_frame.frame ::
    (List.range fmt_frame.frame.num_rates).map
      (fun i => CapRecord.range (fmt_frame.frame_rates.getD i default))

/-- The records the copy pass stores for one format, in order. -/
def format_records (fmt : VirtIOVideoFormat) : List CapRecord :=
  CapRecord.desc fmt.desc :: fmt.frames.flatMap frame_records

/-- The records the copy pass stores for a format list, in order. -/
def copied_records (formats : List VirtIOVideoFormat) : List CapRecord :=
  formats.flatMap format_records

/-- Total size in bytes of a sequence of records. -/
def records_size (K : Proto) (records : List CapRecord) : Nat :=
  (records.map (fun r => r.sizeof K)).sum

/-- Tells format descriptor records from the others. -/
def CapRecord.is_desc : CapRecord → Bool
  | CapRecord.desc _ => true
  | _ => false

/-! ## Backend handlers -/

/-- What a backend handler with a caller-provided response struct yields: the
returned length, the image it stored into `*resp` and the device afterwards. -/
structure BackendResult where
  len : Nat
  resp : List Nat
  v : VirtIOVideo
deriving DecidableEq, Repr

/-- What a backend handler that allocates its response yields; `resp = none`
is `*resp == NULL`. -/
structure BackendAllocResult where
  len : Nat
  resp : Option (List Nat)
  v : VirtIOVideo
deriving DecidableEq, Repr

/-- The handlers of `virtio-video-msdk.c`, which is outside the source.  Each
takes the device and the bytes of the request struct (and the queue element,
where the C handler gets it). -/
structure Backend where
  virtio_video_msdk_cmd_stream_create : VirtIOVideo → List Nat → BackendResult
  virtio_video_msdk_cmd_stream_destroy :
    VirtIOVideo → List Nat → VirtQueueElement → BackendResult
  virtio_video_msdk_cmd_stream_drain :
    VirtIOVideo → List Nat → VirtQueueElement → BackendResult
  virtio_video_msdk_cmd_resource_queue :
    VirtIOVideo → List Nat → VirtQueueElement → BackendResult
  virtio_video_msdk_cmd_resource_destroy_all :
    VirtIOVideo → List Nat → VirtQueueElement → BackendResult
  virtio_video_msdk_cmd_queue_clear :
    VirtIOVideo → List Nat → VirtQueueElement → BackendResult
  virtio_video_msdk_cmd_get_params : VirtIOVideo → List Nat → BackendResult
  virtio_video_msdk_cmd_set_params : VirtIOVideo → List Nat → BackendResult
  virtio_video_msdk_cmd_query_control : VirtIOVideo → List Nat → BackendAllocResult
  virtio_video_msdk_cmd_get_control : VirtIOVideo → List Nat → BackendAllocResult
  virtio_video_msdk_cmd_set_control : VirtIOVideo → List Nat → BackendResult

def virtio_video_process_cmd_stream_create (B : Backend) (v : VirtIOVideo)
    (req : List Nat) : BackendResult :=
  if v.backend = VIRTIO_VIDEO_BACKEND_MEDIA_SDK then B.virtio_video_msdk_cmd_stream_create v req
  else { len := 0, resp := [], v := v }

def virtio_video_process_cmd_stream_destroy (B : Backend) (v : VirtIOVideo)
    (req : List Nat) (elem : VirtQueueElement) : BackendResult :=
  if v.backend = VIRTIO_VIDEO_BACKEND_MEDIA_SDK then
    B.virtio_video_msdk_cmd_stream_destroy v req elem
  else { len := 0, resp := [], v := v }

def virtio_video_process_cmd_stream_drain (B : Backend) (v : VirtIOVideo)
    (req : List Nat) (elem : VirtQueueElement) : BackendResult :=
  if v.backend = VIRTIO_VIDEO_BACKEND_MEDIA_SDK then
    B.virtio_video_msdk_cmd_stream_drain v req elem
  else { len := 0, resp := [], v := v }

def virtio_video_process_cmd_resource_queue (B : Backend) (v : VirtIOVideo)
    (req : List Nat) (elem : VirtQueueElement) : BackendResult :=
  if v.backend = VIRTIO_VIDEO_BACKEND_MEDIA_SDK then
    B.virtio_video_msdk_cmd_resource_queue v req elem
  else { len := 0, resp := [], v := v }

def virtio_video_process_cmd_resource_destroy_all (B : Backend) (v : VirtIOVideo)
    (req : List Nat) (elem : VirtQueueElement) : BackendResult :=
  if v.backend = VIRTIO_VIDEO_BACKEND_MEDIA_SDK then
    B.virtio_video_msdk_cmd_resource_destroy_all v req elem
  else { len := 0, resp := [], v := v }

def virtio_video_process_cmd_queue_clear (B : Backend) (v : VirtIOVideo)
    (req : List Nat) (elem : VirtQueueElement) : BackendResult :=
  if v.backend = VIRTIO_VIDEO_BACKEND_MEDIA_SDK then
    B.virtio_video_msdk_cmd_queue_clear v req elem
  else { len := 0, resp := [], v := v }

def virtio_video_process_cmd_get_params (B : Backend) (v : VirtIOVideo)
    (req : List Nat) : BackendResult :=
  if v.backend = VIRTIO_VIDEO_BACKEND_MEDIA_SDK then B.virtio_video_msdk_cmd_get_params v req
  else { len := 0, resp := [], v := v }

def virtio_video_process_cmd_set_params (B : Backend) (v : VirtIOVideo)
    (req : List Nat) : BackendResult :=
  if v.backend = VIRTIO_VIDEO_BACKEND_MEDIA_SDK then B.virtio_video_msdk_cmd_set_params v req
  else { len := 0, resp := [], v := v }

def virtio_video_process_cmd_query_control (B : Backend) (v : VirtIOVideo)
    (req : List Nat) : BackendAllocResult :=
  if v.backend = VIRTIO_VIDEO_BACKEND_MEDIA_SDK then B.virtio_video_msdk_cmd_query_control v req
  else { len := 0, resp := none, v := v }

def virtio_video_process_cmd_get_control (B : Backend) (v : VirtIOVideo)
    (req : List Nat) : BackendAllocResult :=
  if v.backend = VIRTIO_VIDEO_BACKEND_MEDIA_SDK then B.virtio_video_msdk_cmd_get_control v req
  else { len := 0, resp := none, v := v }

def virtio_video_process_cmd_set_control (B : Backend) (v : VirtIOVideo)
    (req : List Nat) : BackendResult :=
  if v.backend = VIRTIO_VIDEO_BACKEND_MEDIA_SDK then B.virtio_video_msdk_cmd_set_control v req
  else { len := 0, resp := [], v := v }

/-! ## `virtio_video_process_command` and the command queue callback -/

/-- Result of `virtio_video_process_command`: the returned `int`, the value
left in `*resp_size`, the device afterwards and the host calls made. -/
structure CommandResult where
  ret : Int
  resp_size : Nat
  v : VirtIOVideo
  trace : List Effect
deriving DecidableEq, Repr

/-- The labels of `switch (hdr.type)`. -/
inductive CmdCase where
  | QUERY_CAPABILITY
  | STREAM_CREATE
  | STREAM_DESTROY
  | STREAM_DRAIN
  | RESOURCE_CREATE
  | RESOURCE_QUEUE
  | RESOURCE_DESTROY_ALL
  | QUEUE_CLEAR
  | GET_PARAMS
  | SET_PARAMS
  | QUERY_CONTROL
  | GET_CONTROL
  | SET_CONTROL
  | default
deriving DecidableEq, Repr

/-- The label `switch (hdr.type)` jumps to. -/
def cmd_case (K : Proto) (type : Nat) : CmdCase :=
  if type = K.VIRTIO_VIDEO_CMD_QUERY_CAPABILITY then CmdCase.QUERY_CAPABILITY
  else if type = K.VIRTIO_VIDEO_CMD_STREAM_CREATE then CmdCase.STREAM_CREATE
  else if type = K.VIRTIO_VIDEO_CMD_STREAM_DESTROY then CmdCase.STREAM_DESTROY
  else if type = K.VIRTIO_VIDEO_CMD_STREAM_DRAIN then CmdCase.STREAM_DRAIN
  else if type = K.VIRTIO_VIDEO_CMD_RESOURCE_CREATE then CmdCase.RESOURCE_CREATE
  else if type = K.VIRTIO_VIDEO_CMD_RESOURCE_QUEUE then CmdCase.RESOURCE_QUEUE
  else if type = K.VIRTIO_VIDEO_CMD_RESOURCE_DESTROY_ALL then CmdCase.RESOURCE_DESTROY_ALL
  else if type = K.VIRTIO_VIDEO_CMD_QUEUE_CLEAR then CmdCase.QUEUE_CLEAR
  else if type = K.VIRTIO_VIDEO_CMD_GET_PARAMS then CmdCase.GET_PARAMS
  else if type = K.VIRTIO_VIDEO_CMD_SET_PARAMS then CmdCase.SET_PARAMS
  else if type = K.VIRTIO_VIDEO_CMD_QUERY_CONTROL then CmdCase.QUERY_CONTROL
  else if type = K.VIRTIO_VIDEO_CMD_GET_CONTROL then CmdCase.GET_CONTROL
  else if type = K.VIRTIO_VIDEO_CMD_SET_CONTROL then CmdCase.SET_CONTROL
  else CmdCase.default

/-- `sizeof(req)` of the request struct declared under each label. -/
def cmd_req_size (K : Proto) : CmdCase → Nat
  | CmdCase.QUERY_CAPABILITY => K.sizeof_query_capability
  | CmdCase.STREAM_CREATE => K.sizeof_stream_create
  | CmdCase.STREAM_DESTROY => K.sizeof_stream_destroy
  | CmdCase.STREAM_DRAIN => K.sizeof_stream_drain
  | CmdCase.RESOURCE_CREATE => K.sizeof_resource_create
  | CmdCase.RESOURCE_QUEUE => K.sizeof_resource_queue
  | CmdCase.RESOURCE_DESTROY_ALL => K.sizeof_resource_destroy_all
  | CmdCase.QUEUE_CLEAR => K.sizeof_queue_clear
  | CmdCase.GET_PARAMS => K.sizeof_get_params
  | CmdCase.SET_PARAMS => K.sizeof_set_params
  | CmdCase.QUERY_CONTROL => K.sizeof_query_control
  | CmdCase.GET_CONTROL => K.sizeof_get_control
  | CmdCase.SET_CONTROL => K.sizeof_set_control
  | CmdCase.default => 0

/-- The macro `CMD_GET_REQ(req, len)`: the bytes read into `req`, or `none`
when `iov_to_buf` returns less than `len` (`virtio_error`, `return -1`). -/
def CMD_GET_REQ (elem : VirtQueueElement) (len : Nat) : Option (List Nat) :=
  if (iov_to_buf elem.out_sg 0 len).length ≠ len then none
  else some (iov_to_buf elem.out_sg 0 len)

/-- The exit `virtio_error(...); return -1;`, with `*resp_size` still 0.
`trace` are the host calls made before it. -/
def command_error (v : VirtIOVideo) (trace : List Effect) : CommandResult :=
  { ret := -1, resp_size := 0, v := v, trace := trace ++ [Effect.virtio_error] }

/-- The macro `CMD_SET_RESP(resp, len, alloc)` followed by `break` and the
function's tail `*resp_size = len; return async;` with `async == false`.
`resp = none` is a null response pointer. -/
def CMD_SET_RESP (elem : VirtQueueElement) (v : VirtIOVideo) (trace : List Effect)
    (resp : Option Resp) (len : Nat) : CommandResult :=
  match resp with
  | none => command_error v trace
  | some r =>
    if len = 0 then command_error v trace
    else if iov_from_buf elem.in_sg len ≠ len then
      command_error v (trace ++ [Effect.iov_from_buf r (iov_from_buf elem.in_sg len)])
    else
      { ret := 0, resp_size := len, v := v, trace := trace ++ [Effect.iov_from_buf r len] }

/-- What the handler called under a label hands back to the dispatcher: the
returned length, the response object (`none` is a null pointer), the device
afterwards and the host calls the handler made. -/
structure Handled where
  len : Nat
  resp : Option Resp
  v : VirtIOVideo
  trace : List Effect
deriving DecidableEq, Repr

def BackendResult.handled (r : BackendResult) : Handled :=
  { len := r.len, resp := some (Resp.raw r.resp), v := r.v, trace := [] }

def BackendAllocResult.handled (r : BackendAllocResult) : Handled :=
  { len := r.len, resp := r.resp.map Resp.raw, v := r.v, trace := [] }

/-- The handler call `len = virtio_video_process_cmd_...(...)` under each
label of `switch (hdr.type)`; `req` are the bytes `CMD_GET_REQ` read. -/
def command_handler (K : Proto) (H : Host) (B : Backend) (v : VirtIOVideo)
    (elem : VirtQueueElement) (req : List Nat) : CmdCase → Handled
  | CmdCase.QUERY_CAPABILITY =>
    let r := virtio_video_process_cmd_query_capability K v (K.decode_query_capability req)
    { len := r.len, resp := some (Resp.query_capability r.resp), v := r.v, trace := [] }
  | CmdCase.STREAM_CREATE => (virtio_video_process_cmd_stream_create B v req).handled
  | CmdCase.STREAM_DESTROY => (virtio_video_process_cmd_stream_destroy B v req elem).handled
  | CmdCase.STREAM_DRAIN => (virtio_video_process_cmd_stream_drain B v req elem).handled
  | CmdCase.RESOURCE_CREATE =>
    let r := virtio_video_process_cmd_resource_create K H v (K.decode_resource_create req) elem
    { len := r.len, resp := some (Resp.cmd_hdr r.resp), v := r.v, trace := r.trace }
  | CmdCase.RESOURCE_QUEUE => (virtio_video_process_cmd_resource_queue B v req elem).handled
  | CmdCase.RESOURCE_DESTROY_ALL =>
    (virtio_video_process_cmd_resource_destroy_all B v req elem).handled
  | CmdCase.QUEUE_CLEAR => (virtio_video_process_cmd_queue_clear B v req elem).handled
  | CmdCase.GET_PARAMS => (virtio_video_process_cmd_get_params B v req).handled
  | CmdCase.SET_PARAMS => (virtio_video_process_cmd_set_params B v req).handled
  | CmdCase.QUERY_CONTROL => (virtio_video_process_cmd_query_control B v req).handled
  | CmdCase.GET_CONTROL => (virtio_video_process_cmd_get_control B v req).handled
  | CmdCase.SET_CONTROL => (virtio_video_process_cmd_set_control B v req).handled
  | CmdCase.default => { len := 0, resp := none, v := v, trace := [] }

/-- The labels whose body reads
`if (len == 0) { async = true; break; } CMD_SET_RESP(&resp, len, false);`. -/
def CmdCase.may_defer : CmdCase → Bool
  | CmdCase.STREAM_DESTROY => true
  | CmdCase.STREAM_DRAIN => true
  | CmdCase.RESOURCE_QUEUE => true
  | CmdCase.RESOURCE_DESTROY_ALL => true
  | CmdCase.QUEUE_CLEAR => true
  | _ => false

/-- The body of `switch (hdr.type)` below the label `c`, after the label's
`CMD_GET_REQ` has read `req`: the handler call, then
* under `default:` nothing;
* under the five labels that may defer, `async = true` when the handler
  returned 0, else `CMD_SET_RESP`;
* under `VIRTIO_VIDEO_CMD_RESOURCE_CREATE`, `return -1` when the handler
  returned 0, else `CMD_SET_RESP`;
* under the other labels `CMD_SET_RESP`. -/
def command_body (K : Proto) (H : Host) (B : Backend) (v : VirtIOVideo)
    (elem : VirtQueueElement) (req : List Nat) (c : CmdCase) : CommandResult :=
  let h := command_handler K H B v elem req c
  if c = CmdCase.default then { ret := 0, resp_size := 0, v := v, trace := [] }
  else if c.may_defer then
    if h.len = 0 then { ret := 1, resp_size := 0, v := h.v, trace := h.trace }
    else CMD_SET_RESP elem h.v h.trace h.resp h.len
  else if c = CmdCase.RESOURCE_CREATE then
    if h.len = 0 then { ret := -1, resp_size := 0, v := h.v, trace := h.trace }
    else CMD_SET_RESP elem h.v h.trace h.resp h.len
  else CMD_SET_RESP elem h.v h.trace h.resp h.len

/-- The function `virtio_video_process_command(vdev, elem, resp_size)`:
`CMD_GET_REQ(&hdr, sizeof(hdr))`, then `switch (hdr.type)`.  Every label but
`default:` starts with `CMD_GET_REQ(&req, sizeof(req))`, which under
`VIRTIO_VIDEO_CMD_RESOURCE_CREATE` is preceded by the check
`elem->out_num < 2`. -/
def virtio_video_process_command (K : Proto) (H : Host) (B : Backend) (v : VirtIOVideo)
    (elem : VirtQueueElement) : CommandResult :=
  match CMD_GET_REQ elem K.sizeof_cmd_hdr with
  | none => command_error v []
  | some hdr =>
    let c := cmd_case K (K.decode_cmd_hdr hdr).type
    if c = CmdCase.default then { ret := 0, resp_size := 0, v := v, trace := [] }
    else if c = CmdCase.RESOURCE_CREATE ∧ elem.out_num < 2 then command_error v []
    else
      match CMD_GET_REQ elem (cmd_req_size K c) with
      | none => command_error v []
      | some req => command_body K H B v elem req c

/-- Result of a virtqueue callback: the device afterwards, the elements
still available in the queue and the host calls made. -/
structure CallbackResult where
  v : VirtIOVideo
  vq : List VirtQueueElement
  trace : List Effect
deriving DecidableEq, Repr

/-- The callback `virtio_video_command_vq_cb(vdev, vq)`; `vq` lists the
elements `virtqueue_pop` will return, in order. -/
def virtio_video_command_vq_cb (K : Proto) (H : Host) (B : Backend) :
    VirtIOVideo → List VirtQueueElement → CallbackResult
  | v, [] => { v := v, vq := [], trace := [] }
  | v, elem :: vq =>
    if elem.out_num < 1 ∨ elem.in_num < 1 then
      { v := v, vq := vq
        trace := [Effect.virtio_error, Effect.virtqueue_detach_element elem 0,
                  Effect.g_free_elem elem] }
    else
      let r := virtio_video_process_command K H B v elem
      let locked := [Effect.qemu_mutex_lock Mutex.device] ++ r.trace ++
        [Effect.qemu_mutex_unlock Mutex.device]
      if r.ret < 0 then
        { v := r.v, vq := vq
          trace := locked ++ [Effect.virtqueue_detach_element elem 0, Effect.g_free_elem elem] }
      else if r.ret = 0 then
        let rest := virtio_video_command_vq_cb K H B r.v vq
        { rest with
          trace := locked ++ [Effect.virtqueue_push elem r.resp_size, Effect.virtio_notify,
                              Effect.g_free_elem elem] ++ rest.trace }
      else
        let rest := virtio_video_command_vq_cb K H B r.v vq
        { rest with trace := locked ++ rest.trace }

/-- A resource-create request gets as far as the read of its entry list:
it names a live stream and a valid queue type, no work item is pending for
its resource id, its plane count is valid for the format of that direction
and the memory type of that direction is guest pages. -/
def reaches_entry_list (K : Proto) (H : Host) (v : VirtIOVideo)
    (req : virtio_video_resource_create) : Prop :=
  ∃ stream dir,
    find_stream v.stream_list req.hdr.stream_id = some stream ∧
    queue_dir K req.queue_type = some dir ∧
    find_work (stream.work_queue dir) req.resource_id = none ∧
    H.virtio_video_format_is_valid (stream.queue_info dir).params.format req.num_planes = true ∧
    (stream.queue_info dir).mem_type = K.VIRTIO_VIDEO_MEM_TYPE_GUEST_PAGES

/-- The malformed command messages: the request buffers are shorter than the
request header; or the opcode is one of the thirteen and the buffers are
shorter than its request struct; or the opcode is resource-create and there
are fewer than two request segments, or the request gets as far as the read
of its entry list and the buffers hold fewer entries than the per-plane
counts add up to. -/
def malformed_command (K : Proto) (H : Host) (v : VirtIOVideo) (elem : VirtQueueElement) :
    Prop :=
  CMD_GET_REQ elem K.sizeof_cmd_hdr = none ∨
    ∃ hdr, CMD_GET_REQ elem K.sizeof_cmd_hdr = some hdr ∧
      cmd_case K (K.decode_cmd_hdr hdr).type ≠ CmdCase.default ∧
      (CMD_GET_REQ elem (cmd_req_size K (cmd_case K (K.decode_cmd_hdr hdr).type)) = none ∨
        (cmd_case K (K.decode_cmd_hdr hdr).type = CmdCase.RESOURCE_CREATE ∧
          (elem.out_num < 2 ∨
            ∃ req, CMD_GET_REQ elem K.sizeof_resource_create = some req ∧
              reaches_entry_list K H v (K.decode_resource_create req) ∧
              (resource_create_entry_bytes K (K.decode_resource_create req) elem).length ≠
                K.sizeof_mem_entry *
                  resource_create_num_entries (K.decode_resource_create req))))

/-! ## The event queue callback -/

/-- Modelled from the spec: `virtio_video_event_complete` is defined in
`virtio-video-util.c`, outside the source.  An event is "matched to a
guest-posted receive buffer on the event queue"; the function is handed an
event that holds its buffer and has been taken off the queue, delivers the
event into that buffer and releases both; it leaves the device as it is.  The
call is recorded with its argument. -/
def virtio_video_event_complete (v : VirtIOVideo) (event : VirtIOVideoEvent) :
    VirtIOVideo × List Effect :=
  (v, [Effect.virtio_video_event_complete event])

/-- The exit `qemu_mutex_unlock(&v->mutex); break;` of an iteration of the
event callback that only looked at the head of the event queue. -/
def event_idle (v : VirtIOVideo) (vq : List VirtQueueElement) : CallbackResult :=
  { v := v, vq := vq
    trace := [Effect.qemu_mutex_lock Mutex.device, Effect.qemu_mutex_unlock Mutex.device] }

/-- The exit of an iteration of the event callback that popped a buffer it
cannot use: `virtio_error`, detach, free, unlock, `break`. -/
def event_reject (v : VirtIOVideo) (elem : VirtQueueElement) (vq : List VirtQueueElement) :
    CallbackResult :=
  { v := v, vq := vq
    trace := [Effect.qemu_mutex_lock Mutex.device, Effect.virtio_error,
              Effect.virtqueue_detach_element elem 0, Effect.g_free_elem elem,
              Effect.qemu_mutex_unlock Mutex.device] }

/-- The callback `virtio_video_event_vq_cb(vdev, vq)`; `vq` lists the
receive buffers `virtqueue_pop` will return, in order.  Each iteration locks
the device mutex and looks at the head of the event queue; only when there is
one and it holds no buffer (`event && event->elem == NULL`) a buffer is
popped. -/
def virtio_video_event_vq_cb (K : Proto) : VirtIOVideo → List VirtQueueElement → CallbackResult
  | v, vq =>
    match v.event_queue with
    | [] => event_idle v vq
    | event :: events =>
      if event.elem ≠ none then event_idle v vq
      else
        match vq with
        | [] => event_idle v []
        | elem :: vq1 =>
          if elem.in_num < 1 then event_reject v elem vq1
          else if elem.in_sg.getD 0 0 < K.sizeof_event then event_reject v elem vq1
          else
            let done := virtio_video_event_complete { v with event_queue := events }
              { event with elem := some elem }
            let rest := virtio_video_event_vq_cb K done.1 vq1
            { rest with
              trace := [Effect.qemu_mutex_lock Mutex.device] ++ done.2 ++
                [Effect.qemu_mutex_unlock Mutex.device] ++ rest.trace }

/-- The events handed to `virtio_video_event_complete` in a trace, in the
order of the calls. -/
def delivered_events (trace : List Effect) : List VirtIOVideoEvent :=
  trace.filterMap
    (fun e =>
      match e with
      | Effect.virtio_video_event_complete event => some event
      | _ => none)

/-- A receive buffer the event callback accepts: it has a device-writable
segment, the first of which holds a `virtio_video_event`. -/
def well_formed_buffer (K : Proto) (elem : VirtQueueElement) : Prop :=
  ¬ elem.in_num < 1 ∧ ¬ elem.in_sg.getD 0 0 < K.sizeof_event

instance (K : Proto) (elem : VirtQueueElement) : Decidable (well_formed_buffer K elem) := by
  unfold well_formed_buffer; infer_instance

/-! ## Realize, unrealize and the configuration block -/

/-- The device properties `VirtIOVideoConf`; `none` is a null string, and
`iothread` tells whether `conf.iothread` is set. -/
structure VirtIOVideoConf where
  model : Option String
  backend : Option String
  iothread : Bool
deriving DecidableEq, Repr

/-- The table `virtio_video_models`. -/
def virtio_video_models : List (Nat × String) :=
  [(VIRTIO_VIDEO_DEVICE_V4L2_ENC, "v4l2-enc"), (VIRTIO_VIDEO_DEVICE_V4L2_DEC, "v4l2-dec")]

/-- The table `virtio_video_backends`. -/
def virtio_video_backends : List (Nat × String) :=
  [(VIRTIO_VIDEO_BACKEND_VAAPI, "vaapi"), (VIRTIO_VIDEO_BACKEND_FFMPEG, "ffmpeg"),
   (VIRTIO_VIDEO_BACKEND_GSTREAMER, "gstreamer"), (VIRTIO_VIDEO_BACKEND_MEDIA_SDK, "media-sdk")]

/-- The loop `for (i = 0; i < ARRAY_SIZE(table); i++)` that stops at the
first entry whose name `strcmp` finds equal; the result is that entry's `id`,
and `none` is `i == ARRAY_SIZE(table)`. -/
def table_lookup (table : List (Nat × String)) (name : String) : Option Nat :=
  (table.find? (fun entry => entry.2 = name)).map (fun entry => entry.1)

/-- What the initialisation of the backend reports: its return value and the
formats it enumerated for the two directions. -/
structure BackendInit where
  ret : Int
  format_list_input : List VirtIOVideoFormat
  format_list_output : List VirtIOVideoFormat
deriving DecidableEq, Repr

/-- Modelled from the spec: `virtio_video_init_msdk` is defined in
`virtio-video-msdk.c`, outside the source.  The backend supplies the
"enumeration of supported pixel/codec formats and their frame-size/rate
tables (treated as static capability data the core serializes verbatim)": the
call fills the capability registry of the device and returns 0, or returns
non-zero; the rest of the device, the configuration block included, is left
as the core set it up.  `probe` is what the enumeration reports. -/
def virtio_video_init_msdk (probe : BackendInit) (v : VirtIOVideo) : Int × VirtIOVideo :=
  (probe.ret,
   { v with format_list_input := probe.format_list_input
            format_list_output := probe.format_list_output })

/-- The errors `virtio_video_device_realize` reports through `error_setg`, in
the order of the source. -/
inductive RealizeError where
  | model_not_set
  | unknown_model
  | backend_not_set
  | unknown_backend
  | init_failed
deriving DecidableEq, Repr

/-- Result of `virtio_video_device_realize`: the error stored in `*errp`
(`none` when the function sets none), the device as left behind and the host
calls made. -/
structure RealizeResult where
  errp : Option RealizeError
  v : VirtIOVideo
  trace : List Effect
deriving DecidableEq, Repr

/-- The part of `virtio_video_device_realize` that follows the two name
lookups, with `v->model` and `v->backend` set: `virtio_init` under the name of
the model (`default: return;` for any other model), the configuration block,
the two queues, the empty lists, the mutex, the reference on the iothread,
the initialisation of the backend (`ret` stays `-1` for every backend but
media-sdk), and the clean-up when `ret` is not 0. -/
def realize_device (probe : BackendInit) (conf : VirtIOVideoConf) (v : VirtIOVideo) :
    RealizeResult :=
  if v.model ≠ VIRTIO_VIDEO_DEVICE_V4L2_ENC ∧ v.model ≠ VIRTIO_VIDEO_DEVICE_V4L2_DEC then
    { errp := none, v := v, trace := [] }
  else
    let v1 : VirtIOVideo :=
      { v with
        config := { version := VIRTIO_VIDEO_VERSION
                    max_caps_length := VIRTIO_VIDEO_CAPS_LENGTH_MAX
                    max_resp_length := VIRTIO_VIDEO_RESPONSE_LENGTH_MAX }
        event_queue := []
        stream_list := []
        format_list_input := []
        format_list_output := [] }
    let setup :=
      [Effect.virtio_init
         (if v.model = VIRTIO_VIDEO_DEVICE_V4L2_ENC then "virtio-video-enc"
          else "virtio-video-dec"),
       Effect.virtio_add_queue, Effect.virtio_add_queue, Effect.qemu_mutex_init] ++
        (if conf.iothread then [Effect.object_ref] else [])
    let r : Int × VirtIOVideo :=
      if v1.backend = VIRTIO_VIDEO_BACKEND_MEDIA_SDK then virtio_video_init_msdk probe v1
      else (-1, v1)
    if r.1 ≠ 0 then
      { errp := some RealizeError.init_failed
        v := r.2
        trace := setup ++ [Effect.qemu_mutex_destroy] ++
          (if conf.iothread then [Effect.object_unref] else []) ++
          [Effect.virtio_del_queue 0, Effect.virtio_del_queue 1, Effect.virtio_cleanup] }
    else { errp := none, v := r.2, trace := setup }

/-- The function `virtio_video_device_realize(dev, errp)`; `conf` is
`v->conf`. -/
def virtio_video_device_realize (probe : BackendInit) (conf : VirtIOVideoConf)
    (v : VirtIOVideo) : RealizeResult :=
  match conf.model with
  | none => { errp := some RealizeError.model_not_set, v := v, trace := [] }
  | some model =>
    match table_lookup virtio_video_models model with
    | none => { errp := some RealizeError.unknown_model, v := v, trace := [] }
    | some model_id =>
      match conf.backend with
      | none =>
        { errp := some RealizeError.backend_not_set, v := { v with model := model_id }
          trace := [] }
      | some backend =>
        match table_lookup virtio_video_backends backend with
        | none =>
          { errp := some RealizeError.unknown_backend, v := { v with model := model_id }
            trace := [] }
        | some backend_id =>
          realize_device probe conf { v with model := model_id, backend := backend_id }

/-- The function `virtio_video_get_config(vdev, config)`: the value stored
through `config`, a copy of all `sizeof(v->config)` bytes of `v->config`. -/
def virtio_video_get_config (v : VirtIOVideo) : virtio_video_config :=
  v.config

/-- The loop `QTAILQ_FOREACH_SAFE(event, &v->event_queue, next, tmp_event)`
of `virtio_video_device_unrealize`. -/
def unrealize_events : List VirtIOVideoEvent → List Effect
  | [] => []
  | event :: rest =>
    (match event.elem with
     | some elem => [Effect.virtqueue_detach_element elem 0, Effect.g_free_elem elem]
     | none => []) ++
      [Effect.g_free_event event] ++ unrealize_events rest

/-- The function `virtio_video_device_unrealize(dev)`.  `uninit` is
`virtio_video_uninit_msdk`, defined in `virtio-video-msdk.c`, outside the
source: any function of the device (the host calls it makes are not part of
the trace).  Every node of the event queue and of the two format lists is
freed; the lists of the device left behind are empty. -/
def virtio_video_device_unrealize (uninit : VirtIOVideo → VirtIOVideo)
    (conf : VirtIOVideoConf) (v : VirtIOVideo) : VirtIOVideo × List Effect :=
  let v1 := if v.backend = VIRTIO_VIDEO_BACKEND_MEDIA_SDK then uninit v else v
  ({ v1 with event_queue := [], format_list_input := [], format_list_output := [] },
   unrealize_events v1.event_queue ++ [Effect.qemu_mutex_destroy] ++
     (if conf.iothread then [Effect.object_unref] else []) ++
     [Effect.virtio_del_queue 0, Effect.virtio_del_queue 1, Effect.virtio_cleanup])

/-- The receive buffers detached in a trace, with the length they are
detached with, in the order of the calls. -/
def detached_buffers (trace : List Effect) : List (VirtQueueElement × Nat) :=
  trace.filterMap
    (fun e =>
      match e with
      | Effect.virtqueue_detach_element elem len => some (elem, len)
      | _ => none)

/-- The events freed in a trace, in the order of the calls. -/
def freed_events (trace : List Effect) : List VirtIOVideoEvent :=
  trace.filterMap
    (fun e =>
      match e with
      | Effect.g_free_event event => some event
      | _ => none)

/-! ## Locking discipline of a trace -/

/-- Tells the calls `qemu_mutex_lock` and `qemu_mutex_unlock` from the
others. -/
def Effect.is_mutex_call : Effect → Bool
  | Effect.qemu_mutex_lock _ => true
  | Effect.qemu_mutex_unlock _ => true
  | _ => false

/-- The mutexes held after the calls of `trace`, when `held` are held before
it; `none` when the trace locks a mutex that is held or unlocks one that is
not. -/
def lock_state : List Mutex → List Effect → Option (List Mutex)
  | held, [] => some held
  | held, Effect.qemu_mutex_lock m :: trace =>
    if m ∈ held then none else lock_state (m :: held) trace
  | held, Effect.qemu_mutex_unlock m :: trace =>
    if m ∈ held then lock_state (held.erase m) trace else none
  | held, _ :: trace => lock_state held trace

/-! ## Configuration writes and the callbacks of the device -/

/-- The function `virtio_video_set_config(vdev, config)`: all
`sizeof(v->config)` bytes of the block `config` points to, which holds what
the guest wrote, are copied over `v->config`. -/
def virtio_video_set_config (v : VirtIOVideo) (config : virtio_video_config) : VirtIOVideo :=
  { v with config := config }

/-- A callback of the device that the guest triggers: a kick of the command
queue or of the event queue (with the elements `virtqueue_pop` will return),
a read of the configuration space, or a write of it (with the block
written). -/
inductive DeviceCallback where
  | command_vq (vq : List VirtQueueElement)
  | event_vq (vq : List VirtQueueElement)
  | get_config
  | set_config (config : virtio_video_config)
deriving DecidableEq, Repr

/-- The device after one callback. -/
def device_callback (K : Proto) (H : Host) (B : Backend) (v : VirtIOVideo) :
    DeviceCallback → VirtIOVideo
  | DeviceCallback.command_vq vq => (virtio_video_command_vq_cb K H B v vq).v
  | DeviceCallback.event_vq vq => (virtio_video_event_vq_cb K v vq).v
  | DeviceCallback.get_config => v
  | DeviceCallback.set_config config => virtio_video_set_config v config

/-- The device after a sequence of callbacks, run in order. -/
def device_callbacks (K : Proto) (H : Host) (B : Backend) (v : VirtIOVideo)
    (callbacks : List DeviceCallback) : VirtIOVideo :=
  callbacks.foldl (device_callback K H B) v

/-! ## A concrete instance, for evaluation -/

/-- Little-endian 32-bit field at byte offset `off`. -/
def le32 (bytes : List Nat) (off : Nat) : Nat :=
  bytes.getD off 0 + 256 * bytes.getD (off + 1) 0 + 65536 * bytes.getD (off + 2) 0 +
    16777216 * bytes.getD (off + 3) 0

/-- A concrete protocol header, with the values of version 3 of the
virtio-video draft (8 planes per resource, little-endian fields).  It serves
to evaluate the code on concrete messages; the general theorems hold for
every `Proto`. -/
def proto_v3 : Proto :=
  { VIRTIO_VIDEO_CMD_QUERY_CAPABILITY := 0x100
    VIRTIO_VIDEO_CMD_STREAM_CREATE := 0x101
    VIRTIO_VIDEO_CMD_STREAM_DESTROY := 0x102
    VIRTIO_VIDEO_CMD_STREAM_DRAIN := 0x103
    VIRTIO_VIDEO_CMD_RESOURCE_CREATE := 0x104
    VIRTIO_VIDEO_CMD_RESOURCE_QUEUE := 0x105
    VIRTIO_VIDEO_CMD_RESOURCE_DESTROY_ALL := 0x106
    VIRTIO_VIDEO_CMD_QUEUE_CLEAR := 0x107
    VIRTIO_VIDEO_CMD_GET_PARAMS := 0x108
    VIRTIO_VIDEO_CMD_SET_PARAMS := 0x109
    VIRTIO_VIDEO_CMD_QUERY_CONTROL := 0x10a
    VIRTIO_VIDEO_CMD_GET_CONTROL := 0x10b
    VIRTIO_VIDEO_CMD_SET_CONTROL := 0x10c
    VIRTIO_VIDEO_RESP_OK_NODATA := 0x200
    VIRTIO_VIDEO_RESP_OK_QUERY_CAPABILITY := 0x201
    VIRTIO_VIDEO_RESP_ERR_INVALID_OPERATION := 0x300
    VIRTIO_VIDEO_RESP_ERR_INVALID_STREAM_ID := 0x302
    VIRTIO_VIDEO_RESP_ERR_INVALID_RESOURCE_ID := 0x303
    VIRTIO_VIDEO_RESP_ERR_INVALID_PARAMETER := 0x304
    VIRTIO_VIDEO_QUEUE_TYPE_INPUT := 0x100
    VIRTIO_VIDEO_QUEUE_TYPE_OUTPUT := 0x101
    VIRTIO_VIDEO_MEM_TYPE_GUEST_PAGES := 0
    VIRTIO_VIDEO_MEM_TYPE_VIRTIO_OBJECT := 1
    VIRTIO_VIDEO_PLANES_LAYOUT_SINGLE_BUFFER := 1
    VIRTIO_VIDEO_PLANES_LAYOUT_PER_PLANE := 2
    VIRTIO_VIDEO_FORMAT_NV12 := 3
    sizeof_cmd_hdr := 8
    sizeof_query_capability := 16
    sizeof_query_capability_resp := 16
    sizeof_format_desc := 24
    sizeof_format_frame := 32
    sizeof_format_range := 12
    sizeof_stream_create := 88
    sizeof_stream_destroy := 8
    sizeof_stream_drain := 8
    sizeof_resource_create := 88
    sizeof_mem_entry := 16
    sizeof_resource_queue := 64
    sizeof_resource_destroy_all := 16
    sizeof_queue_clear := 16
    sizeof_get_params := 16
    sizeof_set_params := 120
    sizeof_query_control := 16
    sizeof_get_control := 16
    sizeof_set_control := 16
    sizeof_event := 8
    decode_cmd_hdr := fun b => { type := le32 b 0, stream_id := le32 b 4 }
    decode_query_capability := fun b =>
      { hdr := { type := le32 b 0, stream_id := le32 b 4 }, queue_type := le32 b 8 }
    decode_resource_create := fun b =>
      { hdr := { type := le32 b 0, stream_id := le32 b 4 }
        queue_type := le32 b 8
        resource_id := le32 b 12
        planes_layout := le32 b 16
        num_planes := le32 b 20
        plane_offsets := (List.range 8).map (fun i => le32 b (24 + 4 * i))
        num_entries := (List.range 8).map (fun i => le32 b (56 + 4 * i)) }
    decode_mem_entry := fun b =>
      { addr := le32 b 0 + 4294967296 * le32 b 4, length := le32 b 8 }
    cmd_labels_distinct := by decide
    queue_type_labels_distinct := by decide
    mem_type_labels_distinct := by decide
    resp_types_distinct := by decide }

/-- A host that maps every guest range in full at `addr + 4096`, except
ranges starting at guest address 8192, of which it maps half; it accepts
one- and two-plane resources for every format. -/
def host_short_at_8192 : Host :=
  { map := fun addr len _ => (addr + 4096, if addr = 8192 then len / 2 else len)
    virtio_video_format_is_valid := fun _ num_planes => num_planes = 1 || num_planes = 2 }

/-- A fresh two-plane resource with one entry per plane, as
`virtio_video_process_cmd_resource_create` hands it to the page mapper. -/
def two_plane_resource : VirtIOVideoResource :=
  { id := 7, planes_layout := 2, num_planes := 2, plane_offsets := [0, 0, 0, 0, 0, 0, 0, 0]
    num_entries := [1, 1, 0, 0, 0, 0, 0, 0], slices := [], remapped_base := none
    remapped_size := 0 }

/-- Two entries of 64 bytes; the second starts at guest address 8192. -/
def two_entries : List virtio_video_mem_entry :=
  [{ addr := 4096, length := 64 }, { addr := 8192, length := 64 }]

/-- A registry entry with two frame sizes, of two and one frame rates. -/
def sample_format : VirtIOVideoFormat :=
  { desc := { image := [1] }
    frames :=
      [{ frame := { num_rates := 2, image := [640, 480] }
         frame_rates := [{ min := 1, max := 30, step := 1 }, { min := 60, max := 60, step := 1 }] },
       { frame := { num_rates := 1, image := [1920, 1080] }
         frame_rates := [{ min := 1, max := 30, step := 1 }] }] }

/-- A slice-backed input resource with id 7, not queued. -/
def idle_resource : VirtIOVideoResource :=
  { id := 7, planes_layout := 2, num_planes := 1, plane_offsets := [0, 0, 0, 0, 0, 0, 0, 0]
    num_entries := [1, 0, 0, 0, 0, 0, 0, 0]
    slices := [[{ base := 20480, remapped_addr := none, len := 64 }]]
    remapped_base := none, remapped_size := 0 }

/-- A stream with id 1, guest-pages memory on both queues, holding
`idle_resource` and a second resource with id 9 on its input queue. -/
def sample_stream : VirtIOVideoStream :=
  { id := 1
    in_ := { mem_type := 0, params := { format := 5 }, setted := true }
    out := { mem_type := 0, params := { format := 4 }, setted := true }
    state := 1
    resource_list_input := [{ idle_resource with id := 9 }, idle_resource]
    resource_list_output := []
    input_work := []
    output_work := [] }

/-- The sample stream with `idle_resource` queued on its input queue. -/
def busy_stream : VirtIOVideoStream :=
  { sample_stream with
    input_work :=
      [{ elem := { out_sg := [[5, 1, 0, 0]], in_sg := [8] }, resource := idle_resource
         queue_type := 0x100, timestamp := 0, flags := 0, size := 0 }] }

/-- The sample device with resource 7 of stream 1 in flight. -/
def busy_device : VirtIOVideo :=
  { model := VIRTIO_VIDEO_DEVICE_V4L2_DEC
    backend := VIRTIO_VIDEO_BACKEND_MEDIA_SDK
    config := { version := 0, max_caps_length := 1024, max_resp_length := 1024 }
    event_queue := []
    stream_list := [busy_stream]
    format_list_input := []
    format_list_output := [] }

/-- A request to create input resource 7 of stream 1 with one plane of one
entry, under the version 3 header. -/
def sample_create : virtio_video_resource_create :=
  { hdr := { type := 0x104, stream_id := 1 }
    queue_type := 0x100
    resource_id := 7
    planes_layout := 0
    num_planes := 1
    plane_offsets := [0, 0, 0, 0, 0, 0, 0, 0]
    num_entries := [1, 0, 0, 0, 0, 0, 0, 0] }

/-- Little-endian bytes of a 32-bit value. -/
def le32_bytes (x : Nat) : List Nat :=
  [x % 256, x / 256 % 256, x / 65536 % 256, x / 16777216 % 256]

/-- The 88 bytes of `sample_create` under the version 3 header. -/
def sample_create_bytes : List Nat :=
  le32_bytes 0x104 ++ le32_bytes 1 ++ le32_bytes 0x100 ++ le32_bytes 7 ++ le32_bytes 0 ++
    le32_bytes 1 ++ List.replicate 32 0 ++ le32_bytes 1 ++ List.replicate 28 0

/-- The 16 bytes of the entry `(addr 4096, length 64)`. -/
def sample_entry_bytes : List Nat :=
  le32_bytes 4096 ++ le32_bytes 0 ++ le32_bytes 64 ++ le32_bytes 0

/-- A well-formed message carrying `sample_create` and its one entry, with
room for an 8-byte response. -/
def sample_create_elem : VirtQueueElement :=
  { out_sg := [sample_create_bytes, sample_entry_bytes], in_sg := [8] }

/-- A backend that answers every command at once with the 8 bytes of an
`OK_NODATA` header for stream 1, except resource-queue, whose reply it defers
(returned length 0); it leaves the device as it is. -/
def sample_backend : Backend :=
  { virtio_video_msdk_cmd_stream_create := fun v _ =>
      { len := 8, resp := le32_bytes 0x200 ++ le32_bytes 1, v := v }
    virtio_video_msdk_cmd_stream_destroy := fun v _ _ =>
      { len := 8, resp := le32_bytes 0x200 ++ le32_bytes 1, v := v }
    virtio_video_msdk_cmd_stream_drain := fun v _ _ =>
      { len := 8, resp := le32_bytes 0x200 ++ le32_bytes 1, v := v }
    virtio_video_msdk_cmd_resource_queue := fun v _ _ => { len := 0, resp := [], v := v }
    virtio_video_msdk_cmd_resource_destroy_all := fun v _ _ =>
      { len := 8, resp := le32_bytes 0x200 ++ le32_bytes 1, v := v }
    virtio_video_msdk_cmd_queue_clear := fun v _ _ =>
      { len := 8, resp := le32_bytes 0x200 ++ le32_bytes 1, v := v }
    virtio_video_msdk_cmd_get_params := fun v _ =>
      { len := 8, resp := le32_bytes 0x200 ++ le32_bytes 1, v := v }
    virtio_video_msdk_cmd_set_params := fun v _ =>
      { len := 8, resp := le32_bytes 0x200 ++ le32_bytes 1, v := v }
    virtio_video_msdk_cmd_query_control := fun v _ =>
      { len := 8, resp := some (le32_bytes 0x200 ++ le32_bytes 1), v := v }
    virtio_video_msdk_cmd_get_control := fun v _ =>
      { len := 8, resp := some (le32_bytes 0x200 ++ le32_bytes 1), v := v }
    virtio_video_msdk_cmd_set_control := fun v _ =>
      { len := 8, resp := le32_bytes 0x200 ++ le32_bytes 1, v := v } }

/-- The 8 bytes of a stream-destroy request for stream 1. -/
def stream_destroy_bytes : List Nat :=
  le32_bytes 0x102 ++ le32_bytes 1

/-- A stream-destroy message for stream 1 whose response buffer has `room`
bytes. -/
def stream_destroy_elem (room : Nat) : VirtQueueElement :=
  { out_sg := [stream_destroy_bytes], in_sg := [room] }

/-- The 64 bytes of a resource-queue request for stream 1. -/
def resource_queue_bytes : List Nat :=
  le32_bytes 0x105 ++ le32_bytes 1 ++ List.replicate 56 0

/-- A resource-queue message for stream 1 with room for a 64-byte response. -/
def resource_queue_elem : VirtQueueElement :=
  { out_sg := [resource_queue_bytes], in_sg := [64] }


/-- The sample device without any stream. -/
def empty_device : VirtIOVideo :=
  { model := VIRTIO_VIDEO_DEVICE_V4L2_DEC
    backend := VIRTIO_VIDEO_BACKEND_MEDIA_SDK
    config := { version := 0, max_caps_length := 1024, max_resp_length := 1024 }
    event_queue := []
    stream_list := []
    format_list_input := []
    format_list_output := [] }

/-- A resource-create message in two segments (header, rest of the request)
that announces one entry but carries no entry list at all. -/
def create_without_entries_elem : VirtQueueElement :=
  { out_sg := [sample_create_bytes.take 8, sample_create_bytes.drop 8], in_sg := [8] }

/-- A capability query for the output queue, under the version 3 header. -/
def sample_output_query : virtio_video_query_capability :=
  { hdr := { type := 0x100, stream_id := 5 }, queue_type := 0x101 }

/-- A media-sdk decoder device with one stream and a registry of one input
and two output formats. -/
def sample_device : VirtIOVideo :=
  { model := VIRTIO_VIDEO_DEVICE_V4L2_DEC
    backend := VIRTIO_VIDEO_BACKEND_MEDIA_SDK
    config := { version := 0, max_caps_length := 1024, max_resp_length := 1024 }
    event_queue := []
    stream_list := [sample_stream]
    format_list_input := [sample_format]
    format_list_output := [{ sample_format with desc := { image := [2] } }, sample_format] }

/-- What the sample backend hands back for a command it answers at once. -/
def sample_answer : Handled :=
  { len := 8, resp := some (Resp.raw [0, 2, 0, 0, 1, 0, 0, 0]), v := sample_device, trace := [] }

/-- What the sample backend hands back for a resource-queue command. -/
def sample_deferral : Handled :=
  { len := 0, resp := some (Resp.raw []), v := sample_device, trace := [] }

/-- A fresh one-plane resource with three entries. -/
def three_entry_resource : VirtIOVideoResource :=
  { id := 7, planes_layout := 2, num_planes := 1, plane_offsets := [0, 0, 0, 0, 0, 0, 0, 0]
    num_entries := [3, 0, 0, 0, 0, 0, 0, 0], slices := [], remapped_base := none
    remapped_size := 0 }

/-- Three entries of 64 bytes; the third starts at guest address 8192. -/
def three_entries : List virtio_video_mem_entry :=
  [{ addr := 4096, length := 64 }, { addr := 12288, length := 64 },
   { addr := 8192, length := 64 }]

/-- The sample stream with virtio-object memory on its input queue, on which
no resource has been created. -/
def object_stream : VirtIOVideoStream :=
  { sample_stream with
    in_ := { mem_type := 1, params := { format := 5 }, setted := true }
    resource_list_input := [] }

/-- The sample device with `object_stream` as its only stream. -/
def object_device : VirtIOVideo :=
  { sample_device with stream_list := [object_stream] }

/-- The message of `sample_create_elem` with room for 4 bytes of response
only. -/
def short_reply_create_elem : VirtQueueElement :=
  { out_sg := [sample_create_bytes, sample_entry_bytes], in_sg := [4] }

/-- A receive buffer of `8 + n` bytes in one device-writable segment. -/
def sample_buffer (n : Nat) : VirtQueueElement :=
  { out_sg := [], in_sg := [8 + n] }

/-- The device without streams, with two events queued for stream 1, of which
the older one already holds a receive buffer. -/
def stalled_event_device : VirtIOVideo :=
  { empty_device with
    event_queue :=
      [{ elem := some (sample_buffer 0), event_type := 1, stream_id := 1 },
       { elem := none, event_type := 2, stream_id := 1 }] }

/-- The device without streams, with three events queued for stream 1, none
of which holds a receive buffer. -/
def pending_event_device : VirtIOVideo :=
  { empty_device with
    event_queue :=
      [{ elem := none, event_type := 1, stream_id := 1 },
       { elem := none, event_type := 2, stream_id := 1 },
       { elem := none, event_type := 3, stream_id := 1 }] }

/-- A backend shut-down that leaves the device as it is. -/
def sample_uninit (v : VirtIOVideo) : VirtIOVideo := v

/-- The device properties of a media-sdk decoder without an iothread. -/
def sample_conf : VirtIOVideoConf :=
  { model := some "v4l2-dec", backend := some "media-sdk", iothread := false }

/-- A backend initialisation that succeeds and reports one input format. -/
def sample_probe : BackendInit :=
  { ret := 0, format_list_input := [sample_format], format_list_output := [] }

/-- A device object before realisation, with arbitrary old contents. -/
def unrealized_device : VirtIOVideo :=
  { model := 0
    backend := 0
    config := { version := 7, max_caps_length := 0, max_resp_length := 0 }
    event_queue := [{ elem := none, event_type := 1, stream_id := 1 }]
    stream_list := [sample_stream]
    format_list_input := []
    format_list_output := [] }

/-- The device `virtio_video_device_realize` leaves behind for the sample
properties, the sample backend initialising. -/
def realized_device : VirtIOVideo :=
  (virtio_video_device_realize sample_probe sample_conf unrealized_device).v

/-- A message whose header carries the opcode 0x999, which is none of the
thirteen, for stream 1, with room for an 8-byte response. -/
def unknown_opcode_elem : VirtQueueElement :=
  { out_sg := [le32_bytes 0x999 ++ le32_bytes 1], in_sg := [8] }

/-- A well-formed message carrying `sample_create` and one entry of 64 bytes
at guest address 8192, with room for an 8-byte response. -/
def short_entry_create_elem : VirtQueueElement :=
  { out_sg := [sample_create_bytes,
      le32_bytes 8192 ++ le32_bytes 0 ++ le32_bytes 64 ++ le32_bytes 0], in_sg := [8] }

/-- The device properties of a decoder on the vaapi backend, with an
iothread. -/
def vaapi_conf : VirtIOVideoConf :=
  { model := some "v4l2-dec", backend := some "vaapi", iothread := true }

/-- The request `sample_create` for the output queue: output resource 7 of
stream 1 with one plane of one entry and the layout field left 0. -/
def output_create : virtio_video_resource_create :=
  { sample_create with queue_type := 0x101 }

/-- The 88 bytes of `output_create` under the version 3 header. -/
def output_create_bytes : List Nat :=
  le32_bytes 0x104 ++ le32_bytes 1 ++ le32_bytes 0x101 ++ le32_bytes 7 ++ le32_bytes 0 ++
    le32_bytes 1 ++ List.replicate 32 0 ++ le32_bytes 1 ++ List.replicate 28 0

/-- A well-formed message carrying `output_create` and its one entry, with
room for an 8-byte response. -/
def output_create_elem : VirtQueueElement :=
  { out_sg := [output_create_bytes, sample_entry_bytes], in_sg := [8] }

/-- The sample stream with NV12 as the format of its output queue; the format
of its input queue is 5. -/
def nv12_output_stream : VirtIOVideoStream :=
  { sample_stream with out := { mem_type := 0, params := { format := 3 }, setted := true } }

/-- The sample device with `nv12_output_stream` as its only stream. -/
def nv12_output_device : VirtIOVideo :=
  { sample_device with stream_list := [nv12_output_stream] }

/-- The sample stream with NV12 as the format of its input queue; the format
of its output queue is 4. -/
def nv12_input_stream : VirtIOVideoStream :=
  { sample_stream with in_ := { mem_type := 0, params := { format := 3 }, setted := true } }

/-- The sample device with `nv12_input_stream` as its only stream. -/
def nv12_input_device : VirtIOVideo :=
  { sample_device with stream_list := [nv12_input_stream] }

end VirtioVideo

namespace VirtioVideo

/-! ## Resource creation: mapping failures -/

/-- C1 (code evaluated at the failing input): with two planes of one entry
each, where the entry of plane 1 maps short, `virtio_video_resource_create_page`
returns `-1` having unmapped only the short slice; the slice of plane 0,
mapped at host address 8192 with 64 bytes, is still mapped. -/
theorem create_page_leaks_earlier_plane :
    (virtio_video_resource_create_page host_short_at_8192 two_plane_resource
        two_entries false).ret = -1 ∧
      (virtio_video_resource_create_page host_short_at_8192 two_plane_resource
        two_entries false).trace =
        [Effect.dma_memory_map 4096 64 false 8192 64,
         Effect.dma_memory_map 8192 64 false 12288 32,
         Effect.dma_memory_unmap 12288 32 false] ∧
      live_mappings (virtio_video_resource_create_page host_short_at_8192 two_plane_resource
        two_entries false).trace = [(8192, 64)] := by
  decide

/-! ## Capability query -/

theorem layout_records_append (K : Proto) (a b : List CapRecord) (start : Nat) :
    layout_records K start (a ++ b) =
      layout_records K start a ++ layout_records K (start + records_size K a) b := by
  induction a generalizing start with
  | nil => simp [layout_records, records_size]
  | cons r rest ih =>
    simp [layout_records, records_size, ih, Nat.add_assoc]

theorem layout_records_snd (K : Proto) (records : List CapRecord) (start : Nat) :
    (layout_records K start records).map Prod.snd = records := by
  induction records generalizing start with
  | nil => simp [layout_records]
  | cons r rest ih => simp [layout_records, ih]

theorem records_size_append (K : Proto) (a b : List CapRecord) :
    records_size K (a ++ b) = records_size K a + records_size K b := by
  simp [records_size]

theorem copy_rates_eq (K : Proto) (frame_rates : List virtio_video_format_range)
    (k i buf : Nat) (table : List (Nat × CapRecord)) :
    query_capability_copy_rates K frame_rates k i buf table =
      (buf + k * K.sizeof_format_range,
       table ++ layout_records K buf
         ((List.range k).map (fun j => CapRecord.range (frame_rates.getD (i + j) default)))) := by
  induction k generalizing i buf table with
  | zero => simp [query_capability_copy_rates, layout_records]
  | succ k ih =>
    rw [query_capability_copy_rates, ih, List.range_succ_eq_map]
    simp only [List.map_cons, List.map_map, layout_records, CapRecord.sizeof, Nat.add_zero,
      List.append_assoc, List.singleton_append]
    refine Prod.ext ?_ ?_
    · simp only; ring
    · simp only
      congr 3
      apply List.map_congr_left
      intro j _
      simp only [Function.comp, Nat.succ_eq_add_one]
      congr 2
      omega

theorem range_records_size (K : Proto) (f : Nat → virtio_video_format_range) (k : Nat) :
    records_size K ((List.range k).map (fun j => CapRecord.range (f j))) =
      k * K.sizeof_format_range := by
  induction k with
  | zero => simp [records_size]
  | succ k ih =>
    rw [List.range_succ, List.map_append, records_size_append, ih]
    simp [records_size, CapRecord.sizeof]
    ring

theorem frame_records_size (K : Proto) (fmt_frame : VirtIOVideoFormatFrame) :
    records_size K (frame_records fmt_frame) =
      K.sizeof_format_frame + fmt_frame.frame.num_rates * K.sizeof_format_range := by
  have h := range_records_size K (fun j => fmt_frame.frame_rates.getD j default)
    fmt_frame.frame.num_rates
  have h2 : frame_records fmt_frame = [CapRecord.frame fmt_frame.frame] ++
      (List.range fmt_frame.frame.num_rates).map
        (fun i => CapRecord.range (fmt_frame.frame_rates.getD i default)) := rfl
  rw [h2, records_size_append, h]
  simp [records_size, CapRecord.sizeof]

theorem copy_frames_eq (K : Proto) (frames : List VirtIOVideoFormatFrame)
    (buf : Nat) (table : List (Nat × CapRecord)) :
    query_capability_copy_frames K frames buf table =
      (buf + records_size K (frames.flatMap frame_records),
       table ++ layout_records K buf (frames.flatMap frame_records)) := by
  induction frames generalizing buf table with
  | nil => simp [query_capability_copy_frames, layout_records, records_size]
  | cons fmt_frame rest ih =>
    rw [query_capability_copy_frames]
    simp only [copy_rates_eq, ih, List.flatMap_cons, layout_records_append,
      records_size_append, frame_records_size]
    refine Prod.ext ?_ ?_
    · simp only; ring
    · simp only [frame_records, layout_records, CapRecord.sizeof, Nat.zero_add,
        List.append_assoc, List.singleton_append, List.cons_append, List.nil_append]
      simp [Nat.add_assoc]

theorem copy_eq (K : Proto) (formats : List VirtIOVideoFormat)
    (buf : Nat) (table : List (Nat × CapRecord)) :
    query_capability_copy K formats buf table =
      (buf + records_size K (copied_records formats),
       table ++ layout_records K buf (copied_records formats)) := by
  induction formats generalizing buf table with
  | nil => simp [query_capability_copy, copied_records, layout_records, records_size]
  | cons fmt rest ih =>
    rw [query_capability_copy]
    simp only [copy_frames_eq, ih, copied_records, List.flatMap_cons, layout_records_append,
      records_size_append]
    refine Prod.ext ?_ ?_
    · simp only [format_records, records_size, List.map_cons, List.sum_cons, CapRecord.sizeof]
      ring
    · simp only [format_records, layout_records, CapRecord.sizeof, List.append_assoc,
        List.singleton_append, List.cons_append, List.nil_append]
      simp [records_size, CapRecord.sizeof, Nat.add_assoc]

theorem len_frames_eq (K : Proto) (frames : List VirtIOVideoFormatFrame) (len : Nat) :
    query_capability_len_frames K frames len =
      len + records_size K (frames.flatMap frame_records) := by
  induction frames generalizing len with
  | nil => simp [query_capability_len_frames, records_size]
  | cons fmt_frame rest ih =>
    rw [query_capability_len_frames, ih, List.flatMap_cons, records_size_append,
      frame_records_size]
    ring

theorem format_records_size (K : Proto) (fmt : VirtIOVideoFormat) :
    records_size K (format_records fmt) =
      K.sizeof_format_desc + records_size K (fmt.frames.flatMap frame_records) := by
  simp [format_records, records_size, CapRecord.sizeof]

theorem len_eq (K : Proto) (formats : List VirtIOVideoFormat) (num_descs len : Nat) :
    query_capability_len K formats num_descs len =
      (num_descs + formats.length, len + records_size K (copied_records formats)) := by
  induction formats generalizing num_descs len with
  | nil => simp [query_capability_len, copied_records, records_size]
  | cons fmt rest ih =>
    rw [query_capability_len, ih, len_frames_eq]
    simp only [copied_records, List.flatMap_cons, records_size_append, format_records_size,
      List.length_cons]
    refine Prod.ext ?_ ?_ <;> simp only <;> ring

theorem frame_records_no_desc (frames : List VirtIOVideoFormatFrame) :
    (frames.flatMap frame_records).filter CapRecord.is_desc = [] := by
  induction frames with
  | nil => simp
  | cons fmt_frame rest ih =>
    simp only [List.flatMap_cons, List.filter_append, ih, List.append_nil]
    simp [frame_records, CapRecord.is_desc, List.filter_eq_nil_iff]

theorem copied_records_descs (formats : List VirtIOVideoFormat) :
    ((copied_records formats).filter CapRecord.is_desc).length = formats.length := by
  induction formats with
  | nil => simp [copied_records]
  | cons fmt rest ih =>
    simp only [copied_records, List.flatMap_cons, List.filter_append, List.length_append] at ih ⊢
    rw [ih]
    simp [format_records, CapRecord.is_desc, frame_records_no_desc]
    omega

theorem table_descs (K : Proto) (records : List CapRecord) (start : Nat) :
    ((layout_records K start records).filter (fun x => x.2.is_desc)).length =
      (records.filter CapRecord.is_desc).length := by
  induction records generalizing start with
  | nil => simp [layout_records]
  | cons r rest ih =>
    simp only [layout_records, List.filter_cons]
    cases h : r.is_desc <;> simp [ih]

theorem reference_length_eq (K : Proto) (formats : List VirtIOVideoFormat) :
    reference_length K formats =
      K.sizeof_query_capability_resp + records_size K (copied_records formats) := by
  unfold reference_length
  congr 1
  induction formats with
  | nil => simp [copied_records, records_size]
  | cons fmt rest ih =>
    simp only [List.map_cons, List.sum_cons, ih, copied_records, List.flatMap_cons,
      records_size_append, format_records_size]
    congr 2
    generalize fmt.frames = frames
    induction frames with
    | nil => simp [records_size]
    | cons fmt_frame more ih2 =>
      simp only [List.map_cons, List.sum_cons, ih2, List.flatMap_cons, records_size_append,
        frame_records_size]

theorem range_getD_eq_take (l : List virtio_video_format_range) (n : Nat)
    (h : n ≤ l.length) : (List.range n).map (fun i => l.getD i default) = l.take n := by
  apply List.ext_getElem
  · simp [h]
  · intro i h1 h2
    simp at h1 h2
    simp [List.getD_eq_getElem?_getD, List.getElem?_eq_getElem (show i < l.length by omega)]

theorem copied_eq_reference (formats : List VirtIOVideoFormat)
    (h : registry_rates_in_bounds formats) :
    copied_records formats = reference_records formats := by
  induction formats with
  | nil => simp [copied_records, reference_records]
  | cons fmt rest ih =>
    have hrest : registry_rates_in_bounds rest :=
      fun f hf => h f (List.mem_cons_of_mem _ hf)
    have hfmt : ∀ fmt_frame ∈ fmt.frames,
        fmt_frame.frame.num_rates ≤ fmt_frame.frame_rates.length :=
      h fmt (List.mem_cons_self _ _)
    have ih2 := ih hrest
    simp only [copied_records, reference_records, List.flatMap_cons] at ih2 ⊢
    rw [ih2]
    congr 1
    simp only [format_records]
    congr 1
    generalize fmt.frames = frames at hfmt
    induction frames with
    | nil => simp
    | cons fmt_frame more ih3 =>
      simp only [List.flatMap_cons]
      rw [ih3 (fun f hf => hfmt f (List.mem_cons_of_mem _ hf))]
      congr 1
      simp only [frame_records]
      congr 1
      rw [← range_getD_eq_take _ _ (hfmt fmt_frame (List.mem_cons_self _ _))]
      simp [List.map_map, Function.comp]

/-- C5: a capability query whose queue type is neither the input nor the
output queue type is answered, whatever the registry holds, with a buffer of
exactly the size of the response header, of type `ERR_INVALID_PARAMETER`,
carrying the stream id of the request, a descriptor count of 0 and no table;
the returned length is that same size. -/
theorem query_capability_invalid_queue_type (K : Proto) (v : VirtIOVideo)
    (req : virtio_video_query_capability)
    (hin : req.queue_type ≠ K.VIRTIO_VIDEO_QUEUE_TYPE_INPUT)
    (hout : req.queue_type ≠ K.VIRTIO_VIDEO_QUEUE_TYPE_OUTPUT) :
    (virtio_video_process_cmd_query_capability K v req).len = K.sizeof_query_capability_resp ∧
      (virtio_video_process_cmd_query_capability K v req).resp =
        { size := K.sizeof_query_capability_resp
          hdr := { type := K.VIRTIO_VIDEO_RESP_ERR_INVALID_PARAMETER
                   stream_id := req.hdr.stream_id }
          num_descs := 0
          table := [] } := by
  simp [virtio_video_process_cmd_query_capability, hin, hout]

/-- Witness of C5: queue type 2 under the version 3 header, on a device with a
non-empty registry. -/
theorem query_capability_invalid_queue_type_witness :
    (2 ≠ proto_v3.VIRTIO_VIDEO_QUEUE_TYPE_INPUT ∧ 2 ≠ proto_v3.VIRTIO_VIDEO_QUEUE_TYPE_OUTPUT) ∧
      (virtio_video_process_cmd_query_capability proto_v3 sample_device
          { hdr := { type := 0x100, stream_id := 5 }, queue_type := 2 }).len = 16 ∧
      (virtio_video_process_cmd_query_capability proto_v3 sample_device
          { hdr := { type := 0x100, stream_id := 5 }, queue_type := 2 }).resp =
        { size := 16, hdr := { type := 0x304, stream_id := 5 }, num_descs := 0, table := [] } :=
  ⟨by decide,
   query_capability_invalid_queue_type proto_v3 sample_device
     { hdr := { type := 0x100, stream_id := 5 }, queue_type := 2 } (by decide) (by decide)⟩

/-- The direction a valid queue type selects. -/
theorem query_capability_valid (K : Proto) (v : VirtIOVideo)
    (req : virtio_video_query_capability) (dir : Nat)
    (hq : (req.queue_type = K.VIRTIO_VIDEO_QUEUE_TYPE_INPUT ∧ dir = VIRTIO_VIDEO_QUEUE_INPUT) ∨
      (req.queue_type = K.VIRTIO_VIDEO_QUEUE_TYPE_OUTPUT ∧ dir = VIRTIO_VIDEO_QUEUE_OUTPUT)) :
    virtio_video_process_cmd_query_capability K v req =
      { len := K.sizeof_query_capability_resp + records_size K (copied_records (v.format_list dir))
        resp :=
          { size := K.sizeof_query_capability_resp +
              records_size K (copied_records (v.format_list dir))
            hdr := { type := K.VIRTIO_VIDEO_RESP_OK_QUERY_CAPABILITY
                     stream_id := req.hdr.stream_id }
            num_descs := (v.format_list dir).length
            table := layout_records K K.sizeof_query_capability_resp
              (copied_records (v.format_list dir)) }
        buf := K.sizeof_query_capability_resp +
          records_size K (copied_records (v.format_list dir))
        v := v } := by
  rcases hq with ⟨h1, h2⟩ | ⟨h1, h2⟩
  · subst h2
    simp [virtio_video_process_cmd_query_capability, h1, len_eq, copy_eq]
  · subst h2
    have hne : K.VIRTIO_VIDEO_QUEUE_TYPE_OUTPUT ≠ K.VIRTIO_VIDEO_QUEUE_TYPE_INPUT :=
      fun h => K.queue_type_labels_distinct h.symm
    simp [virtio_video_process_cmd_query_capability, h1, hne, len_eq, copy_eq]

/-- C6: for a valid queue type and any registry, the descriptor count in the
header equals the number of descriptor records written; the returned length
equals the size of the allocated buffer; the records lie one after the other
from the end of the header on, so that the returned length is the header size
plus the bytes written; and the write cursor ends at the end of the buffer. -/
theorem query_capability_counts_agree (K : Proto) (v : VirtIOVideo)
    (req : virtio_video_query_capability)
    (hq : req.queue_type = K.VIRTIO_VIDEO_QUEUE_TYPE_INPUT ∨
      req.queue_type = K.VIRTIO_VIDEO_QUEUE_TYPE_OUTPUT) :
    (virtio_video_process_cmd_query_capability K v req).resp.num_descs =
        ((virtio_video_process_cmd_query_capability K v req).resp.table.filter
          (fun x => x.2.is_desc)).length ∧
      (virtio_video_process_cmd_query_capability K v req).len =
        (virtio_video_process_cmd_query_capability K v req).resp.size ∧
      (virtio_video_process_cmd_query_capability K v req).resp.table =
        layout_records K K.sizeof_query_capability_resp
          ((virtio_video_process_cmd_query_capability K v req).resp.table.map Prod.snd) ∧
      (virtio_video_process_cmd_query_capability K v req).len =
        K.sizeof_query_capability_resp +
          records_size K
            ((virtio_video_process_cmd_query_capability K v req).resp.table.map Prod.snd) ∧
      (virtio_video_process_cmd_query_capability K v req).buf =
        (virtio_video_process_cmd_query_capability K v req).len := by
  have h : ∃ dir,
      (req.queue_type = K.VIRTIO_VIDEO_QUEUE_TYPE_INPUT ∧ dir = VIRTIO_VIDEO_QUEUE_INPUT) ∨
      (req.queue_type = K.VIRTIO_VIDEO_QUEUE_TYPE_OUTPUT ∧ dir = VIRTIO_VIDEO_QUEUE_OUTPUT) := by
    rcases hq with h | h
    · exact ⟨_, Or.inl ⟨h, rfl⟩⟩
    · exact ⟨_, Or.inr ⟨h, rfl⟩⟩
  obtain ⟨dir, hdir⟩ := h
  rw [query_capability_valid K v req dir hdir]
  simp only [layout_records_snd, table_descs, copied_records_descs, and_self]

/-- Witness of C6: an output query on the sample device. -/
theorem query_capability_counts_agree_witness :
    (sample_output_query.queue_type = proto_v3.VIRTIO_VIDEO_QUEUE_TYPE_INPUT ∨
        sample_output_query.queue_type = proto_v3.VIRTIO_VIDEO_QUEUE_TYPE_OUTPUT) ∧
      ((virtio_video_process_cmd_query_capability proto_v3 sample_device
            sample_output_query).resp.num_descs =
          ((virtio_video_process_cmd_query_capability proto_v3 sample_device
            sample_output_query).resp.table.filter (fun x => x.2.is_desc)).length ∧
        (virtio_video_process_cmd_query_capability proto_v3 sample_device
            sample_output_query).len =
          (virtio_video_process_cmd_query_capability proto_v3 sample_device
            sample_output_query).resp.size ∧
        (virtio_video_process_cmd_query_capability proto_v3 sample_device
            sample_output_query).resp.table =
          layout_records proto_v3 proto_v3.sizeof_query_capability_resp
            ((virtio_video_process_cmd_query_capability proto_v3 sample_device
              sample_output_query).resp.table.map Prod.snd) ∧
        (virtio_video_process_cmd_query_capability proto_v3 sample_device
            sample_output_query).len =
          proto_v3.sizeof_query_capability_resp +
            records_size proto_v3
              ((virtio_video_process_cmd_query_capability proto_v3 sample_device
                sample_output_query).resp.table.map Prod.snd) ∧
        (virtio_video_process_cmd_query_capability proto_v3 sample_device
            sample_output_query).buf =
          (virtio_video_process_cmd_query_capability proto_v3 sample_device
            sample_output_query).len) :=
  ⟨by decide,
   query_capability_counts_agree proto_v3 sample_device sample_output_query (by decide)⟩

/-- C7: for a valid queue type and a registry whose frame entries store their
`num_rates` frame rates, the response is the reference serialization of that
direction's format list: header of type `OK_QUERY_CAPABILITY` with the stream
id of the request and the number of formats as descriptor count, then the
reference records placed one after the other; the returned length and the
buffer size are the reference length; the device is unchanged. -/
theorem query_capability_matches_reference (K : Proto) (v : VirtIOVideo)
    (req : virtio_video_query_capability) (dir : Nat)
    (hq : (req.queue_type = K.VIRTIO_VIDEO_QUEUE_TYPE_INPUT ∧ dir = VIRTIO_VIDEO_QUEUE_INPUT) ∨
      (req.queue_type = K.VIRTIO_VIDEO_QUEUE_TYPE_OUTPUT ∧ dir = VIRTIO_VIDEO_QUEUE_OUTPUT))
    (hb : registry_rates_in_bounds (v.format_list dir)) :
    (virtio_video_process_cmd_query_capability K v req).resp.hdr =
        { type := K.VIRTIO_VIDEO_RESP_OK_QUERY_CAPABILITY, stream_id := req.hdr.stream_id } ∧
      (virtio_video_process_cmd_query_capability K v req).resp.num_descs =
        (v.format_list dir).length ∧
      (virtio_video_process_cmd_query_capability K v req).resp.table =
        layout_records K K.sizeof_query_capability_resp
          (reference_records (v.format_list dir)) ∧
      (virtio_video_process_cmd_query_capability K v req).len =
        reference_length K (v.format_list dir) ∧
      (virtio_video_process_cmd_query_capability K v req).resp.size =
        reference_length K (v.format_list dir) ∧
      (virtio_video_process_cmd_query_capability K v req).v = v := by
  rw [query_capability_valid K v req dir hq, reference_length_eq,
    ← copied_eq_reference _ hb]
  simp

/-- Witness of C7: an output query on the sample device. -/
theorem query_capability_matches_reference_witness :
    ((sample_output_query.queue_type = proto_v3.VIRTIO_VIDEO_QUEUE_TYPE_INPUT ∧
          VIRTIO_VIDEO_QUEUE_OUTPUT = VIRTIO_VIDEO_QUEUE_INPUT) ∨
        (sample_output_query.queue_type = proto_v3.VIRTIO_VIDEO_QUEUE_TYPE_OUTPUT ∧
          VIRTIO_VIDEO_QUEUE_OUTPUT = VIRTIO_VIDEO_QUEUE_OUTPUT)) ∧
      registry_rates_in_bounds (sample_device.format_list VIRTIO_VIDEO_QUEUE_OUTPUT) ∧
      ((virtio_video_process_cmd_query_capability proto_v3 sample_device
            sample_output_query).resp.hdr =
          { type := proto_v3.VIRTIO_VIDEO_RESP_OK_QUERY_CAPABILITY
            stream_id := sample_output_query.hdr.stream_id } ∧
        (virtio_video_process_cmd_query_capability proto_v3 sample_device
            sample_output_query).resp.num_descs =
          (sample_device.format_list VIRTIO_VIDEO_QUEUE_OUTPUT).length ∧
        (virtio_video_process_cmd_query_capability proto_v3 sample_device
            sample_output_query).resp.table =
          layout_records proto_v3 proto_v3.sizeof_query_capability_resp
            (reference_records (sample_device.format_list VIRTIO_VIDEO_QUEUE_OUTPUT)) ∧
        (virtio_video_process_cmd_query_capability proto_v3 sample_device
            sample_output_query).len =
          reference_length proto_v3 (sample_device.format_list VIRTIO_VIDEO_QUEUE_OUTPUT) ∧
        (virtio_video_process_cmd_query_capability proto_v3 sample_device
            sample_output_query).resp.size =
          reference_length proto_v3 (sample_device.format_list VIRTIO_VIDEO_QUEUE_OUTPUT) ∧
        (virtio_video_process_cmd_query_capability proto_v3 sample_device
            sample_output_query).v = sample_device) :=
  ⟨by decide, by unfold registry_rates_in_bounds; decide,
   query_capability_matches_reference proto_v3 sample_device sample_output_query
     VIRTIO_VIDEO_QUEUE_OUTPUT (by decide) (by unfold registry_rates_in_bounds; decide)⟩

/-! ## Resource creation: the handler -/

theorem find_stream_id (stream_list : List VirtIOVideoStream) (id : Nat)
    (stream : VirtIOVideoStream) (h : find_stream stream_list id = some stream) :
    stream.id = id := by
  have := List.find?_some h
  simpa using this

theorem update_stream_self (stream_list : List VirtIOVideoStream) (id : Nat)
    (stream : VirtIOVideoStream) (h : find_stream stream_list id = some stream) :
    update_stream stream_list id stream = stream_list := by
  induction stream_list with
  | nil => rfl
  | cons s rest ih =>
    unfold find_stream at h ih
    by_cases hs : s.id = id
    · simp [List.find?_cons, hs] at h
      subst h
      simp [update_stream, hs]
    · simp [List.find?_cons, hs] at h
      simp [update_stream, hs, ih h]

theorem find_stream_update (stream_list : List VirtIOVideoStream) (id : Nat)
    (stream stream1 : VirtIOVideoStream) (h : find_stream stream_list id = some stream)
    (hid : stream1.id = id) :
    find_stream (update_stream stream_list id stream1) id = some stream1 := by
  induction stream_list with
  | nil => simp [find_stream] at h
  | cons s rest ih =>
    unfold find_stream at h ih ⊢
    by_cases hs : s.id = id
    · simp [update_stream, hs, List.find?_cons, hid]
    · simp [List.find?_cons, hs] at h
      simp [update_stream, hs, List.find?_cons, ih h]

theorem find_work_of_mem (work_queue : List VirtIOVideoWork) (resource_id : Nat)
    (h : ∃ work ∈ work_queue, work.resource.id = resource_id) :
    ∃ work, find_work work_queue resource_id = some work := by
  obtain ⟨w, hw, hid⟩ := h
  cases hf : find_work work_queue resource_id with
  | some work => exact ⟨work, rfl⟩
  | none =>
    unfold find_work at hf
    rw [List.find?_eq_none] at hf
    have := hf w hw
    simp [hid] at this

/-- C2: a resource-create request on a live stream, for a valid queue type,
whose resource id is the id of the resource of a work item pending in that
direction's work queue, is answered with `ERR_INVALID_RESOURCE_ID` (in a
response of the size of the response header); the device, and with it every
resource list and work queue, is unchanged, and the only host calls are the
lock and the unlock of the stream mutex: nothing is mapped, unmapped or
destroyed. -/
theorem resource_create_in_flight (K : Proto) (H : Host) (v : VirtIOVideo)
    (req : virtio_video_resource_create) (elem : VirtQueueElement) (stream : VirtIOVideoStream)
    (hstream : find_stream v.stream_list req.hdr.stream_id = some stream)
    (hwork :
      (req.queue_type = K.VIRTIO_VIDEO_QUEUE_TYPE_INPUT ∧
        ∃ work ∈ stream.input_work, work.resource.id = req.resource_id) ∨
      (req.queue_type = K.VIRTIO_VIDEO_QUEUE_TYPE_OUTPUT ∧
        ∃ work ∈ stream.output_work, work.resource.id = req.resource_id)) :
    (virtio_video_process_cmd_resource_create K H v req elem).resp =
        { type := K.VIRTIO_VIDEO_RESP_ERR_INVALID_RESOURCE_ID, stream_id := req.hdr.stream_id } ∧
      (virtio_video_process_cmd_resource_create K H v req elem).len = K.sizeof_cmd_hdr ∧
      (virtio_video_process_cmd_resource_create K H v req elem).v = v ∧
      (virtio_video_process_cmd_resource_create K H v req elem).trace =
        [Effect.qemu_mutex_lock (Mutex.stream stream.id),
         Effect.qemu_mutex_unlock (Mutex.stream stream.id)] := by
  have hlocked : resource_create_locked K H stream req elem =
      { len := K.sizeof_cmd_hdr, type := K.VIRTIO_VIDEO_RESP_ERR_INVALID_RESOURCE_ID,
        stream := stream, trace := [] } := by
    rcases hwork with ⟨hq, hw⟩ | ⟨hq, hw⟩
    · obtain ⟨w, hfw⟩ := find_work_of_mem _ _ hw
      simp [resource_create_locked, resource_create_queue, hq, hfw]
    · obtain ⟨w, hfw⟩ := find_work_of_mem _ _ hw
      have hne : K.VIRTIO_VIDEO_QUEUE_TYPE_OUTPUT ≠ K.VIRTIO_VIDEO_QUEUE_TYPE_INPUT :=
        fun h => K.queue_type_labels_distinct h.symm
      simp [resource_create_locked, resource_create_queue, hq, hne, hfw]
  simp only [virtio_video_process_cmd_resource_create, hstream, hlocked,
    update_stream_self _ _ _ hstream]
  simp

/-- Witness of C2: resource 7 of stream 1 is queued on the input queue and
the guest asks to create input resource 7 again. -/
theorem resource_create_in_flight_witness :
    find_stream busy_device.stream_list sample_create.hdr.stream_id = some busy_stream ∧
      ((sample_create.queue_type = proto_v3.VIRTIO_VIDEO_QUEUE_TYPE_INPUT ∧
          ∃ work ∈ busy_stream.input_work, work.resource.id = sample_create.resource_id) ∨
        (sample_create.queue_type = proto_v3.VIRTIO_VIDEO_QUEUE_TYPE_OUTPUT ∧
          ∃ work ∈ busy_stream.output_work, work.resource.id = sample_create.resource_id)) ∧
      ((virtio_video_process_cmd_resource_create proto_v3 host_short_at_8192 busy_device
            sample_create { out_sg := [], in_sg := [8] }).resp =
          { type := proto_v3.VIRTIO_VIDEO_RESP_ERR_INVALID_RESOURCE_ID
            stream_id := sample_create.hdr.stream_id } ∧
        (virtio_video_process_cmd_resource_create proto_v3 host_short_at_8192 busy_device
            sample_create { out_sg := [], in_sg := [8] }).len = proto_v3.sizeof_cmd_hdr ∧
        (virtio_video_process_cmd_resource_create proto_v3 host_short_at_8192 busy_device
            sample_create { out_sg := [], in_sg := [8] }).v = busy_device ∧
        (virtio_video_process_cmd_resource_create proto_v3 host_short_at_8192 busy_device
            sample_create { out_sg := [], in_sg := [8] }).trace =
          [Effect.qemu_mutex_lock (Mutex.stream busy_stream.id),
           Effect.qemu_mutex_unlock (Mutex.stream busy_stream.id)]) :=
  ⟨by decide, by decide,
   resource_create_in_flight proto_v3 host_short_at_8192 busy_device sample_create
     { out_sg := [], in_sg := [8] } busy_stream (by decide) (by decide)⟩

/-! ## Resource creation: the page mapper when it succeeds -/

theorem create_page_entries_maps (H : Host) (entries : List virtio_video_mem_entry)
    (output : Bool) (k n : Nat) (row : List VirtIOVideoResourceSlice) (trace : List Effect)
    (h : (create_page_entries H entries output k n row trace).1 = true) :
    ∃ maps, (create_page_entries H entries output k n row trace).2.2.2 = trace ++ maps ∧
      ∀ e ∈ maps, e.is_map = true := by
  induction k generalizing n row trace with
  | zero => exact ⟨[], by simp [create_page_entries]⟩
  | succ k ih =>
    rw [create_page_entries] at h ⊢
    by_cases hs : (slice_of H output (entries.getD n default)).len <
        (entries.getD n default).length
    · rw [if_pos hs] at h
      exact absurd h (by simp)
    · rw [if_neg hs] at h ⊢
      obtain ⟨maps, hm, hall⟩ := ih _ _ _ h
      refine ⟨map_effect H output (entries.getD n default) :: maps, ?_, ?_⟩
      · rw [hm]; simp
      · intro e he
        rcases List.mem_cons.mp he with rfl | he
        · rfl
        · exact hall e he

theorem create_page_planes_id (H : Host) (resource : VirtIOVideoResource)
    (entries : List virtio_video_mem_entry) (output : Bool) (p i n : Nat)
    (slices : List (List VirtIOVideoResourceSlice)) (trace : List Effect) :
    (create_page_planes H resource entries output p i n slices trace).resource.id =
      resource.id := by
  induction p generalizing i n slices trace with
  | zero => cases output <;> simp [create_page_planes, create_page_done]
  | succ p ih =>
    rw [create_page_planes]
    rcases hr : create_page_entries H entries output (resource.num_entries.getD i 0) n []
      trace with ⟨ok, n1, row, trace1⟩
    cases ok
    · simp
    · simp [ih]

theorem create_page_planes_maps (H : Host) (resource : VirtIOVideoResource)
    (entries : List virtio_video_mem_entry) (output : Bool) (p i n : Nat)
    (slices : List (List VirtIOVideoResourceSlice)) (trace : List Effect)
    (h : ¬ (create_page_planes H resource entries output p i n slices trace).ret < 0) :
    ∃ maps, (create_page_planes H resource entries output p i n slices trace).trace =
        trace ++ maps ∧ ∀ e ∈ maps, e.is_map = true := by
  induction p generalizing i n slices trace with
  | zero => exact ⟨[], by simp [create_page_planes]⟩
  | succ p ih =>
    rw [create_page_planes] at h ⊢
    have hm := create_page_entries_maps H entries output (resource.num_entries.getD i 0) n []
      trace
    rcases hr : create_page_entries H entries output (resource.num_entries.getD i 0) n []
      trace with ⟨ok, n1, row, trace1⟩
    rw [hr] at h hm
    cases ok
    · simp at h
    · simp only at h ⊢
      obtain ⟨maps1, h1, hall1⟩ := hm rfl
      obtain ⟨maps2, h2, hall2⟩ := ih _ _ _ _ h
      simp only at h1
      refine ⟨maps1 ++ maps2, ?_, ?_⟩
      · rw [h2, h1]; simp
      · intro e he
        rcases List.mem_append.mp he with he | he
        · exact hall1 e he
        · exact hall2 e he

/-! ## Resource creation: replacement and success -/

theorem resp_err_ne_ok (K : Proto) :
    K.VIRTIO_VIDEO_RESP_ERR_INVALID_OPERATION ≠ K.VIRTIO_VIDEO_RESP_OK_NODATA ∧
      K.VIRTIO_VIDEO_RESP_ERR_INVALID_STREAM_ID ≠ K.VIRTIO_VIDEO_RESP_OK_NODATA ∧
      K.VIRTIO_VIDEO_RESP_ERR_INVALID_RESOURCE_ID ≠ K.VIRTIO_VIDEO_RESP_OK_NODATA ∧
      K.VIRTIO_VIDEO_RESP_ERR_INVALID_PARAMETER ≠ K.VIRTIO_VIDEO_RESP_OK_NODATA := by
  have h := K.resp_types_distinct
  simp only [List.nodup_cons, List.mem_cons, List.mem_singleton, not_or] at h
  obtain ⟨⟨_, h1, h2, h3, h4, _⟩, _⟩ := h
  exact ⟨fun e => h1 e.symm, fun e => h2 e.symm, fun e => h3 e.symm, fun e => h4 e.symm⟩

theorem resource_create_queue_eq (K : Proto) (stream : VirtIOVideoStream)
    (req : virtio_video_resource_create) :
    resource_create_queue K stream req =
      (queue_dir K req.queue_type).map (fun dir =>
        ((stream.queue_info dir).params.format, (stream.queue_info dir).mem_type, dir,
          find_work (stream.work_queue dir) req.resource_id)) := by
  unfold resource_create_queue queue_dir
  by_cases h1 : req.queue_type = K.VIRTIO_VIDEO_QUEUE_TYPE_INPUT
  · simp [h1, VirtIOVideoStream.queue_info, VirtIOVideoStream.work_queue]
  · by_cases h2 : req.queue_type = K.VIRTIO_VIDEO_QUEUE_TYPE_OUTPUT
    · have hne : K.VIRTIO_VIDEO_QUEUE_TYPE_OUTPUT ≠ K.VIRTIO_VIDEO_QUEUE_TYPE_INPUT :=
        fun h => K.queue_type_labels_distinct h.symm
      simp [h2, hne, VirtIOVideoStream.queue_info, VirtIOVideoStream.work_queue,
        VIRTIO_VIDEO_QUEUE_INPUT, VIRTIO_VIDEO_QUEUE_OUTPUT]
    · simp [h1, h2]

theorem resource_list_set (stream : VirtIOVideoStream) (dir : Nat)
    (l : List VirtIOVideoResource) : (stream.set_resource_list dir l).resource_list dir = l := by
  unfold VirtIOVideoStream.set_resource_list VirtIOVideoStream.resource_list
  by_cases h : dir = VIRTIO_VIDEO_QUEUE_INPUT <;> simp [h]

theorem resource_list_set_other (stream : VirtIOVideoStream) (dir : Nat)
    (l : List VirtIOVideoResource) :
    (stream.set_resource_list dir l).resource_list (1 - dir) = stream.resource_list (1 - dir) := by
  unfold VirtIOVideoStream.set_resource_list VirtIOVideoStream.resource_list
  by_cases h : dir = VIRTIO_VIDEO_QUEUE_INPUT
  · simp [h, VIRTIO_VIDEO_QUEUE_INPUT]
  · have : 1 - dir = VIRTIO_VIDEO_QUEUE_INPUT := by
      unfold VIRTIO_VIDEO_QUEUE_INPUT at h ⊢; omega
    simp [h, this]

theorem set_resource_list_set (stream : VirtIOVideoStream) (dir : Nat)
    (l l1 : List VirtIOVideoResource) :
    (stream.set_resource_list dir l).set_resource_list dir l1 =
      stream.set_resource_list dir l1 := by
  unfold VirtIOVideoStream.set_resource_list
  by_cases h : dir = VIRTIO_VIDEO_QUEUE_INPUT <;> simp [h]

theorem set_resource_list_fields (stream : VirtIOVideoStream) (dir : Nat)
    (l : List VirtIOVideoResource) :
    (stream.set_resource_list dir l).id = stream.id ∧
      (stream.set_resource_list dir l).in_ = stream.in_ ∧
      (stream.set_resource_list dir l).out = stream.out ∧
      (stream.set_resource_list dir l).input_work = stream.input_work ∧
      (stream.set_resource_list dir l).output_work = stream.output_work := by
  unfold VirtIOVideoStream.set_resource_list
  by_cases h : dir = VIRTIO_VIDEO_QUEUE_INPUT <;> simp [h]

theorem find_resource_unique (list : List VirtIOVideoResource) (old : VirtIOVideoResource)
    (hold : old ∈ list) (huniq : (list.map (fun r => r.id)).Nodup) :
    find_resource list old.id = some old := by
  cases hf : find_resource list old.id with
  | none =>
    unfold find_resource at hf
    rw [List.find?_eq_none] at hf
    have := hf old hold
    simp at this
  | some x =>
    unfold find_resource at hf
    have hx : x ∈ list := List.mem_of_find?_eq_some hf
    have hid : x.id = old.id := by simpa using List.find?_some hf
    rw [List.inj_on_of_nodup_map huniq hx hold hid]

theorem erase_no_id (list : List VirtIOVideoResource) (old : VirtIOVideoResource)
    (hold : old ∈ list) (huniq : (list.map (fun r => r.id)).Nodup) :
    ∀ x ∈ list.erase old, x.id ≠ old.id := by
  intro x hx hid
  have hnd : list.Nodup := List.Nodup.of_map _ huniq
  rw [List.Nodup.mem_erase_iff hnd] at hx
  exact hx.1 (List.inj_on_of_nodup_map huniq hx.2 hold hid)

theorem resource_create_locked_default (K : Proto) (H : Host) (stream : VirtIOVideoStream)
    (req : virtio_video_resource_create) (elem : VirtQueueElement)
    (hd : queue_dir K req.queue_type = none) :
    resource_create_locked K H stream req elem =
      { len := K.sizeof_cmd_hdr, type := K.VIRTIO_VIDEO_RESP_ERR_INVALID_PARAMETER,
        stream := stream, trace := [] } := by
  unfold resource_create_locked
  rw [resource_create_queue_eq, hd]
  rfl

theorem resource_create_locked_busy (K : Proto) (H : Host) (stream : VirtIOVideoStream)
    (req : virtio_video_resource_create) (elem : VirtQueueElement) (dir : Nat)
    (work : VirtIOVideoWork)
    (hd : queue_dir K req.queue_type = some dir)
    (hw : find_work (stream.work_queue dir) req.resource_id = some work) :
    resource_create_locked K H stream req elem =
      { len := K.sizeof_cmd_hdr, type := K.VIRTIO_VIDEO_RESP_ERR_INVALID_RESOURCE_ID,
        stream := stream, trace := [] } := by
  unfold resource_create_locked
  rw [resource_create_queue_eq, hd]
  simp only [Option.map_some', hw]

theorem resource_create_locked_idle (K : Proto) (H : Host) (stream : VirtIOVideoStream)
    (req : virtio_video_resource_create) (elem : VirtQueueElement) (dir : Nat)
    (hd : queue_dir K req.queue_type = some dir)
    (hw : find_work (stream.work_queue dir) req.resource_id = none) :
    resource_create_locked K H stream req elem =
      if ¬ H.virtio_video_format_is_valid (stream.queue_info dir).params.format
          req.num_planes then
        { len := K.sizeof_cmd_hdr, type := K.VIRTIO_VIDEO_RESP_ERR_INVALID_PARAMETER,
          stream := (resource_create_replace stream req.resource_id
            (stream.queue_info dir).mem_type dir).1,
          trace := (resource_create_replace stream req.resource_id
            (stream.queue_info dir).mem_type dir).2 }
      else
        { resource_create_mem K H
            (resource_create_replace stream req.resource_id
              (stream.queue_info dir).mem_type dir).1 req elem
            (stream.queue_info dir).mem_type dir with
          trace :=
            (resource_create_replace stream req.resource_id
              (stream.queue_info dir).mem_type dir).2 ++
            (resource_create_mem K H
              (resource_create_replace stream req.resource_id
                (stream.queue_info dir).mem_type dir).1 req elem
              (stream.queue_info dir).mem_type dir).trace } := by
  unfold resource_create_locked
  rw [resource_create_queue_eq, hd]
  simp only [Option.map_some', hw]

theorem resource_create_locked_ok (K : Proto) (H : Host) (stream : VirtIOVideoStream)
    (req : virtio_video_resource_create) (elem : VirtQueueElement)
    (htype : (resource_create_locked K H stream req elem).type = K.VIRTIO_VIDEO_RESP_OK_NODATA)
    (hlen : (resource_create_locked K H stream req elem).len ≠ 0) :
    ∃ dir, queue_dir K req.queue_type = some dir ∧
      resource_create_locked K H stream req elem =
        { len := K.sizeof_cmd_hdr
          type := K.VIRTIO_VIDEO_RESP_OK_NODATA
          stream :=
            (resource_create_replace stream req.resource_id
              (stream.queue_info dir).mem_type dir).1.set_resource_list dir
              ((resource_create_page K H
                  (resource_create_replace stream req.resource_id
                    (stream.queue_info dir).mem_type dir).1 req elem
                  (stream.queue_info dir).mem_type).resource ::
                (resource_create_replace stream req.resource_id
                  (stream.queue_info dir).mem_type dir).1.resource_list dir)
          trace :=
            (resource_create_replace stream req.resource_id
              (stream.queue_info dir).mem_type dir).2 ++
              (resource_create_page K H
                (resource_create_replace stream req.resource_id
                  (stream.queue_info dir).mem_type dir).1 req elem
                (stream.queue_info dir).mem_type).trace } ∧
      ¬ (resource_create_page K H
          (resource_create_replace stream req.resource_id
            (stream.queue_info dir).mem_type dir).1 req elem
          (stream.queue_info dir).mem_type).ret < 0 := by
  obtain ⟨e1, e2, e3, e4⟩ := resp_err_ne_ok K
  cases hd : queue_dir K req.queue_type with
  | none =>
    rw [resource_create_locked_default K H stream req elem hd] at htype
    exact absurd htype e4
  | some dir =>
    cases hw : find_work (stream.work_queue dir) req.resource_id with
    | some w =>
      rw [resource_create_locked_busy K H stream req elem dir w hd hw] at htype
      exact absurd htype e3
    | none =>
      refine ⟨dir, rfl, ?_⟩
      rw [resource_create_locked_idle K H stream req elem dir hd hw] at htype hlen ⊢
      by_cases hv : H.virtio_video_format_is_valid (stream.queue_info dir).params.format
          req.num_planes = true
      · simp only [hv, not_true_eq_false, if_false] at htype hlen ⊢
        unfold resource_create_mem at htype hlen ⊢
        by_cases hm : (stream.queue_info dir).mem_type = K.VIRTIO_VIDEO_MEM_TYPE_GUEST_PAGES
        · simp only [hm, if_true] at htype hlen ⊢
          split_ifs at htype hlen ⊢ with hb hp
          · simp at hlen
          · simp at htype
            exact absurd htype e1
          · exact ⟨rfl, hp⟩
        · simp only [hm, if_false] at htype hlen ⊢
          split_ifs at htype
          · simp at htype; exact absurd htype e4
          · simp at htype; exact absurd htype e4
      · simp only [hv, not_false_eq_true, if_true] at htype
        exact absurd htype e4


theorem resource_create_found (K : Proto) (H : Host) (v : VirtIOVideo)
    (req : virtio_video_resource_create) (elem : VirtQueueElement) (stream : VirtIOVideoStream)
    (hstream : find_stream v.stream_list req.hdr.stream_id = some stream) :
    virtio_video_process_cmd_resource_create K H v req elem =
      { len := (resource_create_locked K H stream req elem).len
        resp := { type := (resource_create_locked K H stream req elem).type
                  stream_id := req.hdr.stream_id }
        v := { v with
          stream_list := (update_stream v.stream_list req.hdr.stream_id
            (resource_create_locked K H stream req elem).stream) }
        trace := [Effect.qemu_mutex_lock (Mutex.stream stream.id)] ++
          (resource_create_locked K H stream req elem).trace ++
          [Effect.qemu_mutex_unlock (Mutex.stream stream.id)] } := by
  simp only [virtio_video_process_cmd_resource_create, hstream]

/-- C3: when a resource-create command for id `R` in direction `dir`
succeeds (type `OK_NODATA`, non-zero length) on a stream whose list for `dir`
has pairwise distinct ids and holds a resource `old` with id `R`, then `old` is
torn down first and the new resource built after it (the trace is: lock, the
teardown of `old`, mapping calls only, unlock); afterwards the list for `dir`
is the new resource followed by the old list without `old`, so the new
resource is the only one with id `R` and every resource with another id is
still there; the list of the other direction and both work queues are
unchanged.  (Success implies that `old` was idle: a queued `R` is refused.) -/
theorem resource_create_replaces_idle (K : Proto) (H : Host) (v : VirtIOVideo)
    (req : virtio_video_resource_create) (elem : VirtQueueElement) (stream : VirtIOVideoStream)
    (dir : Nat) (old : VirtIOVideoResource)
    (hstream : find_stream v.stream_list req.hdr.stream_id = some stream)
    (hdir : queue_dir K req.queue_type = some dir)
    (hold : old ∈ stream.resource_list dir)
    (hid : old.id = req.resource_id)
    (huniq : ((stream.resource_list dir).map (fun r => r.id)).Nodup)
    (hok : (virtio_video_process_cmd_resource_create K H v req elem).resp.type =
      K.VIRTIO_VIDEO_RESP_OK_NODATA)
    (hlen : (virtio_video_process_cmd_resource_create K H v req elem).len ≠ 0) :
    ∃ new stream1 maps,
      find_stream (virtio_video_process_cmd_resource_create K H v req elem).v.stream_list
          req.hdr.stream_id = some stream1 ∧
        new.id = req.resource_id ∧
        stream1.resource_list dir = new :: (stream.resource_list dir).erase old ∧
        (stream1.resource_list dir).filter (fun r => r.id = req.resource_id) = [new] ∧
        (∀ r ∈ stream.resource_list dir, r.id ≠ req.resource_id →
          r ∈ stream1.resource_list dir) ∧
        stream1.resource_list (1 - dir) = stream.resource_list (1 - dir) ∧
        stream1.input_work = stream.input_work ∧
        stream1.output_work = stream.output_work ∧
        (virtio_video_process_cmd_resource_create K H v req elem).trace =
          [Effect.qemu_mutex_lock (Mutex.stream stream.id)] ++
            destroy_effects old (dir = VIRTIO_VIDEO_QUEUE_INPUT) ++ maps ++
            [Effect.qemu_mutex_unlock (Mutex.stream stream.id)] ∧
        ∀ e ∈ maps, e.is_map = true := by
  have hv := resource_create_found K H v req elem stream hstream
  rw [hv] at hok hlen ⊢
  simp only at hok hlen ⊢
  obtain ⟨dir1, hd1, hlocked, hret⟩ := resource_create_locked_ok K H stream req elem hok hlen
  rw [hdir] at hd1
  cases hd1
  have hfind : find_resource (stream.resource_list dir) req.resource_id = some old := by
    rw [← hid]; exact find_resource_unique _ _ hold huniq
  have hrepl : resource_create_replace stream req.resource_id (stream.queue_info dir).mem_type
      dir = (stream.set_resource_list dir ((stream.resource_list dir).erase old),
        destroy_effects old (dir = VIRTIO_VIDEO_QUEUE_INPUT)) := by
    simp [resource_create_replace, hfind, virtio_video_destroy_resource]
  rw [hrepl] at hlocked hret
  simp only [resource_list_set, set_resource_list_set] at hlocked hret
  obtain ⟨maps, hmaps, hall⟩ := create_page_planes_maps H _ _ _ _ _ _ _ _ hret
  have hnewid := create_page_planes_id H
    (resource_create_new K (stream.set_resource_list dir ((stream.resource_list dir).erase old))
      req (stream.queue_info dir).mem_type)
    (resource_create_entries K req elem)
    (req.queue_type = K.VIRTIO_VIDEO_QUEUE_TYPE_OUTPUT)
    (resource_create_new K (stream.set_resource_list dir ((stream.resource_list dir).erase old))
      req (stream.queue_info dir).mem_type).num_planes 0 0 [] []
  refine ⟨(resource_create_page K H
      (stream.set_resource_list dir ((stream.resource_list dir).erase old)) req elem
      (stream.queue_info dir).mem_type).resource,
    stream.set_resource_list dir
      ((resource_create_page K H
        (stream.set_resource_list dir ((stream.resource_list dir).erase old)) req elem
        (stream.queue_info dir).mem_type).resource :: (stream.resource_list dir).erase old),
    maps, ?_, ?_, ?_, ?_, ?_, ?_, ?_, ?_, ?_, hall⟩
  · rw [hlocked]
    exact find_stream_update _ _ _ _ hstream
      (by rw [(set_resource_list_fields _ _ _).1]; exact find_stream_id _ _ _ hstream)
  · exact hnewid
  · rw [resource_list_set]
  · rw [resource_list_set, List.filter_cons]
    have h1 : (decide ((resource_create_page K H
        (stream.set_resource_list dir ((stream.resource_list dir).erase old)) req elem
        (stream.queue_info dir).mem_type).resource.id = req.resource_id)) = true := by
      simpa using hnewid
    rw [h1]
    simp only [if_true, List.cons.injEq, true_and]
    rw [List.filter_eq_nil_iff]
    intro x hx
    have := erase_no_id _ _ hold huniq x hx
    simpa [hid] using this
  · intro r hr hne
    rw [resource_list_set]
    refine List.mem_cons_of_mem _ ?_
    rw [List.mem_erase_of_ne]
    · exact hr
    · intro h; exact hne (h ▸ hid)
  · rw [resource_list_set_other]
  · exact (set_resource_list_fields _ _ _).2.2.2.1
  · exact (set_resource_list_fields _ _ _).2.2.2.2
  · rw [hlocked]
    simp only
    have : (resource_create_page K H
        (stream.set_resource_list dir ((stream.resource_list dir).erase old)) req elem
        (stream.queue_info dir).mem_type).trace = maps := by
      simpa [resource_create_page, virtio_video_resource_create_page] using hmaps
    rw [this]
    simp


/-- Witness of C3: stream 1 of the sample device holds input resources 9 and
7, both idle; the guest creates input resource 7 again. -/
theorem resource_create_replaces_idle_witness :
    find_stream sample_device.stream_list sample_create.hdr.stream_id = some sample_stream ∧
      queue_dir proto_v3 sample_create.queue_type = some VIRTIO_VIDEO_QUEUE_INPUT ∧
      idle_resource ∈ sample_stream.resource_list VIRTIO_VIDEO_QUEUE_INPUT ∧
      idle_resource.id = sample_create.resource_id ∧
      ((sample_stream.resource_list VIRTIO_VIDEO_QUEUE_INPUT).map (fun r => r.id)).Nodup ∧
      (virtio_video_process_cmd_resource_create proto_v3 host_short_at_8192 sample_device
          sample_create sample_create_elem).resp.type = proto_v3.VIRTIO_VIDEO_RESP_OK_NODATA ∧
      (virtio_video_process_cmd_resource_create proto_v3 host_short_at_8192 sample_device
          sample_create sample_create_elem).len ≠ 0 ∧
      ∃ new stream1 maps,
        find_stream (virtio_video_process_cmd_resource_create proto_v3 host_short_at_8192
            sample_device sample_create sample_create_elem).v.stream_list
            sample_create.hdr.stream_id = some stream1 ∧
          new.id = sample_create.resource_id ∧
          stream1.resource_list VIRTIO_VIDEO_QUEUE_INPUT =
            new :: (sample_stream.resource_list VIRTIO_VIDEO_QUEUE_INPUT).erase idle_resource ∧
          (stream1.resource_list VIRTIO_VIDEO_QUEUE_INPUT).filter
            (fun r => r.id = sample_create.resource_id) = [new] ∧
          (∀ r ∈ sample_stream.resource_list VIRTIO_VIDEO_QUEUE_INPUT,
            r.id ≠ sample_create.resource_id →
              r ∈ stream1.resource_list VIRTIO_VIDEO_QUEUE_INPUT) ∧
          stream1.resource_list (1 - VIRTIO_VIDEO_QUEUE_INPUT) =
            sample_stream.resource_list (1 - VIRTIO_VIDEO_QUEUE_INPUT) ∧
          stream1.input_work = sample_stream.input_work ∧
          stream1.output_work = sample_stream.output_work ∧
          (virtio_video_process_cmd_resource_create proto_v3 host_short_at_8192 sample_device
              sample_create sample_create_elem).trace =
            [Effect.qemu_mutex_lock (Mutex.stream sample_stream.id)] ++
              destroy_effects idle_resource (VIRTIO_VIDEO_QUEUE_INPUT = VIRTIO_VIDEO_QUEUE_INPUT) ++
              maps ++ [Effect.qemu_mutex_unlock (Mutex.stream sample_stream.id)] ∧
          ∀ e ∈ maps, e.is_map = true :=
  ⟨by decide, by decide, by decide, by decide, by decide, by decide, by decide,
   resource_create_replaces_idle proto_v3 host_short_at_8192 sample_device sample_create
     sample_create_elem sample_stream VIRTIO_VIDEO_QUEUE_INPUT idle_resource
     (by decide) (by decide) (by decide) (by decide) (by decide) (by decide) (by decide)⟩

theorem create_page_entries_full (H : Host) (entries : List virtio_video_mem_entry)
    (output : Bool)
    (hfull : ∀ m, ¬ (slice_of H output (entries.getD m default)).len <
      (entries.getD m default).length)
    (k n : Nat) (row : List VirtIOVideoResourceSlice) (trace : List Effect) :
    create_page_entries H entries output k n row trace =
      (true, n + k,
        row ++ (List.range k).map (fun j => slice_of H output (entries.getD (n + j) default)),
        trace ++ (List.range k).map
          (fun j => map_effect H output (entries.getD (n + j) default))) := by
  induction k generalizing n row trace with
  | zero => simp [create_page_entries]
  | succ k ih =>
    rw [create_page_entries, if_neg (hfull n), ih, List.range_succ_eq_map]
    simp only [List.map_cons, List.map_map, Nat.add_zero, List.append_assoc,
      List.singleton_append]
    refine Prod.ext rfl (Prod.ext (by simp only; omega) (Prod.ext ?_ ?_))
    · simp only
      congr 2
      apply List.map_congr_left
      intro j _
      simp only [Function.comp, Nat.succ_eq_add_one]
      congr 2
      omega
    · simp only
      congr 2
      apply List.map_congr_left
      intro j _
      simp only [Function.comp, Nat.succ_eq_add_one]
      congr 2
      omega

theorem plane_span_succ (num_entries : List Nat) (i p : Nat) :
    plane_span num_entries i (p + 1) =
      num_entries.getD i 0 + plane_span num_entries (i + 1) p := by
  unfold plane_span
  rw [List.range_succ_eq_map]
  simp only [List.map_cons, List.map_map, List.sum_cons, Nat.add_zero]
  congr 2
  apply List.map_congr_left
  intro q _
  simp only [Function.comp, Nat.succ_eq_add_one]
  congr 1
  omega

theorem create_page_planes_full (H : Host) (resource : VirtIOVideoResource)
    (entries : List virtio_video_mem_entry) (output : Bool)
    (hfull : ∀ m, ¬ (slice_of H output (entries.getD m default)).len <
      (entries.getD m default).length)
    (p i n : Nat) (slices : List (List VirtIOVideoResourceSlice)) (trace : List Effect) :
    create_page_planes H resource entries output p i n slices trace =
      { ret := 0
        resource := create_page_done resource output
          (slices ++ (List.range p).map (fun q =>
            (List.range (resource.num_entries.getD (i + q) 0)).map (fun j =>
              slice_of H output
                (entries.getD (n + plane_span resource.num_entries i q + j) default))))
        trace := trace ++ (List.range (plane_span resource.num_entries i p)).map
          (fun m => map_effect H output (entries.getD (n + m) default)) } := by
  induction p generalizing i n slices trace with
  | zero => simp [create_page_planes, plane_span]
  | succ p ih =>
    rw [create_page_planes, create_page_entries_full H entries output hfull]
    simp only [List.nil_append]
    rw [ih]
    have hrows : [(List.range (resource.num_entries.getD i 0)).map (fun j =>
            slice_of H output (entries.getD (n + j) default))] ++
          (List.range p).map (fun q =>
          (List.range (resource.num_entries.getD (i + 1 + q) 0)).map (fun j =>
            slice_of H output
              (entries.getD (n + resource.num_entries.getD i 0 +
                plane_span resource.num_entries (i + 1) q + j) default))) =
        (List.range (p + 1)).map (fun q =>
          (List.range (resource.num_entries.getD (i + q) 0)).map (fun j =>
            slice_of H output
              (entries.getD (n + plane_span resource.num_entries i q + j) default))) := by
      rw [List.range_succ_eq_map]
      simp only [List.map_cons, List.map_map, List.singleton_append, Nat.add_zero]
      congr 1
      apply List.map_congr_left
      intro q _
      simp only [Function.comp, Nat.succ_eq_add_one, plane_span_succ]
      have e1 : i + 1 + q = i + (q + 1) := by omega
      rw [e1]
      apply List.map_congr_left
      intro j _
      congr 2
      omega
    have htrace : (List.range (resource.num_entries.getD i 0)).map
          (fun j => map_effect H output (entries.getD (n + j) default)) ++
        (List.range (plane_span resource.num_entries (i + 1) p)).map
          (fun m => map_effect H output
            (entries.getD (n + resource.num_entries.getD i 0 + m) default)) =
        (List.range (plane_span resource.num_entries i (p + 1))).map
          (fun m => map_effect H output (entries.getD (n + m) default)) := by
      rw [plane_span_succ, List.range_add, List.map_append, List.map_map]
      congr 1
      apply List.map_congr_left
      intro m _
      simp only [Function.comp]
      congr 2
      omega
    rw [← hrows, ← htrace]
    simp only [List.append_assoc]

theorem new_num_entries_getD (K : Proto) (stream : VirtIOVideoStream)
    (req : virtio_video_resource_create) (mem_type i : Nat) (hi : i < req.num_planes) :
    (resource_create_new K stream req mem_type).num_entries.getD i 0 =
      req.num_entries.getD i 0 := by
  simp only [resource_create_new, List.getD_eq_getElem?_getD, List.getElem?_map,
    List.getElem?_range]
  by_cases h : i < req.num_entries.length
  · simp [List.getElem?_range h, hi, List.getElem?_eq_getElem h]
  · have h2 : req.num_entries.length ≤ i := by omega
    simp [List.getElem?_eq_none h2, List.getElem?_eq_none (show (List.range req.num_entries.length).length ≤ i by simpa using h2)]

theorem new_plane_span (K : Proto) (stream : VirtIOVideoStream)
    (req : virtio_video_resource_create) (mem_type q : Nat) (hq : q ≤ req.num_planes) :
    plane_span (resource_create_new K stream req mem_type).num_entries 0 q =
      plane_first_entry req.num_entries q := by
  unfold plane_span plane_first_entry
  congr 1
  apply List.map_congr_left
  intro k hk
  rw [Nat.zero_add]
  exact new_num_entries_getD K stream req mem_type k (by simp at hk; omega)

theorem decode_mem_entries_length (K : Proto) (bytes : List Nat) (num : Nat) :
    (decode_mem_entries K bytes num).length = num := by
  simp [decode_mem_entries]

theorem range_map_getD {α β : Type} [Inhabited α] (l : List α) (f : α → β) :
    (List.range l.length).map (fun m => f (l.getD (0 + m) default)) = l.map f := by
  apply List.ext_getElem
  · simp
  · intro i h1 h2
    simp at h1 h2
    simp [List.getD_eq_getElem?_getD, List.getElem?_eq_getElem h2]

theorem full_of_le (H : Host) (output : Bool) (entries : List virtio_video_mem_entry)
    (hfull : ∀ e ∈ entries, e.length ≤ (H.map e.addr e.length output).2) (m : Nat) :
    (slice_of H output (entries.getD m default)).len = (entries.getD m default).length := by
  by_cases h : m < entries.length
  · have hmem : entries.getD m default ∈ entries := by
      rw [List.getD_eq_getElem _ _ h]; exact List.getElem_mem h
    have := hfull _ hmem
    simp only [slice_of, dma_memory_map]
    exact min_eq_right this
  · have h2 : entries.length ≤ m := by omega
    have hd : entries.getD m default = default := by
      simp [List.getD_eq_getElem?_getD, List.getElem?_eq_none h2]
    rw [hd]
    simp only [slice_of, dma_memory_map]
    exact Nat.min_zero _

/-- C4 as amended: on a live stream, for a valid queue type with no work item
pending for the id, a plane count valid for the format, guest-pages memory, a
fully readable entry list and every entry mapped with at least its length,
resource creation answers `OK_NODATA` (in a response of the size of the
header) and puts the new resource at the head of the direction's list, with
the requested id and plane count, plane `i` holding `num_entries[i]` slices
and slice `j` of plane `i` being the mapping of entry
`num_entries[0] + ... + num_entries[i-1] + j`, with that entry's length.  The
host calls are: lock, the teardown of the resource that held the id (if the
list had one), one `dma_memory_map` per entry in order, unlock.  So no slice
of the new resource is unmapped, and nothing at all is unmapped when the list
held no resource with the id. -/
theorem resource_create_succeeds (K : Proto) (H : Host) (v : VirtIOVideo)
    (req : virtio_video_resource_create) (elem : VirtQueueElement) (stream : VirtIOVideoStream)
    (dir : Nat)
    (hstream : find_stream v.stream_list req.hdr.stream_id = some stream)
    (hdir : queue_dir K req.queue_type = some dir)
    (hidle : find_work (stream.work_queue dir) req.resource_id = none)
    (hvalid : H.virtio_video_format_is_valid (stream.queue_info dir).params.format
      req.num_planes = true)
    (hmem : (stream.queue_info dir).mem_type = K.VIRTIO_VIDEO_MEM_TYPE_GUEST_PAGES)
    (hread : (resource_create_entry_bytes K req elem).length =
      K.sizeof_mem_entry * resource_create_num_entries req)
    (hfull : ∀ e ∈ resource_create_entries K req elem,
      e.length ≤ (H.map e.addr e.length (req.queue_type = K.VIRTIO_VIDEO_QUEUE_TYPE_OUTPUT)).2) :
    ∃ new,
      (virtio_video_process_cmd_resource_create K H v req elem).resp =
          { type := K.VIRTIO_VIDEO_RESP_OK_NODATA, stream_id := req.hdr.stream_id } ∧
        (virtio_video_process_cmd_resource_create K H v req elem).len = K.sizeof_cmd_hdr ∧
        find_stream (virtio_video_process_cmd_resource_create K H v req elem).v.stream_list
            req.hdr.stream_id =
          some (stream.set_resource_list dir
            (new ::
              (match find_resource (stream.resource_list dir) req.resource_id with
               | some old => (stream.resource_list dir).erase old
               | none => stream.resource_list dir))) ∧
        new.id = req.resource_id ∧
        new.num_planes = req.num_planes ∧
        new.slices.length = req.num_planes ∧
        (∀ i < req.num_planes,
          (new.slices.getD i []).length = req.num_entries.getD i 0 ∧
          ∀ j < req.num_entries.getD i 0,
            (new.slices.getD i []).getD j default =
              { base := (dma_memory_map H
                  ((resource_create_entries K req elem).getD
                    (plane_first_entry req.num_entries i + j) default).addr
                  ((resource_create_entries K req elem).getD
                    (plane_first_entry req.num_entries i + j) default).length
                  (req.queue_type = K.VIRTIO_VIDEO_QUEUE_TYPE_OUTPUT)).1
                remapped_addr := none
                len := ((resource_create_entries K req elem).getD
                  (plane_first_entry req.num_entries i + j) default).length }) ∧
        (virtio_video_process_cmd_resource_create K H v req elem).trace =
          [Effect.qemu_mutex_lock (Mutex.stream stream.id)] ++
            (match find_resource (stream.resource_list dir) req.resource_id with
             | some old => destroy_effects old (dir = VIRTIO_VIDEO_QUEUE_INPUT)
             | none => []) ++
            (resource_create_entries K req elem).map
              (map_effect H (req.queue_type = K.VIRTIO_VIDEO_QUEUE_TYPE_OUTPUT)) ++
            [Effect.qemu_mutex_unlock (Mutex.stream stream.id)] := by
  have hlenfull := full_of_le H (req.queue_type = K.VIRTIO_VIDEO_QUEUE_TYPE_OUTPUT)
    (resource_create_entries K req elem) hfull
  have hnot : ∀ m, ¬ (slice_of H (req.queue_type = K.VIRTIO_VIDEO_QUEUE_TYPE_OUTPUT)
      ((resource_create_entries K req elem).getD m default)).len <
      ((resource_create_entries K req elem).getD m default).length := by
    intro m; rw [hlenfull m]; exact Nat.lt_irrefl _
  -- the replacement step
  obtain ⟨stream0, teardown, hrepl, hlist0, hs0⟩ :
      ∃ stream0 teardown,
        resource_create_replace stream req.resource_id
          K.VIRTIO_VIDEO_MEM_TYPE_GUEST_PAGES dir = (stream0, teardown) ∧
        stream0.set_resource_list dir = stream.set_resource_list dir ∧
        (stream0.resource_list dir =
            (match find_resource (stream.resource_list dir) req.resource_id with
             | some old => (stream.resource_list dir).erase old
             | none => stream.resource_list dir) ∧
          teardown =
            (match find_resource (stream.resource_list dir) req.resource_id with
             | some old => destroy_effects old (dir = VIRTIO_VIDEO_QUEUE_INPUT)
             | none => [])) := by
    unfold resource_create_replace
    cases hf : find_resource (stream.resource_list dir) req.resource_id with
    | none => exact ⟨_, _, rfl, rfl, rfl, rfl⟩
    | some old =>
      refine ⟨_, _, rfl, ?_, ?_, rfl⟩
      · funext l; simp only [virtio_video_destroy_resource, set_resource_list_set]
      · simp only [virtio_video_destroy_resource, resource_list_set]
  -- the page mapper
  have hpage : resource_create_page K H stream0 req elem K.VIRTIO_VIDEO_MEM_TYPE_GUEST_PAGES =
      { ret := 0
        resource := create_page_done
          (resource_create_new K stream0 req K.VIRTIO_VIDEO_MEM_TYPE_GUEST_PAGES)
          (req.queue_type = K.VIRTIO_VIDEO_QUEUE_TYPE_OUTPUT)
          ((List.range req.num_planes).map (fun q =>
            (List.range (req.num_entries.getD q 0)).map (fun j =>
              slice_of H (req.queue_type = K.VIRTIO_VIDEO_QUEUE_TYPE_OUTPUT)
                ((resource_create_entries K req elem).getD
                  (plane_first_entry req.num_entries q + j) default))))
        trace := (resource_create_entries K req elem).map
          (map_effect H (req.queue_type = K.VIRTIO_VIDEO_QUEUE_TYPE_OUTPUT)) } := by
    unfold resource_create_page virtio_video_resource_create_page
    rw [create_page_planes_full H _ _ _ hnot]
    have hP : (resource_create_new K stream0 req
        K.VIRTIO_VIDEO_MEM_TYPE_GUEST_PAGES).num_planes = req.num_planes := rfl
    rw [hP, new_plane_span K stream0 req _ req.num_planes (Nat.le_refl _)]
    have htotal : plane_first_entry req.num_entries req.num_planes =
        (resource_create_entries K req elem).length := by
      rw [resource_create_entries, decode_mem_entries_length]; rfl
    rw [htotal, range_map_getD]
    simp only [List.nil_append]
    congr 2
    apply List.map_congr_left
    intro q hq
    have hq2 : q < req.num_planes := by simpa using hq
    simp only [Nat.zero_add]
    rw [new_num_entries_getD K stream0 req _ q hq2,
      new_plane_span K stream0 req _ q (Nat.le_of_lt hq2)]
  have hlocked : resource_create_locked K H stream req elem =
      { len := K.sizeof_cmd_hdr
        type := K.VIRTIO_VIDEO_RESP_OK_NODATA
        stream := stream.set_resource_list dir
          ((resource_create_page K H stream0 req elem
              K.VIRTIO_VIDEO_MEM_TYPE_GUEST_PAGES).resource :: stream0.resource_list dir)
        trace := teardown ++ (resource_create_page K H stream0 req elem
              K.VIRTIO_VIDEO_MEM_TYPE_GUEST_PAGES).trace } := by
    rw [resource_create_locked_idle K H stream req elem dir hdir hidle]
    simp only [hvalid, not_true_eq_false, if_false, hmem, hrepl]
    unfold resource_create_mem
    have hr : ¬ (resource_create_entry_bytes K req elem).length ≠
        K.sizeof_mem_entry * resource_create_num_entries req := by simp [hread]
    have hret : ¬ (resource_create_page K H stream0 req elem
        K.VIRTIO_VIDEO_MEM_TYPE_GUEST_PAGES).ret < 0 := by rw [hpage]; simp
    simp only [if_true, if_neg hr, if_neg hret, hlist0]
  rw [resource_create_found K H v req elem stream hstream, hlocked]
  refine ⟨(resource_create_page K H stream0 req elem
      K.VIRTIO_VIDEO_MEM_TYPE_GUEST_PAGES).resource, rfl, rfl, ?_, ?_, ?_, ?_, ?_, ?_⟩
  · simp only
    rw [hs0.1]
    exact find_stream_update _ _ _ _ hstream
      (by rw [(set_resource_list_fields _ _ _).1]; exact find_stream_id _ _ _ hstream)
  · rw [hpage]; cases hq : decide (req.queue_type = K.VIRTIO_VIDEO_QUEUE_TYPE_OUTPUT) <;>
      simp [create_page_done, resource_create_new, hq]
  · rw [hpage]; cases hq : decide (req.queue_type = K.VIRTIO_VIDEO_QUEUE_TYPE_OUTPUT) <;>
      simp [create_page_done, resource_create_new, hq]
  · rw [hpage]; cases hq : decide (req.queue_type = K.VIRTIO_VIDEO_QUEUE_TYPE_OUTPUT) <;>
      simp [create_page_done, hq]
  · intro i hi
    have hsl : (resource_create_page K H stream0 req elem
        K.VIRTIO_VIDEO_MEM_TYPE_GUEST_PAGES).resource.slices =
        (List.range req.num_planes).map (fun q =>
            (List.range (req.num_entries.getD q 0)).map (fun j =>
              slice_of H (req.queue_type = K.VIRTIO_VIDEO_QUEUE_TYPE_OUTPUT)
                ((resource_create_entries K req elem).getD
                  (plane_first_entry req.num_entries q + j) default))) := by
      rw [hpage]; cases hq : decide (req.queue_type = K.VIRTIO_VIDEO_QUEUE_TYPE_OUTPUT) <;>
        simp [create_page_done, hq]
    rw [hsl]
    have hrow : ((List.range req.num_planes).map (fun q =>
            (List.range (req.num_entries.getD q 0)).map (fun j =>
              slice_of H (req.queue_type = K.VIRTIO_VIDEO_QUEUE_TYPE_OUTPUT)
                ((resource_create_entries K req elem).getD
                  (plane_first_entry req.num_entries q + j) default)))).getD i [] =
        (List.range (req.num_entries.getD i 0)).map (fun j =>
              slice_of H (req.queue_type = K.VIRTIO_VIDEO_QUEUE_TYPE_OUTPUT)
                ((resource_create_entries K req elem).getD
                  (plane_first_entry req.num_entries i + j) default)) := by
      rw [List.getD_eq_getElem _ _ (by simpa using hi)]
      simp
    rw [hrow]
    refine ⟨by simp, ?_⟩
    intro j hj
    have hget : ((List.range (req.num_entries.getD i 0)).map (fun j =>
              slice_of H (req.queue_type = K.VIRTIO_VIDEO_QUEUE_TYPE_OUTPUT)
                ((resource_create_entries K req elem).getD
                  (plane_first_entry req.num_entries i + j) default))).getD j default =
        slice_of H (req.queue_type = K.VIRTIO_VIDEO_QUEUE_TYPE_OUTPUT)
                ((resource_create_entries K req elem).getD
                  (plane_first_entry req.num_entries i + j) default) := by
      rw [List.getD_eq_getElem _ _ (by simpa using hj)]
      simp
    rw [hget]
    have hl := hlenfull (plane_first_entry req.num_entries i + j)
    simp only [slice_of] at hl ⊢
    rw [hl]
  · simp only
    rw [hpage, hs0.2]
    simp


/-- Witness of C4: input resource 7 with one plane of one 64-byte entry is
created on stream 1 of the sample device. -/
theorem resource_create_succeeds_witness :
    find_stream sample_device.stream_list sample_create.hdr.stream_id = some sample_stream ∧
      queue_dir proto_v3 sample_create.queue_type = some VIRTIO_VIDEO_QUEUE_INPUT ∧
      find_work (sample_stream.work_queue VIRTIO_VIDEO_QUEUE_INPUT)
        sample_create.resource_id = none ∧
      host_short_at_8192.virtio_video_format_is_valid
        (sample_stream.queue_info VIRTIO_VIDEO_QUEUE_INPUT).params.format
        sample_create.num_planes = true ∧
      (sample_stream.queue_info VIRTIO_VIDEO_QUEUE_INPUT).mem_type =
        proto_v3.VIRTIO_VIDEO_MEM_TYPE_GUEST_PAGES ∧
      (resource_create_entry_bytes proto_v3 sample_create sample_create_elem).length =
        proto_v3.sizeof_mem_entry * resource_create_num_entries sample_create ∧
      (∀ e ∈ resource_create_entries proto_v3 sample_create sample_create_elem,
        e.length ≤ (host_short_at_8192.map e.addr e.length
          (sample_create.queue_type = proto_v3.VIRTIO_VIDEO_QUEUE_TYPE_OUTPUT)).2) ∧
      ∃ new,
        (virtio_video_process_cmd_resource_create proto_v3 host_short_at_8192 sample_device
            sample_create sample_create_elem).resp =
          { type := proto_v3.VIRTIO_VIDEO_RESP_OK_NODATA
            stream_id := sample_create.hdr.stream_id } ∧
        (virtio_video_process_cmd_resource_create proto_v3 host_short_at_8192 sample_device
            sample_create sample_create_elem).len = proto_v3.sizeof_cmd_hdr ∧
        find_stream (virtio_video_process_cmd_resource_create proto_v3 host_short_at_8192
            sample_device sample_create sample_create_elem).v.stream_list
            sample_create.hdr.stream_id =
          some (sample_stream.set_resource_list VIRTIO_VIDEO_QUEUE_INPUT
            (new ::
              (match find_resource (sample_stream.resource_list VIRTIO_VIDEO_QUEUE_INPUT)
                  sample_create.resource_id with
               | some old => (sample_stream.resource_list VIRTIO_VIDEO_QUEUE_INPUT).erase old
               | none => sample_stream.resource_list VIRTIO_VIDEO_QUEUE_INPUT))) ∧
        new.id = sample_create.resource_id ∧
        new.num_planes = sample_create.num_planes ∧
        new.slices.length = sample_create.num_planes ∧
        (∀ i < sample_create.num_planes,
          (new.slices.getD i []).length = sample_create.num_entries.getD i 0 ∧
          ∀ j < sample_create.num_entries.getD i 0,
            (new.slices.getD i []).getD j default =
              { base := (dma_memory_map host_short_at_8192
                  ((resource_create_entries proto_v3 sample_create sample_create_elem).getD
                    (plane_first_entry sample_create.num_entries i + j) default).addr
                  ((resource_create_entries proto_v3 sample_create sample_create_elem).getD
                    (plane_first_entry sample_create.num_entries i + j) default).length
                  (sample_create.queue_type = proto_v3.VIRTIO_VIDEO_QUEUE_TYPE_OUTPUT)).1
                remapped_addr := none
                len := ((resource_create_entries proto_v3 sample_create sample_create_elem).getD
                  (plane_first_entry sample_create.num_entries i + j) default).length }) ∧
        (virtio_video_process_cmd_resource_create proto_v3 host_short_at_8192 sample_device
            sample_create sample_create_elem).trace =
          [Effect.qemu_mutex_lock (Mutex.stream sample_stream.id)] ++
            (match find_resource (sample_stream.resource_list VIRTIO_VIDEO_QUEUE_INPUT)
                sample_create.resource_id with
             | some old => destroy_effects old (VIRTIO_VIDEO_QUEUE_INPUT = VIRTIO_VIDEO_QUEUE_INPUT)
             | none => []) ++
            (resource_create_entries proto_v3 sample_create sample_create_elem).map
              (map_effect host_short_at_8192
                (sample_create.queue_type = proto_v3.VIRTIO_VIDEO_QUEUE_TYPE_OUTPUT)) ++
            [Effect.qemu_mutex_unlock (Mutex.stream sample_stream.id)] :=
  ⟨by decide, by decide, by decide, by decide, by decide, by decide, by decide,
   resource_create_succeeds proto_v3 host_short_at_8192 sample_device sample_create
     sample_create_elem sample_stream VIRTIO_VIDEO_QUEUE_INPUT
     (by decide) (by decide) (by decide) (by decide) (by decide) (by decide) (by decide)⟩

/-- C4 as stated fails: stream 1 of the sample device is live, the queue type
is the input queue, no work item is pending, one plane is valid, the memory
type is guest pages, the entry list is readable and its entry maps in full;
creation of input resource 7 succeeds, and yet a `dma_memory_unmap` is
performed: the slice of the idle resource 7 that the new one replaces. -/
theorem resource_create_unmaps_replaced :
    find_stream sample_device.stream_list sample_create.hdr.stream_id = some sample_stream ∧
      queue_dir proto_v3 sample_create.queue_type = some VIRTIO_VIDEO_QUEUE_INPUT ∧
      find_work (sample_stream.work_queue VIRTIO_VIDEO_QUEUE_INPUT)
        sample_create.resource_id = none ∧
      host_short_at_8192.virtio_video_format_is_valid
        (sample_stream.queue_info VIRTIO_VIDEO_QUEUE_INPUT).params.format
        sample_create.num_planes = true ∧
      (sample_stream.queue_info VIRTIO_VIDEO_QUEUE_INPUT).mem_type =
        proto_v3.VIRTIO_VIDEO_MEM_TYPE_GUEST_PAGES ∧
      (resource_create_entry_bytes proto_v3 sample_create sample_create_elem).length =
        proto_v3.sizeof_mem_entry * resource_create_num_entries sample_create ∧
      (∀ e ∈ resource_create_entries proto_v3 sample_create sample_create_elem,
        e.length ≤ (host_short_at_8192.map e.addr e.length
          (sample_create.queue_type = proto_v3.VIRTIO_VIDEO_QUEUE_TYPE_OUTPUT)).2) ∧
      (virtio_video_process_cmd_resource_create proto_v3 host_short_at_8192 sample_device
          sample_create sample_create_elem).resp.type = proto_v3.VIRTIO_VIDEO_RESP_OK_NODATA ∧
      (virtio_video_process_cmd_resource_create proto_v3 host_short_at_8192 sample_device
          sample_create sample_create_elem).trace =
        [Effect.qemu_mutex_lock (Mutex.stream 1),
         Effect.dma_memory_unmap 20480 64 false,
         Effect.dma_memory_map 4096 64 false 8192 64,
         Effect.qemu_mutex_unlock (Mutex.stream 1)] ∧
      ¬ ∀ e ∈ (virtio_video_process_cmd_resource_create proto_v3 host_short_at_8192
          sample_device sample_create sample_create_elem).trace, e.is_unmap = false := by
  decide

/-! ## The dispatcher -/

theorem cmd_case_labels (K : Proto) :
    cmd_case K K.VIRTIO_VIDEO_CMD_QUERY_CAPABILITY = CmdCase.QUERY_CAPABILITY ∧
      cmd_case K K.VIRTIO_VIDEO_CMD_STREAM_CREATE = CmdCase.STREAM_CREATE ∧
      cmd_case K K.VIRTIO_VIDEO_CMD_STREAM_DESTROY = CmdCase.STREAM_DESTROY ∧
      cmd_case K K.VIRTIO_VIDEO_CMD_STREAM_DRAIN = CmdCase.STREAM_DRAIN ∧
      cmd_case K K.VIRTIO_VIDEO_CMD_RESOURCE_CREATE = CmdCase.RESOURCE_CREATE ∧
      cmd_case K K.VIRTIO_VIDEO_CMD_RESOURCE_QUEUE = CmdCase.RESOURCE_QUEUE ∧
      cmd_case K K.VIRTIO_VIDEO_CMD_RESOURCE_DESTROY_ALL = CmdCase.RESOURCE_DESTROY_ALL ∧
      cmd_case K K.VIRTIO_VIDEO_CMD_QUEUE_CLEAR = CmdCase.QUEUE_CLEAR ∧
      cmd_case K K.VIRTIO_VIDEO_CMD_GET_PARAMS = CmdCase.GET_PARAMS ∧
      cmd_case K K.VIRTIO_VIDEO_CMD_SET_PARAMS = CmdCase.SET_PARAMS ∧
      cmd_case K K.VIRTIO_VIDEO_CMD_QUERY_CONTROL = CmdCase.QUERY_CONTROL ∧
      cmd_case K K.VIRTIO_VIDEO_CMD_GET_CONTROL = CmdCase.GET_CONTROL ∧
      cmd_case K K.VIRTIO_VIDEO_CMD_SET_CONTROL = CmdCase.SET_CONTROL := by
  have h := K.cmd_labels_distinct
  simp only [List.nodup_cons, List.mem_cons, List.mem_singleton, not_or, List.not_mem_nil,
    not_false_eq_true, and_true, List.nodup_nil] at h
  obtain ⟨⟨a1, a2, a3, a4, a5, a6, a7, a8, a9, a10, a11, a12⟩,
    ⟨b2, b3, b4, b5, b6, b7, b8, b9, b10, b11, b12⟩,
    ⟨c3, c4, c5, c6, c7, c8, c9, c10, c11, c12⟩,
    ⟨d4, d5, d6, d7, d8, d9, d10, d11, d12⟩,
    ⟨e5, e6, e7, e8, e9, e10, e11, e12⟩,
    ⟨f6, f7, f8, f9, f10, f11, f12⟩,
    ⟨g7, g8, g9, g10, g11, g12⟩,
    ⟨h8, h9, h10, h11, h12⟩,
    ⟨i9, i10, i11, i12⟩,
    ⟨j10, j11, j12⟩,
    ⟨k11, k12⟩,
    l12⟩ := h
  unfold cmd_case
  refine ⟨?_, ?_, ?_, ?_, ?_, ?_, ?_, ?_, ?_, ?_, ?_, ?_, ?_⟩
  · simp
  · simp [Ne.symm a1]
  · simp [Ne.symm a2, Ne.symm b2]
  · simp [Ne.symm a3, Ne.symm b3, Ne.symm c3]
  · simp [Ne.symm a4, Ne.symm b4, Ne.symm c4, Ne.symm d4]
  · simp [Ne.symm a5, Ne.symm b5, Ne.symm c5, Ne.symm d5, Ne.symm e5]
  · simp [Ne.symm a6, Ne.symm b6, Ne.symm c6, Ne.symm d6, Ne.symm e6, Ne.symm f6]
  · simp [Ne.symm a7, Ne.symm b7, Ne.symm c7, Ne.symm d7, Ne.symm e7, Ne.symm f7, Ne.symm g7]
  · simp [Ne.symm a8, Ne.symm b8, Ne.symm c8, Ne.symm d8, Ne.symm e8, Ne.symm f8, Ne.symm g8,
      Ne.symm h8]
  · simp [Ne.symm a9, Ne.symm b9, Ne.symm c9, Ne.symm d9, Ne.symm e9, Ne.symm f9, Ne.symm g9,
      Ne.symm h9, Ne.symm i9]
  · simp [Ne.symm a10, Ne.symm b10, Ne.symm c10, Ne.symm d10, Ne.symm e10, Ne.symm f10,
      Ne.symm g10, Ne.symm h10, Ne.symm i10, Ne.symm j10]
  · simp [Ne.symm a11, Ne.symm b11, Ne.symm c11, Ne.symm d11, Ne.symm e11, Ne.symm f11,
      Ne.symm g11, Ne.symm h11, Ne.symm i11, Ne.symm j11, Ne.symm k11]
  · simp [Ne.symm a12, Ne.symm b12, Ne.symm c12, Ne.symm d12, Ne.symm e12, Ne.symm f12,
      Ne.symm g12, Ne.symm h12, Ne.symm i12, Ne.symm j12, Ne.symm k12, Ne.symm l12]

theorem process_command_body (K : Proto) (H : Host) (B : Backend) (v : VirtIOVideo)
    (elem : VirtQueueElement) (hdr req : List Nat)
    (hhdr : CMD_GET_REQ elem K.sizeof_cmd_hdr = some hdr)
    (hc : cmd_case K (K.decode_cmd_hdr hdr).type ≠ CmdCase.default)
    (hseg : cmd_case K (K.decode_cmd_hdr hdr).type = CmdCase.RESOURCE_CREATE →
      2 ≤ elem.out_num)
    (hreq : CMD_GET_REQ elem (cmd_req_size K (cmd_case K (K.decode_cmd_hdr hdr).type)) =
      some req) :
    virtio_video_process_command K H B v elem =
      command_body K H B v elem req (cmd_case K (K.decode_cmd_hdr hdr).type) := by
  unfold virtio_video_process_command
  rw [hhdr]
  simp only [if_neg hc]
  have hn : ¬ (cmd_case K (K.decode_cmd_hdr hdr).type = CmdCase.RESOURCE_CREATE ∧
      elem.out_num < 2) := by
    rintro ⟨h1, h2⟩
    have := hseg h1
    omega
  rw [if_neg hn, hreq]

theorem may_defer_handled (K : Proto) (H : Host) (B : Backend) (v : VirtIOVideo)
    (elem : VirtQueueElement) (req : List Nat) (c : CmdCase) (hc : c.may_defer = true) :
    ∃ image, (command_handler K H B v elem req c).resp = some (Resp.raw image) ∧
      (command_handler K H B v elem req c).trace = [] := by
  cases c <;> simp [CmdCase.may_defer] at hc <;>
    exact ⟨_, rfl, rfl⟩

theorem may_defer_of_opcode (K : Proto) (type : Nat)
    (hop : type = K.VIRTIO_VIDEO_CMD_STREAM_DESTROY ∨ type = K.VIRTIO_VIDEO_CMD_STREAM_DRAIN ∨
      type = K.VIRTIO_VIDEO_CMD_RESOURCE_QUEUE ∨
      type = K.VIRTIO_VIDEO_CMD_RESOURCE_DESTROY_ALL ∨
      type = K.VIRTIO_VIDEO_CMD_QUEUE_CLEAR) :
    (cmd_case K type).may_defer = true := by
  obtain ⟨_, _, h3, h4, _, h6, h7, h8, _⟩ := cmd_case_labels K
  rcases hop with h | h | h | h | h <;> subst h
  · rw [h3]; rfl
  · rw [h4]; rfl
  · rw [h6]; rfl
  · rw [h7]; rfl
  · rw [h8]; rfl

theorem callback_step (K : Proto) (H : Host) (B : Backend) (v : VirtIOVideo)
    (elem : VirtQueueElement) (vq : List VirtQueueElement)
    (hout : 1 ≤ elem.out_num) (hin : 1 ≤ elem.in_num) :
    virtio_video_command_vq_cb K H B v (elem :: vq) =
      if (virtio_video_process_command K H B v elem).ret < 0 then
        { v := (virtio_video_process_command K H B v elem).v, vq := vq
          trace := [Effect.qemu_mutex_lock Mutex.device] ++
            (virtio_video_process_command K H B v elem).trace ++
            [Effect.qemu_mutex_unlock Mutex.device] ++
            [Effect.virtqueue_detach_element elem 0, Effect.g_free_elem elem] }
      else if (virtio_video_process_command K H B v elem).ret = 0 then
        { v := (virtio_video_command_vq_cb K H B
            (virtio_video_process_command K H B v elem).v vq).v
          vq := (virtio_video_command_vq_cb K H B
            (virtio_video_process_command K H B v elem).v vq).vq
          trace := [Effect.qemu_mutex_lock Mutex.device] ++
            (virtio_video_process_command K H B v elem).trace ++
            [Effect.qemu_mutex_unlock Mutex.device] ++
            [Effect.virtqueue_push elem (virtio_video_process_command K H B v elem).resp_size,
             Effect.virtio_notify, Effect.g_free_elem elem] ++
            (virtio_video_command_vq_cb K H B
              (virtio_video_process_command K H B v elem).v vq).trace }
      else
        { v := (virtio_video_command_vq_cb K H B
            (virtio_video_process_command K H B v elem).v vq).v
          vq := (virtio_video_command_vq_cb K H B
            (virtio_video_process_command K H B v elem).v vq).vq
          trace := [Effect.qemu_mutex_lock Mutex.device] ++
            (virtio_video_process_command K H B v elem).trace ++
            [Effect.qemu_mutex_unlock Mutex.device] ++
            (virtio_video_command_vq_cb K H B
              (virtio_video_process_command K H B v elem).v vq).trace } := by
  have hn : ¬ (elem.out_num < 1 ∨ elem.in_num < 1) := by omega
  rw [virtio_video_command_vq_cb, if_neg hn]

/-- C8 as amended: take a message with a request and a response segment whose
header's opcode is stream-destroy, stream-drain, resource-queue,
resource-destroy-all or queue-clear (header and request struct readable), and
let `h` be what its handler hands back.  If the returned length is 0, the
dispatcher returns 1 with response size 0 and no host call of its own, and
the callback goes on to the next message without pushing, detaching or
freeing this one.  If it is non-zero and the response buffers can hold that
many bytes, the handler's response is copied into them, the dispatcher
returns 0 with that length, and the callback pushes the message with that
length, notifies and frees it before it goes on. -/
theorem command_completion_shapes (K : Proto) (H : Host) (B : Backend) (v : VirtIOVideo)
    (elem : VirtQueueElement) (vq : List VirtQueueElement) (hdr req : List Nat)
    (c : CmdCase) (h : Handled)
    (hout : 1 ≤ elem.out_num) (hin : 1 ≤ elem.in_num)
    (hhdr : CMD_GET_REQ elem K.sizeof_cmd_hdr = some hdr)
    (hop : (K.decode_cmd_hdr hdr).type = K.VIRTIO_VIDEO_CMD_STREAM_DESTROY ∨
      (K.decode_cmd_hdr hdr).type = K.VIRTIO_VIDEO_CMD_STREAM_DRAIN ∨
      (K.decode_cmd_hdr hdr).type = K.VIRTIO_VIDEO_CMD_RESOURCE_QUEUE ∨
      (K.decode_cmd_hdr hdr).type = K.VIRTIO_VIDEO_CMD_RESOURCE_DESTROY_ALL ∨
      (K.decode_cmd_hdr hdr).type = K.VIRTIO_VIDEO_CMD_QUEUE_CLEAR)
    (hc : cmd_case K (K.decode_cmd_hdr hdr).type = c)
    (hreq : CMD_GET_REQ elem (cmd_req_size K c) = some req)
    (hh : command_handler K H B v elem req c = h) :
    (h.len = 0 →
        virtio_video_process_command K H B v elem =
          { ret := 1, resp_size := 0, v := h.v, trace := [] } ∧
        virtio_video_command_vq_cb K H B v (elem :: vq) =
          { v := (virtio_video_command_vq_cb K H B h.v vq).v
            vq := (virtio_video_command_vq_cb K H B h.v vq).vq
            trace := [Effect.qemu_mutex_lock Mutex.device,
                Effect.qemu_mutex_unlock Mutex.device] ++
              (virtio_video_command_vq_cb K H B h.v vq).trace }) ∧
      (h.len ≠ 0 → h.len ≤ elem.in_sg.sum →
        ∃ image, h.resp = some (Resp.raw image) ∧
          virtio_video_process_command K H B v elem =
            { ret := 0, resp_size := h.len, v := h.v
              trace := [Effect.iov_from_buf (Resp.raw image) h.len] } ∧
          virtio_video_command_vq_cb K H B v (elem :: vq) =
            { v := (virtio_video_command_vq_cb K H B h.v vq).v
              vq := (virtio_video_command_vq_cb K H B h.v vq).vq
              trace := [Effect.qemu_mutex_lock Mutex.device,
                  Effect.iov_from_buf (Resp.raw image) h.len,
                  Effect.qemu_mutex_unlock Mutex.device,
                  Effect.virtqueue_push elem h.len,
                  Effect.virtio_notify, Effect.g_free_elem elem] ++
                (virtio_video_command_vq_cb K H B h.v vq).trace }) := by
  subst hc hh
  have hdefer := may_defer_of_opcode K _ hop
  have hne : cmd_case K (K.decode_cmd_hdr hdr).type ≠ CmdCase.default := by
    intro h; rw [h] at hdefer; exact absurd hdefer (by decide)
  have hnrc : cmd_case K (K.decode_cmd_hdr hdr).type ≠ CmdCase.RESOURCE_CREATE := by
    intro h; rw [h] at hdefer; exact absurd hdefer (by decide)
  have hbody := process_command_body K H B v elem hdr req hhdr hne
    (fun h => absurd h hnrc) hreq
  have hstep := callback_step K H B v elem vq hout hin
  obtain ⟨image, hresp, htrace⟩ := may_defer_handled K H B v elem req _ hdefer
  unfold command_body at hbody
  simp only [if_neg hne, hdefer, if_true] at hbody
  constructor
  · intro hlen
    rw [if_pos hlen, htrace] at hbody
    refine ⟨hbody, ?_⟩
    rw [hstep, hbody]
    simp
  · intro hlen hfits
    refine ⟨image, hresp, ?_⟩
    have hcopy : iov_from_buf elem.in_sg (command_handler K H B v elem req
        (cmd_case K (K.decode_cmd_hdr hdr).type)).len = (command_handler K H B v elem req
        (cmd_case K (K.decode_cmd_hdr hdr).type)).len := min_eq_left hfits
    rw [if_neg hlen, hresp, htrace] at hbody
    simp only [CMD_SET_RESP, if_neg hlen, hcopy, ne_eq, not_true_eq_false, if_false,
      List.nil_append] at hbody
    refine ⟨hbody, ?_⟩
    rw [hstep, hbody]
    simp

theorem CMD_SET_RESP_small (elem : VirtQueueElement) (v : VirtIOVideo) (trace : List Effect)
    (resp : Option Resp) (len : Nat) (hsmall : elem.in_sg.sum < len) :
    (CMD_SET_RESP elem v trace resp len).ret = -1 ∧
      (CMD_SET_RESP elem v trace resp len).resp_size = 0 := by
  unfold CMD_SET_RESP
  cases resp with
  | none => exact ⟨rfl, rfl⟩
  | some r =>
    simp only
    by_cases h0 : len = 0
    · rw [if_pos h0]; exact ⟨rfl, rfl⟩
    · have hne : iov_from_buf elem.in_sg len ≠ len := by
        unfold iov_from_buf
        omega
      rw [if_neg h0, if_pos hne]
      exact ⟨rfl, rfl⟩

/-- C10: take a message with a request and a response segment whose opcode
is one of the thirteen (header and request struct readable, two request
segments for resource-create), and let `h` be what its handler hands back.
If the returned length is non-zero and the response buffers cannot hold that
many bytes, `virtio_video_process_command` returns `-1` with response size 0,
and the callback, after unlocking the device, detaches the message with
length 0 and frees it, without pushing it, and leaves every later message in
the queue. -/
theorem response_too_large (K : Proto) (H : Host) (B : Backend) (v : VirtIOVideo)
    (elem : VirtQueueElement) (vq : List VirtQueueElement) (hdr req : List Nat)
    (c : CmdCase) (h : Handled)
    (hout : 1 ≤ elem.out_num) (hin : 1 ≤ elem.in_num)
    (hhdr : CMD_GET_REQ elem K.sizeof_cmd_hdr = some hdr)
    (hc : cmd_case K (K.decode_cmd_hdr hdr).type = c)
    (hnd : c ≠ CmdCase.default)
    (hseg : c = CmdCase.RESOURCE_CREATE → 2 ≤ elem.out_num)
    (hreq : CMD_GET_REQ elem (cmd_req_size K c) = some req)
    (hh : command_handler K H B v elem req c = h)
    (hlen : h.len ≠ 0)
    (hsmall : elem.in_sg.sum < h.len) :
    (virtio_video_process_command K H B v elem).ret = -1 ∧
      (virtio_video_process_command K H B v elem).resp_size = 0 ∧
      virtio_video_command_vq_cb K H B v (elem :: vq) =
        { v := (virtio_video_process_command K H B v elem).v
          vq := vq
          trace := [Effect.qemu_mutex_lock Mutex.device] ++
            (virtio_video_process_command K H B v elem).trace ++
            [Effect.qemu_mutex_unlock Mutex.device,
             Effect.virtqueue_detach_element elem 0, Effect.g_free_elem elem] } := by
  subst hc hh
  have hbody := process_command_body K H B v elem hdr req hhdr hnd hseg hreq
  have hset : virtio_video_process_command K H B v elem =
      CMD_SET_RESP elem
        (command_handler K H B v elem req (cmd_case K (K.decode_cmd_hdr hdr).type)).v
        (command_handler K H B v elem req (cmd_case K (K.decode_cmd_hdr hdr).type)).trace
        (command_handler K H B v elem req (cmd_case K (K.decode_cmd_hdr hdr).type)).resp
        (command_handler K H B v elem req (cmd_case K (K.decode_cmd_hdr hdr).type)).len := by
    rw [hbody]
    unfold command_body
    simp only [if_neg hnd, if_neg hlen]
    split_ifs <;> rfl
  obtain ⟨h1, h2⟩ := CMD_SET_RESP_small elem
    (command_handler K H B v elem req (cmd_case K (K.decode_cmd_hdr hdr).type)).v
    (command_handler K H B v elem req (cmd_case K (K.decode_cmd_hdr hdr).type)).trace
    (command_handler K H B v elem req (cmd_case K (K.decode_cmd_hdr hdr).type)).resp _ hsmall
  rw [← hset] at h1 h2
  refine ⟨h1, h2, ?_⟩
  rw [callback_step K H B v elem vq hout hin, h1]
  simp

theorem destroy_effects_quiet (resource : VirtIOVideoResource) (input : Bool) :
    ∀ e ∈ destroy_effects resource input, e.is_resp_write = false ∧ e.is_push = false := by
  intro e he
  unfold destroy_effects at he
  rcases List.mem_append.mp he with h | h
  · obtain ⟨s, _, rfl⟩ := List.mem_map.mp h
    exact ⟨rfl, rfl⟩
  · cases hb : resource.remapped_base with
    | none => rw [hb] at h; simp at h
    | some b =>
      rw [hb] at h
      simp only [List.mem_singleton] at h
      subst h
      exact ⟨rfl, rfl⟩

theorem replace_quiet (stream : VirtIOVideoStream) (resource_id mem_type dir : Nat) :
    ∀ e ∈ (resource_create_replace stream resource_id mem_type dir).2,
      e.is_resp_write = false ∧ e.is_push = false := by
  unfold resource_create_replace
  cases find_resource (stream.resource_list dir) resource_id with
  | none => intro e he; simp at he
  | some old =>
    simp only [virtio_video_destroy_resource]
    exact destroy_effects_quiet _ _

theorem callback_of_error (K : Proto) (H : Host) (B : Backend) (v : VirtIOVideo)
    (elem : VirtQueueElement) (vq : List VirtQueueElement)
    (hret : (virtio_video_process_command K H B v elem).ret = -1)
    (hquiet : ∀ e ∈ (virtio_video_process_command K H B v elem).trace,
      e.is_resp_write = false ∧ e.is_push = false) :
    (virtio_video_command_vq_cb K H B v (elem :: vq)).vq = vq ∧
      ∃ pre, (virtio_video_command_vq_cb K H B v (elem :: vq)).trace =
          pre ++ [Effect.virtqueue_detach_element elem 0, Effect.g_free_elem elem] ∧
        ∀ e ∈ pre, e.is_resp_write = false ∧ e.is_push = false := by
  by_cases hn : elem.out_num < 1 ∨ elem.in_num < 1
  · rw [virtio_video_command_vq_cb, if_pos hn]
    refine ⟨rfl, [Effect.virtio_error], rfl, ?_⟩
    intro e he
    simp only [List.mem_singleton] at he
    subst he
    exact ⟨rfl, rfl⟩
  · rw [callback_step K H B v elem vq (by omega) (by omega), hret]
    rw [if_pos (by decide : (-1 : Int) < 0)]
    refine ⟨rfl, [Effect.qemu_mutex_lock Mutex.device] ++
      (virtio_video_process_command K H B v elem).trace ++
      [Effect.qemu_mutex_unlock Mutex.device], rfl, ?_⟩
    intro e he
    simp only [List.mem_append, List.mem_singleton] at he
    rcases he with (he | he) | he
    · subst he; exact ⟨rfl, rfl⟩
    · exact hquiet e he
    · subst he; exact ⟨rfl, rfl⟩

theorem command_error_quiet (v : VirtIOVideo) :
    (command_error v []).ret = -1 ∧ (command_error v []).resp_size = 0 ∧
      ∀ e ∈ (command_error v []).trace, e.is_resp_write = false ∧ e.is_push = false := by
  refine ⟨rfl, rfl, ?_⟩
  intro e he
  simp only [command_error, List.nil_append, List.mem_singleton] at he
  subst he
  exact ⟨rfl, rfl⟩

theorem process_command_malformed (K : Proto) (H : Host) (B : Backend) (v : VirtIOVideo)
    (elem : VirtQueueElement) (hmal : malformed_command K H v elem) :
    (virtio_video_process_command K H B v elem).ret = -1 ∧
      (virtio_video_process_command K H B v elem).resp_size = 0 ∧
      ∀ e ∈ (virtio_video_process_command K H B v elem).trace,
        e.is_resp_write = false ∧ e.is_push = false := by
  rcases hmal with hnone | ⟨hdr, hhdr, hc, hrest⟩
  · have : virtio_video_process_command K H B v elem = command_error v [] := by
      unfold virtio_video_process_command; rw [hnone]
    rw [this]; exact command_error_quiet v
  · by_cases hseg : cmd_case K (K.decode_cmd_hdr hdr).type = CmdCase.RESOURCE_CREATE ∧
        elem.out_num < 2
    · have : virtio_video_process_command K H B v elem = command_error v [] := by
        unfold virtio_video_process_command; rw [hhdr]
        simp only [if_neg hc, if_pos hseg]
      rw [this]; exact command_error_quiet v
    · rcases hrest with hnoreq | ⟨hrc, hshort | ⟨req, hreq, ⟨stream, dir, hs, hd, hw, hv, hm⟩, hbytes⟩⟩
      · have : virtio_video_process_command K H B v elem = command_error v [] := by
          unfold virtio_video_process_command; rw [hhdr]
          simp only [if_neg hc, if_neg hseg, hnoreq]
        rw [this]; exact command_error_quiet v
      · exact absurd ⟨hrc, hshort⟩ hseg
      · have hreq2 : CMD_GET_REQ elem
            (cmd_req_size K (cmd_case K (K.decode_cmd_hdr hdr).type)) = some req := by
          rw [hrc]; exact hreq
        have hbody := process_command_body K H B v elem hdr req hhdr hc
          (fun h => by
            by_contra hlt
            exact hseg ⟨h, by omega⟩) hreq2
        rw [hbody, hrc]
        have hlocked : resource_create_locked K H stream (K.decode_resource_create req) elem =
            { len := 0, type := K.VIRTIO_VIDEO_RESP_OK_NODATA
              stream := (resource_create_replace stream (K.decode_resource_create req).resource_id
                K.VIRTIO_VIDEO_MEM_TYPE_GUEST_PAGES dir).1
              trace := (resource_create_replace stream (K.decode_resource_create req).resource_id
                K.VIRTIO_VIDEO_MEM_TYPE_GUEST_PAGES dir).2 ++ [Effect.virtio_error] } := by
          rw [resource_create_locked_idle K H stream _ elem dir hd hw]
          simp only [hv, not_true_eq_false, if_false, hm]
          unfold resource_create_mem
          simp only [if_true, if_pos hbytes]
        have hhandler := resource_create_found K H v (K.decode_resource_create req) elem stream hs
        rw [hlocked] at hhandler
        have hcb : command_body K H B v elem req CmdCase.RESOURCE_CREATE =
            { ret := -1, resp_size := 0
              v := { v with
                stream_list := (update_stream v.stream_list
                  (K.decode_resource_create req).hdr.stream_id
                  (resource_create_replace stream (K.decode_resource_create req).resource_id
                    K.VIRTIO_VIDEO_MEM_TYPE_GUEST_PAGES dir).1) }
              trace := [Effect.qemu_mutex_lock (Mutex.stream stream.id)] ++
                ((resource_create_replace stream (K.decode_resource_create req).resource_id
                  K.VIRTIO_VIDEO_MEM_TYPE_GUEST_PAGES dir).2 ++ [Effect.virtio_error]) ++
                [Effect.qemu_mutex_unlock (Mutex.stream stream.id)] } := by
          unfold command_body command_handler
          simp only [hhandler, CmdCase.may_defer, if_true, reduceCtorEq, if_false]
        rw [hcb]
        refine ⟨rfl, rfl, ?_⟩
        intro e he
        simp only [List.mem_append, List.mem_singleton] at he
        rcases he with (he | he | he) | he
        · subst he; exact ⟨rfl, rfl⟩
        · exact replace_quiet _ _ _ _ e he
        · subst he; exact ⟨rfl, rfl⟩
        · subst he; exact ⟨rfl, rfl⟩

/-- C9 as amended: a malformed command message (request buffers shorter than
the request header, or than the request struct of one of the thirteen
opcodes; for resource-create fewer than two request segments, or, when the
request gets as far as the read of its entry list, fewer entries than the
per-plane counts add up to) makes `virtio_video_process_command` return `-1`
with response size 0 and without writing to the response buffers, and the
callback detaches the message with length 0 and frees it, neither writing a
response nor pushing anything, and leaves every later message in the queue. -/
theorem malformed_command_rejected (K : Proto) (H : Host) (B : Backend) (v : VirtIOVideo)
    (elem : VirtQueueElement) (vq : List VirtQueueElement)
    (hmal : malformed_command K H v elem) :
    (virtio_video_process_command K H B v elem).ret = -1 ∧
      (virtio_video_process_command K H B v elem).resp_size = 0 ∧
      (∀ e ∈ (virtio_video_process_command K H B v elem).trace, e.is_resp_write = false) ∧
      (virtio_video_command_vq_cb K H B v (elem :: vq)).vq = vq ∧
      ∃ pre, (virtio_video_command_vq_cb K H B v (elem :: vq)).trace =
          pre ++ [Effect.virtqueue_detach_element elem 0, Effect.g_free_elem elem] ∧
        ∀ e ∈ pre, e.is_resp_write = false ∧ e.is_push = false := by
  obtain ⟨h1, h2, h3⟩ := process_command_malformed K H B v elem hmal
  obtain ⟨h4, h5⟩ := callback_of_error K H B v elem vq h1 h3
  exact ⟨h1, h2, fun e he => (h3 e he).1, h4, h5⟩

theorem create_without_entries_malformed :
    malformed_command proto_v3 host_short_at_8192 sample_device create_without_entries_elem :=
  Or.inr ⟨sample_create_bytes.take 8, by decide, by decide,
    Or.inr ⟨by decide, Or.inr ⟨sample_create_bytes, by decide,
      ⟨sample_stream, VIRTIO_VIDEO_QUEUE_INPUT, by decide, by decide, by decide, by decide,
        by decide⟩, by decide⟩⟩⟩

/-- Witness of C9: a resource-create message for stream 1 of the sample
device that announces one entry and carries none. -/
theorem malformed_command_rejected_witness :
    malformed_command proto_v3 host_short_at_8192 sample_device create_without_entries_elem ∧
      ((virtio_video_process_command proto_v3 host_short_at_8192 sample_backend sample_device
          create_without_entries_elem).ret = -1 ∧
        (virtio_video_process_command proto_v3 host_short_at_8192 sample_backend sample_device
          create_without_entries_elem).resp_size = 0 ∧
        (∀ e ∈ (virtio_video_process_command proto_v3 host_short_at_8192 sample_backend
          sample_device create_without_entries_elem).trace, e.is_resp_write = false) ∧
        (virtio_video_command_vq_cb proto_v3 host_short_at_8192 sample_backend sample_device
          (create_without_entries_elem :: [stream_destroy_elem 8])).vq =
            [stream_destroy_elem 8] ∧
        ∃ pre, (virtio_video_command_vq_cb proto_v3 host_short_at_8192 sample_backend
            sample_device (create_without_entries_elem :: [stream_destroy_elem 8])).trace =
            pre ++ [Effect.virtqueue_detach_element create_without_entries_elem 0,
              Effect.g_free_elem create_without_entries_elem] ∧
          ∀ e ∈ pre, e.is_resp_write = false ∧ e.is_push = false) :=
  ⟨create_without_entries_malformed,
   malformed_command_rejected proto_v3 host_short_at_8192 sample_backend sample_device
     create_without_entries_elem [stream_destroy_elem 8] create_without_entries_malformed⟩

/-- C9 as stated fails: a resource-create message in two segments, with
readable header and request struct, whose entry list is shorter than the
per-plane counts add up to (it announces one entry and carries none), naming
a stream that does not exist, is not refused as malformed: the dispatcher
returns 0 with an 8-byte `ERR_INVALID_STREAM_ID` response written, and the
callback pushes the message and goes on. -/
theorem short_entry_list_answered :
    cmd_case proto_v3 (proto_v3.decode_cmd_hdr (sample_create_bytes.take 8)).type =
        CmdCase.RESOURCE_CREATE ∧
      create_without_entries_elem.out_num = 2 ∧
      CMD_GET_REQ create_without_entries_elem proto_v3.sizeof_resource_create =
        some sample_create_bytes ∧
      (resource_create_entry_bytes proto_v3 (proto_v3.decode_resource_create sample_create_bytes)
          create_without_entries_elem).length <
        proto_v3.sizeof_mem_entry *
          resource_create_num_entries (proto_v3.decode_resource_create sample_create_bytes) ∧
      virtio_video_process_command proto_v3 host_short_at_8192 sample_backend empty_device
          create_without_entries_elem =
        { ret := 0, resp_size := 8, v := empty_device
          trace := [Effect.iov_from_buf (Resp.cmd_hdr { type := 0x302, stream_id := 1 }) 8] } ∧
      virtio_video_command_vq_cb proto_v3 host_short_at_8192 sample_backend empty_device
          [create_without_entries_elem] =
        { v := empty_device, vq := []
          trace := [Effect.qemu_mutex_lock Mutex.device,
            Effect.iov_from_buf (Resp.cmd_hdr { type := 0x302, stream_id := 1 }) 8,
            Effect.qemu_mutex_unlock Mutex.device,
            Effect.virtqueue_push create_without_entries_elem 8,
            Effect.virtio_notify,
            Effect.g_free_elem create_without_entries_elem] } := by
  decide

/-- C8 as stated fails: the handler of a stream-destroy command returns the
non-zero length 8, the response buffer has room for 4 bytes; the dispatcher
does not return 0 with length 8 but `-1`, and the callback does not push the
message but detaches it. -/
theorem sync_reply_needs_room :
    CMD_GET_REQ (stream_destroy_elem 4) proto_v3.sizeof_cmd_hdr = some stream_destroy_bytes ∧
      (proto_v3.decode_cmd_hdr stream_destroy_bytes).type =
        proto_v3.VIRTIO_VIDEO_CMD_STREAM_DESTROY ∧
      (command_handler proto_v3 host_short_at_8192 sample_backend sample_device
          (stream_destroy_elem 4) stream_destroy_bytes CmdCase.STREAM_DESTROY).len = 8 ∧
      (virtio_video_process_command proto_v3 host_short_at_8192 sample_backend sample_device
          (stream_destroy_elem 4)).ret = -1 ∧
      (virtio_video_command_vq_cb proto_v3 host_short_at_8192 sample_backend sample_device
          [stream_destroy_elem 4]).trace =
        [Effect.qemu_mutex_lock Mutex.device,
         Effect.iov_from_buf (Resp.raw [0, 2, 0, 0, 1, 0, 0, 0]) 4,
         Effect.virtio_error,
         Effect.qemu_mutex_unlock Mutex.device,
         Effect.virtqueue_detach_element (stream_destroy_elem 4) 0,
         Effect.g_free_elem (stream_destroy_elem 4)] := by
  decide

/-- Witness of C8, both shapes on the sample device: a resource-queue
message, whose reply the sample backend defers, and a stream-destroy message
with room for the 8 bytes the sample backend answers. -/
theorem command_completion_shapes_witness :
    (1 ≤ resource_queue_elem.out_num ∧ 1 ≤ resource_queue_elem.in_num ∧
        CMD_GET_REQ resource_queue_elem proto_v3.sizeof_cmd_hdr =
          some (resource_queue_bytes.take 8) ∧
        (proto_v3.decode_cmd_hdr (resource_queue_bytes.take 8)).type =
          proto_v3.VIRTIO_VIDEO_CMD_RESOURCE_QUEUE ∧
        cmd_case proto_v3 (proto_v3.decode_cmd_hdr (resource_queue_bytes.take 8)).type =
          CmdCase.RESOURCE_QUEUE ∧
        CMD_GET_REQ resource_queue_elem (cmd_req_size proto_v3 CmdCase.RESOURCE_QUEUE) =
          some resource_queue_bytes ∧
        command_handler proto_v3 host_short_at_8192 sample_backend sample_device
          resource_queue_elem resource_queue_bytes CmdCase.RESOURCE_QUEUE = sample_deferral ∧
        sample_deferral.len = 0) ∧
      (virtio_video_process_command proto_v3 host_short_at_8192 sample_backend sample_device
            resource_queue_elem =
          { ret := 1, resp_size := 0, v := sample_deferral.v, trace := [] } ∧
        virtio_video_command_vq_cb proto_v3 host_short_at_8192 sample_backend sample_device
            (resource_queue_elem :: [stream_destroy_elem 8]) =
          { v := (virtio_video_command_vq_cb proto_v3 host_short_at_8192 sample_backend
              sample_deferral.v [stream_destroy_elem 8]).v
            vq := (virtio_video_command_vq_cb proto_v3 host_short_at_8192 sample_backend
              sample_deferral.v [stream_destroy_elem 8]).vq
            trace := [Effect.qemu_mutex_lock Mutex.device,
                Effect.qemu_mutex_unlock Mutex.device] ++
              (virtio_video_command_vq_cb proto_v3 host_short_at_8192 sample_backend
                sample_deferral.v [stream_destroy_elem 8]).trace }) ∧
      (1 ≤ (stream_destroy_elem 8).out_num ∧ 1 ≤ (stream_destroy_elem 8).in_num ∧
        CMD_GET_REQ (stream_destroy_elem 8) proto_v3.sizeof_cmd_hdr =
          some stream_destroy_bytes ∧
        (proto_v3.decode_cmd_hdr stream_destroy_bytes).type =
          proto_v3.VIRTIO_VIDEO_CMD_STREAM_DESTROY ∧
        cmd_case proto_v3 (proto_v3.decode_cmd_hdr stream_destroy_bytes).type =
          CmdCase.STREAM_DESTROY ∧
        CMD_GET_REQ (stream_destroy_elem 8) (cmd_req_size proto_v3 CmdCase.STREAM_DESTROY) =
          some stream_destroy_bytes ∧
        command_handler proto_v3 host_short_at_8192 sample_backend sample_device
          (stream_destroy_elem 8) stream_destroy_bytes CmdCase.STREAM_DESTROY = sample_answer ∧
        sample_answer.len ≠ 0 ∧ sample_answer.len ≤ (stream_destroy_elem 8).in_sg.sum) ∧
      ∃ image, sample_answer.resp = some (Resp.raw image) ∧
        virtio_video_process_command proto_v3 host_short_at_8192 sample_backend sample_device
            (stream_destroy_elem 8) =
          { ret := 0, resp_size := sample_answer.len, v := sample_answer.v
            trace := [Effect.iov_from_buf (Resp.raw image) sample_answer.len] } ∧
        virtio_video_command_vq_cb proto_v3 host_short_at_8192 sample_backend sample_device
            (stream_destroy_elem 8 :: []) =
          { v := (virtio_video_command_vq_cb proto_v3 host_short_at_8192 sample_backend
              sample_answer.v []).v
            vq := (virtio_video_command_vq_cb proto_v3 host_short_at_8192 sample_backend
              sample_answer.v []).vq
            trace := [Effect.qemu_mutex_lock Mutex.device,
                Effect.iov_from_buf (Resp.raw image) sample_answer.len,
                Effect.qemu_mutex_unlock Mutex.device,
                Effect.virtqueue_push (stream_destroy_elem 8) sample_answer.len,
                Effect.virtio_notify, Effect.g_free_elem (stream_destroy_elem 8)] ++
              (virtio_video_command_vq_cb proto_v3 host_short_at_8192 sample_backend
                sample_answer.v []).trace } :=
  ⟨⟨by decide, by decide, by decide, by decide, by decide, by decide, by decide, by decide⟩,
   (command_completion_shapes proto_v3 host_short_at_8192 sample_backend sample_device
     resource_queue_elem [stream_destroy_elem 8] (resource_queue_bytes.take 8)
     resource_queue_bytes CmdCase.RESOURCE_QUEUE sample_deferral
     (by decide) (by decide) (by decide) (Or.inr (Or.inr (Or.inl (by decide)))) (by decide)
     (by decide) (by decide)).1 (by decide),
   ⟨by decide, by decide, by decide, by decide, by decide, by decide, by decide, by decide,
     by decide⟩,
   (command_completion_shapes proto_v3 host_short_at_8192 sample_backend sample_device
     (stream_destroy_elem 8) [] stream_destroy_bytes stream_destroy_bytes
     CmdCase.STREAM_DESTROY sample_answer
     (by decide) (by decide) (by decide) (Or.inl (by decide)) (by decide)
     (by decide) (by decide)).2 (by decide) (by decide)⟩

/-- Witness of C10: a stream-destroy message with a 4-byte response buffer,
answered by the sample backend with 8 bytes. -/
theorem response_too_large_witness :
    (1 ≤ (stream_destroy_elem 4).out_num ∧ 1 ≤ (stream_destroy_elem 4).in_num ∧
        CMD_GET_REQ (stream_destroy_elem 4) proto_v3.sizeof_cmd_hdr =
          some stream_destroy_bytes ∧
        cmd_case proto_v3 (proto_v3.decode_cmd_hdr stream_destroy_bytes).type =
          CmdCase.STREAM_DESTROY ∧
        CmdCase.STREAM_DESTROY ≠ CmdCase.default ∧
        (CmdCase.STREAM_DESTROY = CmdCase.RESOURCE_CREATE →
          2 ≤ (stream_destroy_elem 4).out_num) ∧
        CMD_GET_REQ (stream_destroy_elem 4) (cmd_req_size proto_v3 CmdCase.STREAM_DESTROY) =
          some stream_destroy_bytes ∧
        command_handler proto_v3 host_short_at_8192 sample_backend sample_device
          (stream_destroy_elem 4) stream_destroy_bytes CmdCase.STREAM_DESTROY = sample_answer ∧
        sample_answer.len ≠ 0 ∧
        (stream_destroy_elem 4).in_sg.sum < sample_answer.len) ∧
      ((virtio_video_process_command proto_v3 host_short_at_8192 sample_backend sample_device
          (stream_destroy_elem 4)).ret = -1 ∧
        (virtio_video_process_command proto_v3 host_short_at_8192 sample_backend sample_device
          (stream_destroy_elem 4)).resp_size = 0 ∧
        virtio_video_command_vq_cb proto_v3 host_short_at_8192 sample_backend sample_device
            (stream_destroy_elem 4 :: [stream_destroy_elem 8]) =
          { v := (virtio_video_process_command proto_v3 host_short_at_8192 sample_backend
              sample_device (stream_destroy_elem 4)).v
            vq := [stream_destroy_elem 8]
            trace := [Effect.qemu_mutex_lock Mutex.device] ++
              (virtio_video_process_command proto_v3 host_short_at_8192 sample_backend
                sample_device (stream_destroy_elem 4)).trace ++
              [Effect.qemu_mutex_unlock Mutex.device,
               Effect.virtqueue_detach_element (stream_destroy_elem 4) 0,
               Effect.g_free_elem (stream_destroy_elem 4)] }) :=
  ⟨⟨by decide, by decide, by decide, by decide, by decide, by decide, by decide, by decide,
     by decide, by decide⟩,
   response_too_large proto_v3 host_short_at_8192 sample_backend sample_device
     (stream_destroy_elem 4) [stream_destroy_elem 8] stream_destroy_bytes stream_destroy_bytes
     CmdCase.STREAM_DESTROY sample_answer
     (by decide) (by decide) (by decide) (by decide) (by decide) (by decide) (by decide)
     (by decide) (by decide) (by decide)⟩

/-! ## Resource creation: the order of the unwinding -/

theorem create_page_entries_short (H : Host) (entries : List virtio_video_mem_entry)
    (output : Bool) (k n : Nat) (row : List VirtIOVideoResourceSlice) (trace : List Effect)
    (h : (create_page_entries H entries output k n row trace).1 = false) :
    ∃ j, j < k ∧
      (slice_of H output (entries.getD (n + j) default)).len <
        (entries.getD (n + j) default).length ∧
      (∀ m, n ≤ m → m < n + j →
        ¬ (slice_of H output (entries.getD m default)).len <
          (entries.getD m default).length) ∧
      create_page_entries H entries output k n row trace =
        (false, n + j,
          row ++ (List.range' n j).map (fun m => slice_of H output (entries.getD m default)),
          trace ++ (List.range' n (j + 1)).map
              (fun m => map_effect H output (entries.getD m default)) ++
            [Effect.dma_memory_unmap (slice_of H output (entries.getD (n + j) default)).base
              (slice_of H output (entries.getD (n + j) default)).len output]) := by
  induction k generalizing n row trace with
  | zero => simp [create_page_entries] at h
  | succ k ih =>
    rw [create_page_entries] at h ⊢
    by_cases hs : (slice_of H output (entries.getD n default)).len <
        (entries.getD n default).length
    · rw [if_pos hs]
      exact ⟨0, by omega, hs, fun m h1 h2 => by omega, by simp [List.range']⟩
    · rw [if_neg hs] at h ⊢
      obtain ⟨j, hj, hshort, hfull, heq⟩ := ih _ _ _ h
      have e : n + (j + 1) = n + 1 + j := by omega
      refine ⟨j + 1, by omega, ?_, ?_, ?_⟩
      · rw [e]; exact hshort
      · intro m h1 h2
        by_cases hm : m = n
        · rw [hm]; exact hs
        · exact hfull m (by omega) (by omega)
      · rw [heq, e, List.range'_succ n (j + 1), List.range'_succ n j]
        simp only [List.map_cons, List.append_assoc, List.singleton_append, List.cons_append,
          List.nil_append]

theorem create_page_entries_ok (H : Host) (entries : List virtio_video_mem_entry)
    (output : Bool) (k n : Nat) (row : List VirtIOVideoResourceSlice) (trace : List Effect)
    (h : (create_page_entries H entries output k n row trace).1 = true) :
    (∀ m, n ≤ m → m < n + k →
        ¬ (slice_of H output (entries.getD m default)).len <
          (entries.getD m default).length) ∧
      create_page_entries H entries output k n row trace =
        (true, n + k,
          row ++ (List.range' n k).map (fun m => slice_of H output (entries.getD m default)),
          trace ++ (List.range' n k).map
            (fun m => map_effect H output (entries.getD m default))) := by
  induction k generalizing n row trace with
  | zero => exact ⟨fun m h1 h2 => by omega, by simp [create_page_entries]⟩
  | succ k ih =>
    rw [create_page_entries] at h ⊢
    by_cases hs : (slice_of H output (entries.getD n default)).len <
        (entries.getD n default).length
    · rw [if_pos hs] at h
      exact absurd h (by simp)
    · rw [if_neg hs] at h ⊢
      have e : n + (k + 1) = n + 1 + k := by omega
      obtain ⟨hfull, heq⟩ := ih _ _ _ h
      refine ⟨?_, ?_⟩
      · intro m h1 h2
        by_cases hm : m = n
        · rw [hm]; exact hs
        · exact hfull m (by omega) (by omega)
      · rw [heq, e, List.range'_succ n k]
        simp only [List.map_cons, List.append_assoc, List.singleton_append]

theorem create_page_planes_short (H : Host) (resource : VirtIOVideoResource)
    (entries : List virtio_video_mem_entry) (output : Bool) (p i n : Nat)
    (slices : List (List VirtIOVideoResourceSlice)) (trace : List Effect)
    (h : (create_page_planes H resource entries output p i n slices trace).ret < 0) :
    (create_page_planes H resource entries output p i n slices trace).ret = -1 ∧
    ∃ q j, q < p ∧ j < resource.num_entries.getD (i + q) 0 ∧
      (slice_of H output
          (entries.getD (n + plane_span resource.num_entries i q + j) default)).len <
        (entries.getD (n + plane_span resource.num_entries i q + j) default).length ∧
      (∀ m, n ≤ m → m < n + plane_span resource.num_entries i q + j →
        ¬ (slice_of H output (entries.getD m default)).len <
          (entries.getD m default).length) ∧
      (create_page_planes H resource entries output p i n slices trace).trace =
        trace ++
          (List.range' n (plane_span resource.num_entries i q + j + 1)).map
            (fun m => map_effect H output (entries.getD m default)) ++
          ((n + plane_span resource.num_entries i q + j) ::
              List.range' (n + plane_span resource.num_entries i q) j).map
            (fun m => Effect.dma_memory_unmap (slice_of H output (entries.getD m default)).base
              (slice_of H output (entries.getD m default)).len output) := by
  induction p generalizing i n slices trace with
  | zero => simp [create_page_planes] at h
  | succ p ih =>
    rw [create_page_planes] at h ⊢
    have hok := create_page_entries_ok H entries output (resource.num_entries.getD i 0) n []
      trace
    have hshort := create_page_entries_short H entries output (resource.num_entries.getD i 0) n
      [] trace
    rcases hr : create_page_entries H entries output (resource.num_entries.getD i 0) n []
      trace with ⟨ok, n1, row, trace1⟩
    rw [hr] at h hok hshort
    cases ok
    · obtain ⟨j, hj, hs, hfull, heq⟩ := hshort rfl
      simp only [Prod.mk.injEq, true_and] at heq
      obtain ⟨_, hrow, htrace⟩ := heq
      refine ⟨rfl, 0, j, by omega, by simpa using hj, by simpa [plane_span] using hs, ?_, ?_⟩
      · simpa [plane_span] using hfull
      · simp only [plane_span, List.range_zero, List.map_nil, List.sum_nil, Nat.add_zero,
          Nat.zero_add]
        rw [htrace, hrow]
        simp only [List.nil_append, List.map_cons, List.map_map, List.append_assoc,
          List.singleton_append, Function.comp]
        rfl
    · simp only at h ⊢
      obtain ⟨hfull0, heq⟩ := hok rfl
      simp only [Prod.mk.injEq, true_and] at heq
      obtain ⟨hn1, _, htrace⟩ := heq
      obtain ⟨hret, q, j, hq, hj, hs, hfull, ht⟩ := ih (i + 1) n1 (slices ++ [row]) trace1 h
      have espan : n1 + plane_span resource.num_entries (i + 1) q =
          n + plane_span resource.num_entries i (q + 1) := by
        rw [plane_span_succ, hn1]; omega
      have ei : i + 1 + q = i + (q + 1) := by omega
      refine ⟨hret, q + 1, j, by omega, by rw [← ei]; exact hj, by rw [← espan]; exact hs,
        ?_, ?_⟩
      · intro m h1 h2
        by_cases hm : m < n1
        · exact hfull0 m h1 (by omega)
        · exact hfull m (by omega) (by omega)
      · rw [ht, htrace, espan]
        have ecount : plane_span resource.num_entries i (q + 1) + j + 1 =
            (plane_span resource.num_entries (i + 1) q + j + 1) +
              resource.num_entries.getD i 0 := by
          rw [plane_span_succ]; omega
        rw [ecount, ← List.range'_append_1 n (resource.num_entries.getD i 0), hn1]
        simp only [List.map_append, List.append_assoc]

theorem create_page_planes_ok (H : Host) (resource : VirtIOVideoResource)
    (entries : List virtio_video_mem_entry) (output : Bool) (p i n : Nat)
    (slices : List (List VirtIOVideoResourceSlice)) (trace : List Effect)
    (h : ¬ (create_page_planes H resource entries output p i n slices trace).ret < 0) :
    ∀ m, n ≤ m → m < n + plane_span resource.num_entries i p →
      ¬ (slice_of H output (entries.getD m default)).len <
        (entries.getD m default).length := by
  induction p generalizing i n slices trace with
  | zero =>
    intro m h1 h2
    simp [plane_span] at h2
    omega
  | succ p ih =>
    rw [create_page_planes] at h
    have hok := create_page_entries_ok H entries output (resource.num_entries.getD i 0) n []
      trace
    rcases hr : create_page_entries H entries output (resource.num_entries.getD i 0) n []
      trace with ⟨ok, n1, row, trace1⟩
    rw [hr] at h hok
    cases ok
    · exact absurd (by decide : ((-1 : Int) < 0)) h
    · simp only at h
      obtain ⟨hfull0, heq⟩ := hok rfl
      simp only [Prod.mk.injEq, true_and] at heq
      obtain ⟨hn1, _, _⟩ := heq
      intro m h1 h2
      rw [plane_span_succ] at h2
      by_cases hm : m < n1
      · exact hfull0 m h1 (by omega)
      · exact ih (i + 1) n1 (slices ++ [row]) trace1 h m (by omega) (by omega)

/-- C17 (code evaluated at a failing input): one plane of three entries, the
third of which maps short.  `virtio_video_resource_create_page` returns `-1`
after mapping the three slices at host addresses 8192, 16384 and 12288 and
unmapping them in the order 12288 (the short one), 8192, 16384: the short
slice first, then the earlier ones in the order they were mapped, which is not
the reverse of the mapping order. -/
theorem create_page_unwinds_in_mapping_order :
    (virtio_video_resource_create_page host_short_at_8192 three_entry_resource
        three_entries false).ret = -1 ∧
      mapped_slices (virtio_video_resource_create_page host_short_at_8192
        three_entry_resource three_entries false).trace =
        [(8192, 64), (16384, 64), (12288, 32)] ∧
      unmapped_slices (virtio_video_resource_create_page host_short_at_8192
        three_entry_resource three_entries false).trace =
        [(12288, 32), (8192, 64), (16384, 64)] ∧
      unmapped_slices (virtio_video_resource_create_page host_short_at_8192
        three_entry_resource three_entries false).trace ≠
        (mapped_slices (virtio_video_resource_create_page host_short_at_8192
          three_entry_resource three_entries false).trace).reverse := by
  decide

/-- C17 as amended: let some entry of the request, among those of the planes
of the resource, map short.  Then `virtio_video_resource_create_page` returns
`-1`, and it does so at the first such entry, entry `j` of some plane `i`.
The host calls made are: one mapping for each entry up to and including that
one, in order; the unmapping of the short slice; the unmapping of the slices
of entries `0 .. j-1` of plane `i`, in the order they were mapped (first
mapped first).  The entries unmapped are pairwise distinct, so no slice is
unmapped more than once. -/
theorem create_page_unwinds_failing_plane (H : Host) (resource : VirtIOVideoResource)
    (entries : List virtio_video_mem_entry) (output : Bool)
    (hshort : ∃ m, m < plane_first_entry resource.num_entries resource.num_planes ∧
      (slice_of H output (entries.getD m default)).len < (entries.getD m default).length) :
    (virtio_video_resource_create_page H resource entries output).ret = -1 ∧
    ∃ i j, i < resource.num_planes ∧ j < resource.num_entries.getD i 0 ∧
      (slice_of H output
          (entries.getD (plane_first_entry resource.num_entries i + j) default)).len <
        (entries.getD (plane_first_entry resource.num_entries i + j) default).length ∧
      (∀ m, m < plane_first_entry resource.num_entries i + j →
        ¬ (slice_of H output (entries.getD m default)).len <
          (entries.getD m default).length) ∧
      (virtio_video_resource_create_page H resource entries output).trace =
        (List.range (plane_first_entry resource.num_entries i + j + 1)).map
            (fun m => map_effect H output (entries.getD m default)) ++
          ((plane_first_entry resource.num_entries i + j) ::
              List.range' (plane_first_entry resource.num_entries i) j).map
            (fun m => Effect.dma_memory_unmap (slice_of H output (entries.getD m default)).base
              (slice_of H output (entries.getD m default)).len output) ∧
      ((plane_first_entry resource.num_entries i + j) ::
        List.range' (plane_first_entry resource.num_entries i) j).Nodup := by
  have hfirst : ∀ q, plane_span resource.num_entries 0 q =
      plane_first_entry resource.num_entries q := by
    intro q
    unfold plane_span plane_first_entry
    simp only [Nat.zero_add]
  have h : (virtio_video_resource_create_page H resource entries output).ret < 0 := by
    by_contra hn
    obtain ⟨m, hm, hs⟩ := hshort
    unfold virtio_video_resource_create_page at hn
    exact create_page_planes_ok H resource entries output resource.num_planes 0 0 [] [] hn m
      (Nat.zero_le _) (by rw [hfirst]; omega) hs
  unfold virtio_video_resource_create_page at h ⊢
  obtain ⟨hret, q, j, hq, hj, hs, hfull, ht⟩ :=
    create_page_planes_short H resource entries output resource.num_planes 0 0 [] [] h
  rw [hfirst] at hs ht hfull
  simp only [Nat.zero_add, List.nil_append] at hs ht hj hfull
  refine ⟨hret, q, j, hq, hj, hs, ?_, ?_, ?_⟩
  · intro m hm
    exact hfull m (Nat.zero_le _) hm
  · rw [ht, List.range_eq_range']
  · rw [List.nodup_cons]
    refine ⟨?_, List.nodup_range' _ _⟩
    rw [List.mem_range'_1]
    omega

/-- Witness of the amended C17: one plane of three entries, the third of which
maps short on the sample host. -/
theorem create_page_unwinds_failing_plane_witness :
    (∃ m, m < plane_first_entry three_entry_resource.num_entries
          three_entry_resource.num_planes ∧
        (slice_of host_short_at_8192 false (three_entries.getD m default)).len <
          (three_entries.getD m default).length) ∧
    ((virtio_video_resource_create_page host_short_at_8192 three_entry_resource
        three_entries false).ret = -1 ∧
    ∃ i j, i < three_entry_resource.num_planes ∧ j < three_entry_resource.num_entries.getD i 0 ∧
      (slice_of host_short_at_8192 false
          (three_entries.getD (plane_first_entry three_entry_resource.num_entries i + j)
            default)).len <
        (three_entries.getD (plane_first_entry three_entry_resource.num_entries i + j)
          default).length ∧
      (∀ m, m < plane_first_entry three_entry_resource.num_entries i + j →
        ¬ (slice_of host_short_at_8192 false (three_entries.getD m default)).len <
          (three_entries.getD m default).length) ∧
      (virtio_video_resource_create_page host_short_at_8192 three_entry_resource three_entries
          false).trace =
        (List.range (plane_first_entry three_entry_resource.num_entries i + j + 1)).map
            (fun m => map_effect host_short_at_8192 false (three_entries.getD m default)) ++
          ((plane_first_entry three_entry_resource.num_entries i + j) ::
              List.range' (plane_first_entry three_entry_resource.num_entries i) j).map
            (fun m => Effect.dma_memory_unmap
              (slice_of host_short_at_8192 false (three_entries.getD m default)).base
              (slice_of host_short_at_8192 false (three_entries.getD m default)).len false) ∧
      ((plane_first_entry three_entry_resource.num_entries i + j) ::
        List.range' (plane_first_entry three_entry_resource.num_entries i) j).Nodup) :=
  ⟨⟨2, by decide, by decide⟩,
   create_page_unwinds_failing_plane host_short_at_8192 three_entry_resource three_entries
     false ⟨2, by decide, by decide⟩⟩

/-! ## Resource creation: requests that are refused -/

theorem resource_list_set_at (stream : VirtIOVideoStream) (dir d : Nat)
    (l : List VirtIOVideoResource) :
    (stream.set_resource_list dir l).resource_list d = l ∨
      (stream.set_resource_list dir l).resource_list d = stream.resource_list d := by
  unfold VirtIOVideoStream.set_resource_list VirtIOVideoStream.resource_list
  by_cases h : dir = VIRTIO_VIDEO_QUEUE_INPUT <;> by_cases h1 : d = VIRTIO_VIDEO_QUEUE_INPUT <;>
    simp [h, h1]

theorem resource_list_set_at_eq (stream : VirtIOVideoStream) (dir d : Nat)
    (l : List VirtIOVideoResource)
    (h : (stream.set_resource_list dir l).resource_list d ≠ stream.resource_list d) :
    (stream.set_resource_list dir l).resource_list d = l ∧
      stream.resource_list d = stream.resource_list dir := by
  unfold VirtIOVideoStream.set_resource_list VirtIOVideoStream.resource_list at h ⊢
  by_cases h0 : dir = VIRTIO_VIDEO_QUEUE_INPUT <;> by_cases h1 : d = VIRTIO_VIDEO_QUEUE_INPUT <;>
    simp [h0, h1] at h ⊢

theorem find_resource_mem (list : List VirtIOVideoResource) (resource_id : Nat)
    (old : VirtIOVideoResource) (h : find_resource list resource_id = some old) :
    old ∈ list ∧ old.id = resource_id := by
  unfold find_resource at h
  exact ⟨List.mem_of_find?_eq_some h, by simpa using List.find?_some h⟩

theorem replace_cases (stream : VirtIOVideoStream) (resource_id mem_type dir : Nat) :
    (find_resource (stream.resource_list dir) resource_id = none ∧
        resource_create_replace stream resource_id mem_type dir = (stream, [])) ∨
      ∃ old, old ∈ stream.resource_list dir ∧ old.id = resource_id ∧
        resource_create_replace stream resource_id mem_type dir =
          (stream.set_resource_list dir ((stream.resource_list dir).erase old),
            destroy_effects old (dir = VIRTIO_VIDEO_QUEUE_INPUT)) := by
  cases hf : find_resource (stream.resource_list dir) resource_id with
  | none => left; exact ⟨rfl, by simp [resource_create_replace, hf]⟩
  | some old =>
    right
    obtain ⟨hm, hid⟩ := find_resource_mem _ _ _ hf
    exact ⟨old, hm, hid, by simp [resource_create_replace, hf, virtio_video_destroy_resource]⟩

theorem replace_fields (stream : VirtIOVideoStream) (resource_id mem_type dir : Nat) :
    (resource_create_replace stream resource_id mem_type dir).1.id = stream.id ∧
      (resource_create_replace stream resource_id mem_type dir).1.in_ = stream.in_ ∧
      (resource_create_replace stream resource_id mem_type dir).1.out = stream.out ∧
      (resource_create_replace stream resource_id mem_type dir).1.input_work =
        stream.input_work ∧
      (resource_create_replace stream resource_id mem_type dir).1.output_work =
        stream.output_work := by
  rcases replace_cases stream resource_id mem_type dir with ⟨_, h⟩ | ⟨old, _, _, h⟩
  · rw [h]; exact ⟨rfl, rfl, rfl, rfl, rfl⟩
  · rw [h]; exact set_resource_list_fields _ _ _

theorem replace_sublist (stream : VirtIOVideoStream) (resource_id mem_type dir d : Nat) :
    ((resource_create_replace stream resource_id mem_type dir).1.resource_list d).Sublist
      (stream.resource_list d) := by
  rcases replace_cases stream resource_id mem_type dir with ⟨_, h⟩ | ⟨old, _, _, h⟩
  · rw [h]
  · rw [h]
    simp only
    by_cases hne : (stream.set_resource_list dir ((stream.resource_list dir).erase
        old)).resource_list d = stream.resource_list d
    · rw [hne]
    · obtain ⟨h1, h2⟩ := resource_list_set_at_eq _ _ _ _ hne
      rw [h1, h2]
      exact List.erase_sublist _ _

theorem destroy_effects_no_map (resource : VirtIOVideoResource) (input : Bool) :
    ∀ e ∈ destroy_effects resource input, e.is_map = false := by
  intro e he
  unfold destroy_effects at he
  rcases List.mem_append.mp he with h | h
  · obtain ⟨s, _, rfl⟩ := List.mem_map.mp h
    rfl
  · cases hb : resource.remapped_base with
    | none => rw [hb] at h; simp at h
    | some b =>
      rw [hb] at h
      simp only [List.mem_singleton] at h
      subst h
      rfl

theorem replace_no_map (stream : VirtIOVideoStream) (resource_id mem_type dir : Nat) :
    ∀ e ∈ (resource_create_replace stream resource_id mem_type dir).2, e.is_map = false := by
  rcases replace_cases stream resource_id mem_type dir with ⟨_, h⟩ | ⟨old, _, _, h⟩
  · rw [h]; intro e he; simp at he
  · rw [h]; exact destroy_effects_no_map _ _

/-- C13: a resource-create request on a live stream, for a valid queue type,
whose resource id is not the id of the resource of a work item pending in
that direction, and whose plane count is not valid for the format of that
direction, is answered with `ERR_INVALID_PARAMETER` in a response of the size
of the response header; the host calls made contain no `dma_memory_map`, and
afterwards each of the two resource lists of the stream is a sublist of what
it was before: no resource has been inserted. -/
theorem resource_create_invalid_plane_count (K : Proto) (H : Host) (v : VirtIOVideo)
    (req : virtio_video_resource_create) (elem : VirtQueueElement) (stream : VirtIOVideoStream)
    (dir : Nat)
    (hstream : find_stream v.stream_list req.hdr.stream_id = some stream)
    (hdir : queue_dir K req.queue_type = some dir)
    (hwork : find_work (stream.work_queue dir) req.resource_id = none)
    (hplanes : H.virtio_video_format_is_valid (stream.queue_info dir).params.format
      req.num_planes = false) :
    (virtio_video_process_cmd_resource_create K H v req elem).resp.type =
        K.VIRTIO_VIDEO_RESP_ERR_INVALID_PARAMETER ∧
      (virtio_video_process_cmd_resource_create K H v req elem).len = K.sizeof_cmd_hdr ∧
      (∀ e ∈ (virtio_video_process_cmd_resource_create K H v req elem).trace,
        e.is_map = false) ∧
      ∃ stream1,
        find_stream (virtio_video_process_cmd_resource_create K H v req elem).v.stream_list
          req.hdr.stream_id = some stream1 ∧
        ∀ d, (stream1.resource_list d).Sublist (stream.resource_list d) := by
  rw [resource_create_found K H v req elem stream hstream,
    resource_create_locked_idle K H stream req elem dir hdir hwork]
  simp only [hplanes, Bool.false_eq_true, not_false_eq_true, if_true]
  refine ⟨trivial, trivial, ?_, _, find_stream_update _ _ _ _ hstream ?_, ?_⟩
  · intro e he
    simp only [List.mem_append, List.mem_singleton, List.mem_cons, List.not_mem_nil,
      or_false] at he
    rcases he with (rfl | he) | rfl
    · rfl
    · exact replace_no_map _ _ _ _ e he
    · rfl
  · rw [(replace_fields _ _ _ _).1]; exact find_stream_id _ _ _ hstream
  · intro d; exact replace_sublist _ _ _ _ d

/-- Witness of C13: stream 1 of the sample device holds idle input resource 7;
the guest creates input resource 7 with three planes, which the sample host
accepts for no format. -/
theorem resource_create_invalid_plane_count_witness :
    find_stream sample_device.stream_list
        ({ sample_create with num_planes := 3 } : virtio_video_resource_create).hdr.stream_id =
        some sample_stream ∧
      queue_dir proto_v3
        ({ sample_create with num_planes := 3 } : virtio_video_resource_create).queue_type =
        some 0 ∧
      find_work (sample_stream.work_queue 0)
        ({ sample_create with num_planes := 3 } : virtio_video_resource_create).resource_id =
        none ∧
      host_short_at_8192.virtio_video_format_is_valid (sample_stream.queue_info 0).params.format
        ({ sample_create with num_planes := 3 } : virtio_video_resource_create).num_planes =
        false ∧
      ((virtio_video_process_cmd_resource_create proto_v3 host_short_at_8192 sample_device
          { sample_create with num_planes := 3 } sample_create_elem).resp.type =
          proto_v3.VIRTIO_VIDEO_RESP_ERR_INVALID_PARAMETER ∧
        (virtio_video_process_cmd_resource_create proto_v3 host_short_at_8192 sample_device
          { sample_create with num_planes := 3 } sample_create_elem).len =
          proto_v3.sizeof_cmd_hdr ∧
        (∀ e ∈ (virtio_video_process_cmd_resource_create proto_v3 host_short_at_8192
            sample_device { sample_create with num_planes := 3 } sample_create_elem).trace,
          e.is_map = false) ∧
        ∃ stream1,
          find_stream (virtio_video_process_cmd_resource_create proto_v3 host_short_at_8192
            sample_device { sample_create with num_planes := 3 }
              sample_create_elem).v.stream_list
            ({ sample_create with num_planes := 3 } :
              virtio_video_resource_create).hdr.stream_id = some stream1 ∧
          ∀ d, (stream1.resource_list d).Sublist (sample_stream.resource_list d)) :=
  ⟨by decide, by decide, by decide, by decide,
   resource_create_invalid_plane_count proto_v3 host_short_at_8192 sample_device
     { sample_create with num_planes := 3 } sample_create_elem sample_stream 0
     (by decide) (by decide) (by decide) (by decide)⟩

/-- C14: a resource-create request on a live stream, for a valid queue type,
on a direction whose memory type is virtio-object, is answered with
`ERR_INVALID_PARAMETER` in a response of the size of the response header,
whatever id, layout and plane count it carries.  The direction is taken in the
state it has in every run: no resource is on its list (`hlist`: creation on
such a direction never succeeds, and the handler leaves the device as it found
it, as stated here) and every pending work item refers to a resource of the
list (`hworks`, the invariant of the data model), so nothing is in flight on
it.  The only host calls made are the lock and the unlock of the stream mutex,
so no `dma_memory_map` is among them; the result is the same whatever the
buffers of the message hold behind the request, so no entry list is read; and
the device afterwards is the device before: no resource has been added to a
list of the stream. -/
theorem resource_create_object_memory (K : Proto) (H : Host) (v : VirtIOVideo)
    (req : virtio_video_resource_create) (elem : VirtQueueElement) (stream : VirtIOVideoStream)
    (dir : Nat)
    (hstream : find_stream v.stream_list req.hdr.stream_id = some stream)
    (hdir : queue_dir K req.queue_type = some dir)
    (hmem : (stream.queue_info dir).mem_type = K.VIRTIO_VIDEO_MEM_TYPE_VIRTIO_OBJECT)
    (hlist : stream.resource_list dir = [])
    (hworks : ∀ work ∈ stream.work_queue dir, work.resource ∈ stream.resource_list dir) :
    (virtio_video_process_cmd_resource_create K H v req elem).resp.type =
        K.VIRTIO_VIDEO_RESP_ERR_INVALID_PARAMETER ∧
      (virtio_video_process_cmd_resource_create K H v req elem).len = K.sizeof_cmd_hdr ∧
      (virtio_video_process_cmd_resource_create K H v req elem).trace =
        [Effect.qemu_mutex_lock (Mutex.stream stream.id),
         Effect.qemu_mutex_unlock (Mutex.stream stream.id)] ∧
      (∀ e ∈ (virtio_video_process_cmd_resource_create K H v req elem).trace,
        e.is_map = false) ∧
      (∀ elem1, virtio_video_process_cmd_resource_create K H v req elem1 =
        virtio_video_process_cmd_resource_create K H v req elem) ∧
      (virtio_video_process_cmd_resource_create K H v req elem).v = v ∧
      ∃ stream1,
        find_stream (virtio_video_process_cmd_resource_create K H v req elem).v.stream_list
          req.hdr.stream_id = some stream1 ∧
        ∀ d, stream1.resource_list d = stream.resource_list d := by
  have hwork : find_work (stream.work_queue dir) req.resource_id = none := by
    unfold find_work
    rw [List.find?_eq_none]
    intro work hm
    have := hworks work hm
    rw [hlist] at this
    exact absurd this (List.not_mem_nil _)
  have hne : (stream.queue_info dir).mem_type ≠ K.VIRTIO_VIDEO_MEM_TYPE_GUEST_PAGES := by
    rw [hmem]; exact fun h => K.mem_type_labels_distinct h.symm
  have hrep : resource_create_replace stream req.resource_id
      (stream.queue_info dir).mem_type dir = (stream, []) := by
    unfold resource_create_replace find_resource
    rw [hlist]
    rfl
  have hlocked : ∀ e, resource_create_locked K H stream req e =
      { len := K.sizeof_cmd_hdr, type := K.VIRTIO_VIDEO_RESP_ERR_INVALID_PARAMETER,
        stream := stream, trace := [] } := by
    intro e
    rw [resource_create_locked_idle K H stream req e dir hdir hwork, hrep]
    by_cases hv : H.virtio_video_format_is_valid (stream.queue_info dir).params.format
        req.num_planes = true
    · rw [if_neg (by simpa using hv)]
      unfold resource_create_mem
      rw [if_neg hne, if_pos hmem]
      rfl
    · rw [if_pos hv]
  have hall : ∀ e, virtio_video_process_cmd_resource_create K H v req e =
      { len := K.sizeof_cmd_hdr
        resp := { type := K.VIRTIO_VIDEO_RESP_ERR_INVALID_PARAMETER
                  stream_id := req.hdr.stream_id }
        v := v
        trace := [Effect.qemu_mutex_lock (Mutex.stream stream.id),
          Effect.qemu_mutex_unlock (Mutex.stream stream.id)] } := by
    intro e
    rw [resource_create_found K H v req e stream hstream, hlocked e,
      update_stream_self _ _ _ hstream]
    rfl
  refine ⟨by rw [hall elem], by rw [hall elem], by rw [hall elem], ?_, ?_, by rw [hall elem],
    ?_⟩
  · rw [hall elem]
    intro e he
    simp only [List.mem_cons, List.mem_singleton, List.not_mem_nil, or_false] at he
    rcases he with rfl | rfl <;> rfl
  · intro elem1
    rw [hall elem1, hall elem]
  · rw [hall elem]
    exact ⟨stream, hstream, fun _ => rfl⟩

/-- Witness of C14: the input queue of stream 1 of `object_device` uses
virtio-object memory, holds no resource and has no work pending; the guest
asks to create input resource 7 with one plane of one entry. -/
theorem resource_create_object_memory_witness :
    find_stream object_device.stream_list sample_create.hdr.stream_id = some object_stream ∧
      queue_dir proto_v3 sample_create.queue_type = some 0 ∧
      (object_stream.queue_info 0).mem_type = proto_v3.VIRTIO_VIDEO_MEM_TYPE_VIRTIO_OBJECT ∧
      object_stream.resource_list 0 = [] ∧
      (∀ work ∈ object_stream.work_queue 0, work.resource ∈ object_stream.resource_list 0) ∧
      ((virtio_video_process_cmd_resource_create proto_v3 host_short_at_8192 object_device
          sample_create sample_create_elem).resp.type =
          proto_v3.VIRTIO_VIDEO_RESP_ERR_INVALID_PARAMETER ∧
        (virtio_video_process_cmd_resource_create proto_v3 host_short_at_8192 object_device
          sample_create sample_create_elem).len = proto_v3.sizeof_cmd_hdr ∧
        (virtio_video_process_cmd_resource_create proto_v3 host_short_at_8192 object_device
          sample_create sample_create_elem).trace =
          [Effect.qemu_mutex_lock (Mutex.stream object_stream.id),
           Effect.qemu_mutex_unlock (Mutex.stream object_stream.id)] ∧
        (∀ e ∈ (virtio_video_process_cmd_resource_create proto_v3 host_short_at_8192
            object_device sample_create sample_create_elem).trace,
          e.is_map = false) ∧
        (∀ elem1, virtio_video_process_cmd_resource_create proto_v3 host_short_at_8192
            object_device sample_create elem1 =
          virtio_video_process_cmd_resource_create proto_v3 host_short_at_8192
            object_device sample_create sample_create_elem) ∧
        (virtio_video_process_cmd_resource_create proto_v3 host_short_at_8192 object_device
          sample_create sample_create_elem).v = object_device ∧
        ∃ stream1,
          find_stream (virtio_video_process_cmd_resource_create proto_v3 host_short_at_8192
            object_device sample_create sample_create_elem).v.stream_list
            sample_create.hdr.stream_id = some stream1 ∧
          ∀ d, stream1.resource_list d = object_stream.resource_list d) :=
  ⟨by decide, by decide, by decide, by decide, by decide,
   resource_create_object_memory proto_v3 host_short_at_8192 object_device
     sample_create sample_create_elem object_stream 0
     (by decide) (by decide) (by decide) (by decide) (by decide)⟩

/-! ## Resource creation: request-level errors -/

/-- C15 (code evaluated at a failing input): a resource-create message for
stream 1, sent to a device without streams, whose response buffer has 4 bytes.
The handler answers `ERR_INVALID_STREAM_ID` with the length 8 of the response
header, but the dispatcher cannot copy 8 bytes into the buffer: it raises
`virtio_error` and returns `-1`, and the callback detaches the message
unanswered.  With room for 8 bytes the same request completes with return
value 0. -/
theorem resource_create_error_needs_room :
    find_stream empty_device.stream_list sample_create.hdr.stream_id = none ∧
      (virtio_video_process_cmd_resource_create proto_v3 host_short_at_8192 empty_device
        sample_create short_reply_create_elem).resp.type =
        proto_v3.VIRTIO_VIDEO_RESP_ERR_INVALID_STREAM_ID ∧
      (virtio_video_process_cmd_resource_create proto_v3 host_short_at_8192 empty_device
        sample_create short_reply_create_elem).len = 8 ∧
      (virtio_video_process_command proto_v3 host_short_at_8192 sample_backend empty_device
        short_reply_create_elem).ret = -1 ∧
      (virtio_video_command_vq_cb proto_v3 host_short_at_8192 sample_backend empty_device
        [short_reply_create_elem]).trace =
        [Effect.qemu_mutex_lock Mutex.device,
         Effect.iov_from_buf (Resp.cmd_hdr { type := 0x302, stream_id := 1 }) 4,
         Effect.virtio_error,
         Effect.qemu_mutex_unlock Mutex.device,
         Effect.virtqueue_detach_element short_reply_create_elem 0,
         Effect.g_free_elem short_reply_create_elem] ∧
      (virtio_video_process_command proto_v3 host_short_at_8192 sample_backend empty_device
        sample_create_elem).ret = 0 := by
  decide


/-- C15 as amended: take a resource-create request that names no live stream,
or names a live stream with a queue type that is neither input nor output.
The handler returns the size of the response header, the response carries
the request's stream id, and the device (every stream, resource list and work
queue) is unchanged; the response type is `ERR_INVALID_STREAM_ID` in the
first case, with no host call made, and `ERR_INVALID_PARAMETER` in the
second, the only host calls being the lock and the unlock of the stream
mutex.  If moreover the request came in a message whose response buffers can
hold a response header, `virtio_video_process_command` copies the response
into them and returns 0 with that size, without raising `virtio_error`. -/
theorem resource_create_request_errors (K : Proto) (H : Host) (B : Backend) (v : VirtIOVideo)
    (req : virtio_video_resource_create) (elem : VirtQueueElement)
    (hbad : find_stream v.stream_list req.hdr.stream_id = none ∨
      ∃ stream, find_stream v.stream_list req.hdr.stream_id = some stream ∧
        queue_dir K req.queue_type = none) :
    (virtio_video_process_cmd_resource_create K H v req elem).len = K.sizeof_cmd_hdr ∧
      (virtio_video_process_cmd_resource_create K H v req elem).resp.stream_id =
        req.hdr.stream_id ∧
      (virtio_video_process_cmd_resource_create K H v req elem).v = v ∧
      (find_stream v.stream_list req.hdr.stream_id = none →
        (virtio_video_process_cmd_resource_create K H v req elem).resp.type =
            K.VIRTIO_VIDEO_RESP_ERR_INVALID_STREAM_ID ∧
          (virtio_video_process_cmd_resource_create K H v req elem).trace = []) ∧
      (∀ stream, find_stream v.stream_list req.hdr.stream_id = some stream →
        (virtio_video_process_cmd_resource_create K H v req elem).resp.type =
            K.VIRTIO_VIDEO_RESP_ERR_INVALID_PARAMETER ∧
          (virtio_video_process_cmd_resource_create K H v req elem).trace =
            [Effect.qemu_mutex_lock (Mutex.stream stream.id),
             Effect.qemu_mutex_unlock (Mutex.stream stream.id)]) ∧
      (∀ hdr bytes, 0 < K.sizeof_cmd_hdr →
        CMD_GET_REQ elem K.sizeof_cmd_hdr = some hdr →
        (K.decode_cmd_hdr hdr).type = K.VIRTIO_VIDEO_CMD_RESOURCE_CREATE →
        2 ≤ elem.out_num →
        CMD_GET_REQ elem K.sizeof_resource_create = some bytes →
        K.decode_resource_create bytes = req →
        iov_from_buf elem.in_sg K.sizeof_cmd_hdr = K.sizeof_cmd_hdr →
        virtio_video_process_command K H B v elem =
          { ret := 0
            resp_size := K.sizeof_cmd_hdr
            v := v
            trace := (virtio_video_process_cmd_resource_create K H v req elem).trace ++
              [Effect.iov_from_buf
                (Resp.cmd_hdr (virtio_video_process_cmd_resource_create K H v req elem).resp)
                K.sizeof_cmd_hdr] }) := by
  have hlen : (virtio_video_process_cmd_resource_create K H v req elem).len = K.sizeof_cmd_hdr ∧
      (virtio_video_process_cmd_resource_create K H v req elem).v = v := by
    rcases hbad with hnone | ⟨stream, hsome, hq⟩
    · simp only [virtio_video_process_cmd_resource_create, hnone, and_self]
    · rw [resource_create_found K H v req elem stream hsome,
        resource_create_locked_default K H stream req elem hq]
      simp only [true_and]
      rw [update_stream_self _ _ _ hsome]
  refine ⟨hlen.1, ?_, hlen.2, ?_, ?_, ?_⟩
  · cases hf : find_stream v.stream_list req.hdr.stream_id with
    | none => simp only [virtio_video_process_cmd_resource_create, hf]
    | some stream => rw [resource_create_found K H v req elem stream hf]
  · intro hnone
    simp only [virtio_video_process_cmd_resource_create, hnone, and_self]
  · intro stream hsome
    rcases hbad with hnone | ⟨stream1, hsome1, hq⟩
    · rw [hnone] at hsome; cases hsome
    · rw [resource_create_found K H v req elem stream hsome,
        resource_create_locked_default K H stream req elem hq]
      exact ⟨rfl, rfl⟩
  · intro hdr bytes hsize hhdr hop hseg hreq hdec hroom
    have hcase : cmd_case K (K.decode_cmd_hdr hdr).type = CmdCase.RESOURCE_CREATE := by
      rw [hop]; exact (cmd_case_labels K).2.2.2.2.1
    rw [process_command_body K H B v elem hdr bytes hhdr (by rw [hcase]; decide)
      (fun _ => hseg) (by rw [hcase]; exact hreq), hcase]
    unfold command_body
    simp only [command_handler, hdec, CmdCase.may_defer, reduceCtorEq, if_false,
      Bool.false_eq_true, if_true]
    rw [hlen.1, hlen.2, if_neg (by omega)]
    unfold CMD_SET_RESP
    simp only
    rw [if_neg (by omega), if_neg (by rw [hroom]; exact fun h => h rfl)]

/-- Witness of the amended C15, for a request that names no live stream: the
message `sample_create_elem`, for stream 1, on the device without streams.
The message has room for the 8 bytes of the response. -/
theorem resource_create_request_errors_witness :
    (find_stream empty_device.stream_list sample_create.hdr.stream_id = none ∨
      ∃ stream, find_stream empty_device.stream_list sample_create.hdr.stream_id =
          some stream ∧
        queue_dir proto_v3 sample_create.queue_type = none) ∧
    (virtio_video_process_cmd_resource_create proto_v3 host_short_at_8192 empty_device
      sample_create sample_create_elem).len = proto_v3.sizeof_cmd_hdr ∧
    (virtio_video_process_cmd_resource_create proto_v3 host_short_at_8192 empty_device
      sample_create sample_create_elem).resp.stream_id = sample_create.hdr.stream_id ∧
    (virtio_video_process_cmd_resource_create proto_v3 host_short_at_8192 empty_device
      sample_create sample_create_elem).v = empty_device ∧
    ((virtio_video_process_cmd_resource_create proto_v3 host_short_at_8192 empty_device
        sample_create sample_create_elem).resp.type =
        proto_v3.VIRTIO_VIDEO_RESP_ERR_INVALID_STREAM_ID ∧
      (virtio_video_process_cmd_resource_create proto_v3 host_short_at_8192 empty_device
        sample_create sample_create_elem).trace = []) ∧
    (0 < proto_v3.sizeof_cmd_hdr ∧
      CMD_GET_REQ sample_create_elem proto_v3.sizeof_cmd_hdr =
        some (sample_create_bytes.take 8) ∧
      (proto_v3.decode_cmd_hdr (sample_create_bytes.take 8)).type =
        proto_v3.VIRTIO_VIDEO_CMD_RESOURCE_CREATE ∧
      2 ≤ sample_create_elem.out_num ∧
      CMD_GET_REQ sample_create_elem proto_v3.sizeof_resource_create =
        some sample_create_bytes ∧
      proto_v3.decode_resource_create sample_create_bytes = sample_create ∧
      iov_from_buf sample_create_elem.in_sg proto_v3.sizeof_cmd_hdr =
        proto_v3.sizeof_cmd_hdr) ∧
    virtio_video_process_command proto_v3 host_short_at_8192 sample_backend empty_device
        sample_create_elem =
      { ret := 0
        resp_size := proto_v3.sizeof_cmd_hdr
        v := empty_device
        trace := (virtio_video_process_cmd_resource_create proto_v3 host_short_at_8192
            empty_device sample_create sample_create_elem).trace ++
          [Effect.iov_from_buf
            (Resp.cmd_hdr (virtio_video_process_cmd_resource_create proto_v3
              host_short_at_8192 empty_device sample_create sample_create_elem).resp)
            proto_v3.sizeof_cmd_hdr] } :=
  have h := resource_create_request_errors proto_v3 host_short_at_8192 sample_backend
    empty_device sample_create sample_create_elem (Or.inl (by decide))
  ⟨Or.inl (by decide), h.1, h.2.1, h.2.2.1, h.2.2.2.1 (by decide), by decide,
   h.2.2.2.2.2 (sample_create_bytes.take 8) sample_create_bytes (by decide) (by decide)
     (by decide) (by decide) (by decide) (by decide) (by decide)⟩

/-! ## Resource creation: the plane layout -/

theorem create_page_planes_layout (H : Host) (resource : VirtIOVideoResource)
    (entries : List virtio_video_mem_entry) (output : Bool) (p i n : Nat)
    (slices : List (List VirtIOVideoResourceSlice)) (trace : List Effect) :
    (create_page_planes H resource entries output p i n slices trace).resource.planes_layout =
      resource.planes_layout := by
  induction p generalizing i n slices trace with
  | zero => cases output <;> simp [create_page_planes, create_page_done]
  | succ p ih =>
    rw [create_page_planes]
    rcases hr : create_page_entries H entries output (resource.num_entries.getD i 0) n []
      trace with ⟨ok, n1, row, trace1⟩
    cases ok
    · simp
    · simp [ih]

/-- C18 (code evaluated at a failing input): a request to create output
resource 7 with the layout field left 0, on guest-pages memory.  On the stream
whose output format is NV12 and whose input format is not, the request
succeeds and the resource is stored with layout `PER_PLANE`, not
`SINGLE_BUFFER`.  On the stream whose input format is NV12 and whose output
format is not, the same request succeeds and the resource is stored with
layout `SINGLE_BUFFER`, not `PER_PLANE`.  The format of the queue the request
is for does not decide the override. -/
theorem resource_create_layout_ignores_output_format :
    proto_v3.decode_resource_create output_create_bytes = output_create ∧
      output_create.queue_type = proto_v3.VIRTIO_VIDEO_QUEUE_TYPE_OUTPUT ∧
      output_create.planes_layout ≠ proto_v3.VIRTIO_VIDEO_PLANES_LAYOUT_PER_PLANE ∧
      output_create.planes_layout ≠ proto_v3.VIRTIO_VIDEO_PLANES_LAYOUT_SINGLE_BUFFER ∧
      (find_stream nv12_output_device.stream_list output_create.hdr.stream_id =
          some nv12_output_stream ∧
        nv12_output_stream.out.mem_type = proto_v3.VIRTIO_VIDEO_MEM_TYPE_GUEST_PAGES ∧
        nv12_output_stream.out.params.format = proto_v3.VIRTIO_VIDEO_FORMAT_NV12 ∧
        nv12_output_stream.in_.params.format ≠ proto_v3.VIRTIO_VIDEO_FORMAT_NV12 ∧
        (virtio_video_process_cmd_resource_create proto_v3 host_short_at_8192
          nv12_output_device output_create output_create_elem).resp.type =
          proto_v3.VIRTIO_VIDEO_RESP_OK_NODATA ∧
        (find_stream (virtio_video_process_cmd_resource_create proto_v3 host_short_at_8192
            nv12_output_device output_create output_create_elem).v.stream_list
          output_create.hdr.stream_id).map
            (fun s => (s.resource_list VIRTIO_VIDEO_QUEUE_OUTPUT).map
              (fun r => (r.id, r.planes_layout))) =
          some [(7, proto_v3.VIRTIO_VIDEO_PLANES_LAYOUT_PER_PLANE)]) ∧
      (find_stream nv12_input_device.stream_list output_create.hdr.stream_id =
          some nv12_input_stream ∧
        nv12_input_stream.out.mem_type = proto_v3.VIRTIO_VIDEO_MEM_TYPE_GUEST_PAGES ∧
        nv12_input_stream.out.params.format ≠ proto_v3.VIRTIO_VIDEO_FORMAT_NV12 ∧
        nv12_input_stream.in_.params.format = proto_v3.VIRTIO_VIDEO_FORMAT_NV12 ∧
        (virtio_video_process_cmd_resource_create proto_v3 host_short_at_8192
          nv12_input_device output_create output_create_elem).resp.type =
          proto_v3.VIRTIO_VIDEO_RESP_OK_NODATA ∧
        (find_stream (virtio_video_process_cmd_resource_create proto_v3 host_short_at_8192
            nv12_input_device output_create output_create_elem).v.stream_list
          output_create.hdr.stream_id).map
            (fun s => (s.resource_list VIRTIO_VIDEO_QUEUE_OUTPUT).map
              (fun r => (r.id, r.planes_layout))) =
          some [(7, proto_v3.VIRTIO_VIDEO_PLANES_LAYOUT_SINGLE_BUFFER)]) ∧
      proto_v3.VIRTIO_VIDEO_PLANES_LAYOUT_PER_PLANE ≠
        proto_v3.VIRTIO_VIDEO_PLANES_LAYOUT_SINGLE_BUFFER := by
  decide

/-- C18 as amended: the plane layout a resource-create request ends up
with, for a request of either direction.  A layout that is `PER_PLANE` or
`SINGLE_BUFFER` is kept.  Any other value is replaced: by `SINGLE_BUFFER`
when the format of the stream's input queue is NV12, and otherwise by
`PER_PLANE` for guest-pages memory and by `SINGLE_BUFFER` for every other
memory type.  When the command succeeds, the resource at the head of the
direction's list has the requested id and exactly that layout, which is
`PER_PLANE` or `SINGLE_BUFFER`. -/
theorem resource_create_layout (K : Proto) (H : Host) (v : VirtIOVideo)
    (req : virtio_video_resource_create) (elem : VirtQueueElement) (stream : VirtIOVideoStream)
    (hstream : find_stream v.stream_list req.hdr.stream_id = some stream) :
    (∀ mem_type layout,
      ((layout = K.VIRTIO_VIDEO_PLANES_LAYOUT_PER_PLANE ∨
          layout = K.VIRTIO_VIDEO_PLANES_LAYOUT_SINGLE_BUFFER) →
        resource_create_planes_layout K stream mem_type layout = layout) ∧
      (layout ≠ K.VIRTIO_VIDEO_PLANES_LAYOUT_PER_PLANE →
        layout ≠ K.VIRTIO_VIDEO_PLANES_LAYOUT_SINGLE_BUFFER →
        (stream.in_.params.format = K.VIRTIO_VIDEO_FORMAT_NV12 →
          resource_create_planes_layout K stream mem_type layout =
            K.VIRTIO_VIDEO_PLANES_LAYOUT_SINGLE_BUFFER) ∧
        (stream.in_.params.format ≠ K.VIRTIO_VIDEO_FORMAT_NV12 →
          mem_type = K.VIRTIO_VIDEO_MEM_TYPE_GUEST_PAGES →
          resource_create_planes_layout K stream mem_type layout =
            K.VIRTIO_VIDEO_PLANES_LAYOUT_PER_PLANE) ∧
        (stream.in_.params.format ≠ K.VIRTIO_VIDEO_FORMAT_NV12 →
          mem_type ≠ K.VIRTIO_VIDEO_MEM_TYPE_GUEST_PAGES →
          resource_create_planes_layout K stream mem_type layout =
            K.VIRTIO_VIDEO_PLANES_LAYOUT_SINGLE_BUFFER))) ∧
    ((virtio_video_process_cmd_resource_create K H v req elem).resp.type =
        K.VIRTIO_VIDEO_RESP_OK_NODATA →
      (virtio_video_process_cmd_resource_create K H v req elem).len ≠ 0 →
      ∃ dir stream1 new rest,
        queue_dir K req.queue_type = some dir ∧
        find_stream (virtio_video_process_cmd_resource_create K H v req elem).v.stream_list
          req.hdr.stream_id = some stream1 ∧
        stream1.resource_list dir = new :: rest ∧
        new.id = req.resource_id ∧
        new.planes_layout =
          resource_create_planes_layout K stream (stream.queue_info dir).mem_type
            req.planes_layout ∧
        (new.planes_layout = K.VIRTIO_VIDEO_PLANES_LAYOUT_PER_PLANE ∨
          new.planes_layout = K.VIRTIO_VIDEO_PLANES_LAYOUT_SINGLE_BUFFER)) := by
  have hnorm : ∀ mem_type layout,
      resource_create_planes_layout K stream mem_type layout =
          K.VIRTIO_VIDEO_PLANES_LAYOUT_PER_PLANE ∨
        resource_create_planes_layout K stream mem_type layout =
          K.VIRTIO_VIDEO_PLANES_LAYOUT_SINGLE_BUFFER := by
    intro mem_type layout
    unfold resource_create_planes_layout
    by_cases h1 : layout ≠ K.VIRTIO_VIDEO_PLANES_LAYOUT_PER_PLANE ∧
        layout ≠ K.VIRTIO_VIDEO_PLANES_LAYOUT_SINGLE_BUFFER
    · rw [if_pos h1]
      by_cases hf : stream.in_.params.format = K.VIRTIO_VIDEO_FORMAT_NV12
      · right; simp only [hf, if_true]
      · by_cases hm : mem_type = K.VIRTIO_VIDEO_MEM_TYPE_GUEST_PAGES
        · left; simp only [hf, hm, if_true, if_false]
        · right; simp only [hf, hm, if_false]
    · rw [if_neg h1]
      by_cases hp : layout = K.VIRTIO_VIDEO_PLANES_LAYOUT_PER_PLANE
      · left; exact hp
      · right
        by_contra hs
        exact h1 ⟨hp, hs⟩
  refine ⟨?_, ?_⟩
  · intro mem_type layout
    refine ⟨?_, ?_⟩
    · intro hkeep
      unfold resource_create_planes_layout
      rw [if_neg]
      rintro ⟨h1, h2⟩
      rcases hkeep with h | h
      · exact h1 h
      · exact h2 h
    · intro h1 h2
      unfold resource_create_planes_layout
      rw [if_pos ⟨h1, h2⟩]
      refine ⟨?_, ?_, ?_⟩
      · intro hf
        simp only [hf, if_true]
      · intro hf hm
        simp only [hf, hm, if_true, if_false]
      · intro hf hm
        simp only [hf, hm, if_false]
  · intro hok hlen
    have hv := resource_create_found K H v req elem stream hstream
    rw [hv] at hok hlen ⊢
    simp only at hok hlen ⊢
    obtain ⟨dir, hd, hlocked, hret⟩ := resource_create_locked_ok K H stream req elem hok hlen
    have hin := (replace_fields stream req.resource_id (stream.queue_info dir).mem_type dir).2.1
    have hid := (replace_fields stream req.resource_id (stream.queue_info dir).mem_type dir).1
    generalize (resource_create_replace stream req.resource_id (stream.queue_info dir).mem_type
      dir).1 = rep at hlocked hret hin hid
    have hlayout : (resource_create_page K H rep req elem
        (stream.queue_info dir).mem_type).resource.planes_layout =
        resource_create_planes_layout K stream (stream.queue_info dir).mem_type
          req.planes_layout := by
      unfold resource_create_page virtio_video_resource_create_page
      rw [create_page_planes_layout]
      simp only [resource_create_new, resource_create_planes_layout, hin]
    refine ⟨dir,
      rep.set_resource_list dir
        ((resource_create_page K H rep req elem (stream.queue_info dir).mem_type).resource ::
          rep.resource_list dir),
      (resource_create_page K H rep req elem (stream.queue_info dir).mem_type).resource,
      rep.resource_list dir, hd, ?_, ?_, ?_, hlayout, ?_⟩
    · rw [hlocked]
      exact find_stream_update _ _ _ _ hstream
        (by rw [(set_resource_list_fields _ _ _).1, hid]
            exact find_stream_id _ _ _ hstream)
    · rw [resource_list_set]
    · unfold resource_create_page virtio_video_resource_create_page
      rw [create_page_planes_id]
      rfl
    · rw [hlayout]
      exact hnorm _ _

/-- Witness of the amended C18: the sample device (input format 5, not NV12,
guest-pages memory) is asked to create input resource 7 with the layout field left 0; the
request succeeds and the resource is stored with layout `PER_PLANE`. -/
theorem resource_create_layout_witness :
    find_stream sample_device.stream_list sample_create.hdr.stream_id = some sample_stream ∧
    (virtio_video_process_cmd_resource_create proto_v3 host_short_at_8192 sample_device
        sample_create sample_create_elem).resp.type = proto_v3.VIRTIO_VIDEO_RESP_OK_NODATA ∧
    (virtio_video_process_cmd_resource_create proto_v3 host_short_at_8192 sample_device
        sample_create sample_create_elem).len ≠ 0 ∧
    resource_create_planes_layout proto_v3 sample_stream 0 0 =
      proto_v3.VIRTIO_VIDEO_PLANES_LAYOUT_PER_PLANE ∧
    ∃ dir stream1 new rest,
      queue_dir proto_v3 sample_create.queue_type = some dir ∧
      find_stream (virtio_video_process_cmd_resource_create proto_v3 host_short_at_8192
          sample_device sample_create sample_create_elem).v.stream_list
        sample_create.hdr.stream_id = some stream1 ∧
      stream1.resource_list dir = new :: rest ∧
      new.id = sample_create.resource_id ∧
      new.planes_layout =
        resource_create_planes_layout proto_v3 sample_stream
          (sample_stream.queue_info dir).mem_type sample_create.planes_layout ∧
      (new.planes_layout = proto_v3.VIRTIO_VIDEO_PLANES_LAYOUT_PER_PLANE ∨
        new.planes_layout = proto_v3.VIRTIO_VIDEO_PLANES_LAYOUT_SINGLE_BUFFER) :=
  have h := resource_create_layout proto_v3 host_short_at_8192 sample_device sample_create
    sample_create_elem sample_stream (by decide)
  ⟨by decide, by decide, by decide,
   ((h.1 0 0).2 (by decide) (by decide)).2.1 (by decide) (by decide),
   h.2 (by decide) (by decide)⟩

/-! ## Resource creation: resource ids stay unique -/

theorem mem_update_stream (stream_list : List VirtIOVideoStream) (id : Nat)
    (stream s : VirtIOVideoStream) (h : s ∈ update_stream stream_list id stream) :
    s = stream ∨ s ∈ stream_list := by
  induction stream_list with
  | nil => simp [update_stream] at h
  | cons x rest ih =>
    unfold update_stream at h
    by_cases hx : x.id = id
    · rw [if_pos hx] at h
      rcases List.mem_cons.mp h with h | h
      · left; exact h
      · right; exact List.mem_cons_of_mem _ h
    · rw [if_neg hx] at h
      rcases List.mem_cons.mp h with h | h
      · right; rw [h]; exact List.mem_cons_self _ _
      · rcases ih h with h | h
        · left; exact h
        · right; exact List.mem_cons_of_mem _ h

theorem replace_ids_unique (stream : VirtIOVideoStream) (resource_id mem_type dir : Nat)
    (huniq : ∀ d, ((stream.resource_list d).map (fun r => r.id)).Nodup) :
    (∀ d, (((resource_create_replace stream resource_id mem_type dir).1.resource_list d).map
        (fun r => r.id)).Nodup) ∧
      ∀ x ∈ (resource_create_replace stream resource_id mem_type dir).1.resource_list dir,
        x.id ≠ resource_id := by
  refine ⟨fun d => List.Nodup.sublist ((replace_sublist stream resource_id mem_type dir d).map _)
    (huniq d), ?_⟩
  rcases replace_cases stream resource_id mem_type dir with ⟨hnone, h⟩ | ⟨old, hold, hid, h⟩
  · rw [h]
    intro x hx hxid
    unfold find_resource at hnone
    rw [List.find?_eq_none] at hnone
    have := hnone x hx
    simp [hxid] at this
  · rw [h]
    simp only [resource_list_set]
    intro x hx
    rw [← hid]
    exact erase_no_id _ _ hold (huniq dir) x hx

theorem locked_ids_unique (K : Proto) (H : Host) (stream : VirtIOVideoStream)
    (req : virtio_video_resource_create) (elem : VirtQueueElement)
    (huniq : ∀ d, ((stream.resource_list d).map (fun r => r.id)).Nodup) :
    ∀ d, (((resource_create_locked K H stream req elem).stream.resource_list d).map
      (fun r => r.id)).Nodup := by
  cases hd : queue_dir K req.queue_type with
  | none => rw [resource_create_locked_default K H stream req elem hd]; exact huniq
  | some dir =>
    cases hw : find_work (stream.work_queue dir) req.resource_id with
    | some w => rw [resource_create_locked_busy K H stream req elem dir w hd hw]; exact huniq
    | none =>
      rw [resource_create_locked_idle K H stream req elem dir hd hw]
      obtain ⟨hrep, hno⟩ := replace_ids_unique stream req.resource_id
        (stream.queue_info dir).mem_type dir huniq
      generalize (resource_create_replace stream req.resource_id (stream.queue_info dir).mem_type
        dir) = rep at hrep hno
      by_cases hv : ¬ (H.virtio_video_format_is_valid (stream.queue_info dir).params.format
          req.num_planes = true)
      · rw [if_pos hv]; exact hrep
      · rw [if_neg hv]
        simp only
        unfold resource_create_mem
        by_cases hm : (stream.queue_info dir).mem_type = K.VIRTIO_VIDEO_MEM_TYPE_GUEST_PAGES
        · rw [if_pos hm]
          by_cases hb : (resource_create_entry_bytes K req elem).length ≠
              K.sizeof_mem_entry * resource_create_num_entries req
          · rw [if_pos hb]; exact hrep
          · rw [if_neg hb]
            simp only
            by_cases hp : (resource_create_page K H rep.1 req elem
                (stream.queue_info dir).mem_type).ret < 0
            · rw [if_pos hp]; exact hrep
            · rw [if_neg hp]
              intro d
              simp only
              by_cases hne : (rep.1.set_resource_list dir
                  ((resource_create_page K H rep.1 req elem
                      (stream.queue_info dir).mem_type).resource ::
                    rep.1.resource_list dir)).resource_list d = rep.1.resource_list d
              · rw [hne]; exact hrep d
              · obtain ⟨h1, _⟩ := resource_list_set_at_eq _ _ _ _ hne
                rw [h1, List.map_cons, List.nodup_cons]
                refine ⟨?_, hrep dir⟩
                have hnewid : (resource_create_page K H rep.1 req elem
                    (stream.queue_info dir).mem_type).resource.id = req.resource_id := by
                  unfold resource_create_page virtio_video_resource_create_page
                  rw [create_page_planes_id]
                  rfl
                rw [hnewid]
                intro hmem
                obtain ⟨x, hx, hxid⟩ := List.mem_map.mp hmem
                exact hno x hx hxid
        · rw [if_neg hm]
          by_cases ho : (stream.queue_info dir).mem_type = K.VIRTIO_VIDEO_MEM_TYPE_VIRTIO_OBJECT
          · rw [if_pos ho]; exact hrep
          · rw [if_neg ho]; exact hrep

/-- C19: if the resource ids of each of the two resource lists of every
stream of the device are pairwise distinct, they still are after
`virtio_video_process_cmd_resource_create`, whatever the request and whatever
its outcome. -/
theorem resource_create_keeps_ids_unique (K : Proto) (H : Host) (v : VirtIOVideo)
    (req : virtio_video_resource_create) (elem : VirtQueueElement)
    (huniq : ∀ s ∈ v.stream_list, ∀ d, ((s.resource_list d).map (fun r => r.id)).Nodup) :
    ∀ s ∈ (virtio_video_process_cmd_resource_create K H v req elem).v.stream_list,
      ∀ d, ((s.resource_list d).map (fun r => r.id)).Nodup := by
  cases hf : find_stream v.stream_list req.hdr.stream_id with
  | none =>
    simp only [virtio_video_process_cmd_resource_create, hf]
    exact huniq
  | some stream =>
    rw [resource_create_found K H v req elem stream hf]
    simp only
    intro s hs
    have hmem : stream ∈ v.stream_list := by
      unfold find_stream at hf
      exact List.mem_of_find?_eq_some hf
    rcases mem_update_stream _ _ _ _ hs with h | h
    · rw [h]
      exact locked_ids_unique K H stream req elem (huniq stream hmem)
    · exact huniq s h

/-- Witness of C19: the sample device, whose stream holds input resources 9
and 7, is asked to create input resource 7 again. -/
theorem resource_create_keeps_ids_unique_witness :
    (∀ s ∈ sample_device.stream_list, ∀ d, ((s.resource_list d).map (fun r => r.id)).Nodup) ∧
      ∀ s ∈ (virtio_video_process_cmd_resource_create proto_v3 host_short_at_8192 sample_device
          sample_create sample_create_elem).v.stream_list,
        ∀ d, ((s.resource_list d).map (fun r => r.id)).Nodup :=
  have huniq : ∀ s ∈ sample_device.stream_list, ∀ d,
      ((s.resource_list d).map (fun r => r.id)).Nodup := by
    intro s hs d
    have hs1 : s = sample_stream := by simpa [sample_device] using hs
    subst hs1
    unfold VirtIOVideoStream.resource_list
    by_cases h : d = VIRTIO_VIDEO_QUEUE_INPUT
    · rw [if_pos h]; decide
    · rw [if_neg h]; decide
  ⟨huniq,
   resource_create_keeps_ids_unique proto_v3 host_short_at_8192 sample_device sample_create
     sample_create_elem huniq⟩

/-! ## The event queue callback -/

theorem event_cb_no_event (K : Proto) (v : VirtIOVideo) (vq : List VirtQueueElement)
    (h : v.event_queue = []) : virtio_video_event_vq_cb K v vq = event_idle v vq := by
  cases vq <;> simp [virtio_video_event_vq_cb, h]

theorem event_cb_no_buffer (K : Proto) (v : VirtIOVideo) :
    virtio_video_event_vq_cb K v [] = event_idle v [] := by
  rw [virtio_video_event_vq_cb]
  cases h : v.event_queue with
  | nil => rfl
  | cons event events => by_cases he : event.elem ≠ none <;> simp [he]

theorem event_cb_holds_buffer (K : Proto) (v : VirtIOVideo) (vq : List VirtQueueElement)
    (event : VirtIOVideoEvent) (events : List VirtIOVideoEvent)
    (h : v.event_queue = event :: events) (he : event.elem ≠ none) :
    virtio_video_event_vq_cb K v vq = event_idle v vq := by
  cases vq <;> simp [virtio_video_event_vq_cb, h, he]

theorem event_cb_deliver (K : Proto) (v : VirtIOVideo) (elem : VirtQueueElement)
    (vq : List VirtQueueElement) (event : VirtIOVideoEvent) (events : List VirtIOVideoEvent)
    (h : v.event_queue = event :: events) (he : event.elem = none)
    (hwf : well_formed_buffer K elem) :
    virtio_video_event_vq_cb K v (elem :: vq) =
      { v := (virtio_video_event_vq_cb K { v with event_queue := events } vq).v
        vq := (virtio_video_event_vq_cb K { v with event_queue := events } vq).vq
        trace := [Effect.qemu_mutex_lock Mutex.device,
            Effect.virtio_video_event_complete { event with elem := some elem },
            Effect.qemu_mutex_unlock Mutex.device] ++
          (virtio_video_event_vq_cb K { v with event_queue := events } vq).trace } := by
  rw [virtio_video_event_vq_cb]
  simp only [h, he, ne_eq, not_true_eq_false, if_false, if_neg hwf.1, if_neg hwf.2,
    virtio_video_event_complete]
  rfl

theorem event_cb_reject (K : Proto) (v : VirtIOVideo) (elem : VirtQueueElement)
    (vq : List VirtQueueElement) (event : VirtIOVideoEvent) (events : List VirtIOVideoEvent)
    (h : v.event_queue = event :: events) (he : event.elem = none)
    (hwf : ¬ well_formed_buffer K elem) :
    virtio_video_event_vq_cb K v (elem :: vq) = event_reject v elem vq := by
  rw [virtio_video_event_vq_cb]
  simp only [h, he, ne_eq, not_true_eq_false, if_false]
  unfold well_formed_buffer at hwf
  by_cases h1 : elem.in_num < 1
  · rw [if_pos h1]
  · rw [if_neg h1, if_pos (by
      by_contra h2
      exact hwf ⟨h1, h2⟩)]

theorem event_cb_run (K : Proto) (v : VirtIOVideo) (vq : List VirtQueueElement)
    (hfree : ∀ event ∈ v.event_queue, event.elem = none)
    (hwf : ∀ elem ∈ vq, well_formed_buffer K elem) :
    virtio_video_event_vq_cb K v vq =
      { v := { v with event_queue := v.event_queue.drop vq.length }
        vq := vq.drop v.event_queue.length
        trace :=
          (List.zipWith (fun event elem => { event with elem := some elem })
              v.event_queue vq).flatMap
            (fun event => [Effect.qemu_mutex_lock Mutex.device,
              Effect.virtio_video_event_complete event,
              Effect.qemu_mutex_unlock Mutex.device]) ++
          [Effect.qemu_mutex_lock Mutex.device, Effect.qemu_mutex_unlock Mutex.device] } := by
  induction vq generalizing v with
  | nil =>
    rw [event_cb_no_buffer]
    simp [event_idle]
  | cons elem vq1 ih =>
    cases h : v.event_queue with
    | nil =>
      rw [event_cb_no_event K v _ h]
      cases v
      simp only at h
      subst h
      simp [event_idle]
    | cons event events =>
      have he : event.elem = none := hfree event (by rw [h]; exact List.mem_cons_self _ _)
      rw [event_cb_deliver K v elem vq1 event events h he (hwf elem (List.mem_cons_self _ _)),
        ih { v with event_queue := events }
          (fun e hm => hfree e (by rw [h]; exact List.mem_cons_of_mem _ hm))
          (fun e hm => hwf e (List.mem_cons_of_mem _ hm))]
      simp [List.flatMap_cons]

theorem delivered_events_run (l : List VirtIOVideoEvent) :
    delivered_events
        (l.flatMap
            (fun event => [Effect.qemu_mutex_lock Mutex.device,
              Effect.virtio_video_event_complete event,
              Effect.qemu_mutex_unlock Mutex.device]) ++
          [Effect.qemu_mutex_lock Mutex.device, Effect.qemu_mutex_unlock Mutex.device]) = l := by
  induction l with
  | nil => rfl
  | cons event rest ih =>
    rw [List.flatMap_cons]
    unfold delivered_events at ih ⊢
    simp only [List.append_assoc, List.cons_append, List.nil_append, List.filterMap_cons]
    rw [ih]

/-- C11: let the event queue hold `N` raised and undelivered events, and let
the guest have posted `M` well-formed buffers.  An undelivered event holds no
receive buffer: the callback gives an event its buffer only at the moment it
takes the event off the queue and delivers it, which is what `hfree` records.
One run of `virtio_video_event_vq_cb` hands to `virtio_video_event_complete`,
in this order, the oldest event with the first buffer, the second oldest with
the second buffer, and so on, `min N M` events in all, each under the device
mutex, and makes no other host call but a last lock and unlock; the event
with index `k` is delivered into the buffer with index `k` whenever both
exist.  The events left are the queue without its first `min N M` events, in
their order, the buffers left are the posted ones without the first
`min N M`, and the rest of the device is unchanged; with no event queued no
buffer is popped. -/
theorem event_pairing_fifo (K : Proto) (v : VirtIOVideo) (vq : List VirtQueueElement)
    (hfree : ∀ event ∈ v.event_queue, event.elem = none)
    (hwf : ∀ elem ∈ vq, well_formed_buffer K elem) :
    (virtio_video_event_vq_cb K v vq).trace =
        (List.zipWith (fun event elem => { event with elem := some elem })
            v.event_queue vq).flatMap
          (fun event => [Effect.qemu_mutex_lock Mutex.device,
            Effect.virtio_video_event_complete event,
            Effect.qemu_mutex_unlock Mutex.device]) ++
        [Effect.qemu_mutex_lock Mutex.device, Effect.qemu_mutex_unlock Mutex.device] ∧
      delivered_events (virtio_video_event_vq_cb K v vq).trace =
        List.zipWith (fun event elem => { event with elem := some elem }) v.event_queue vq ∧
      (delivered_events (virtio_video_event_vq_cb K v vq).trace).length =
        min v.event_queue.length vq.length ∧
      (∀ (k : Nat) (event : VirtIOVideoEvent) (elem : VirtQueueElement),
        v.event_queue[k]? = some event → vq[k]? = some elem →
        (delivered_events (virtio_video_event_vq_cb K v vq).trace)[k]? =
          some { event with elem := some elem }) ∧
      (virtio_video_event_vq_cb K v vq).v =
        { v with event_queue := v.event_queue.drop (min v.event_queue.length vq.length) } ∧
      (virtio_video_event_vq_cb K v vq).vq = vq.drop (min v.event_queue.length vq.length) ∧
      (v.event_queue = [] → (virtio_video_event_vq_cb K v vq).vq = vq) := by
  rw [event_cb_run K v vq hfree hwf]
  simp only [delivered_events_run]
  have hev : v.event_queue.drop (min v.event_queue.length vq.length) =
      v.event_queue.drop vq.length := by
    rcases Nat.le_total v.event_queue.length vq.length with h | h
    · rw [min_eq_left h, List.drop_of_length_le (le_refl _), List.drop_of_length_le h]
    · rw [min_eq_right h]
  have hvq : vq.drop (min v.event_queue.length vq.length) = vq.drop v.event_queue.length := by
    rcases Nat.le_total v.event_queue.length vq.length with h | h
    · rw [min_eq_left h]
    · rw [min_eq_right h, List.drop_of_length_le (le_refl _), List.drop_of_length_le h]
  refine ⟨trivial, trivial, ?_, ?_, ?_, ?_, ?_⟩
  · rw [List.length_zipWith]
  · intro k event elem h1 h2
    rw [List.getElem?_zipWith, h1, h2]
  · rw [hev]
  · rw [hvq]
  · intro h
    rw [h]
    rfl

/-- Witness of C11: three events are queued, none holding a
buffer, and the guest has posted two well-formed buffers; the two oldest
events are delivered and the third stays queued. -/
theorem event_pairing_fifo_witness :
    (∀ event ∈ pending_event_device.event_queue, event.elem = none) ∧
    (∀ elem ∈ [sample_buffer 1, sample_buffer 2], well_formed_buffer proto_v3 elem) ∧
    ((virtio_video_event_vq_cb proto_v3 pending_event_device
          [sample_buffer 1, sample_buffer 2]).trace =
        (List.zipWith (fun event elem => { event with elem := some elem })
            pending_event_device.event_queue [sample_buffer 1, sample_buffer 2]).flatMap
          (fun event => [Effect.qemu_mutex_lock Mutex.device,
            Effect.virtio_video_event_complete event,
            Effect.qemu_mutex_unlock Mutex.device]) ++
        [Effect.qemu_mutex_lock Mutex.device, Effect.qemu_mutex_unlock Mutex.device] ∧
      delivered_events (virtio_video_event_vq_cb proto_v3 pending_event_device
          [sample_buffer 1, sample_buffer 2]).trace =
        List.zipWith (fun event elem => { event with elem := some elem })
          pending_event_device.event_queue [sample_buffer 1, sample_buffer 2] ∧
      (delivered_events (virtio_video_event_vq_cb proto_v3 pending_event_device
          [sample_buffer 1, sample_buffer 2]).trace).length =
        min pending_event_device.event_queue.length [sample_buffer 1, sample_buffer 2].length ∧
      (∀ (k : Nat) (event : VirtIOVideoEvent) (elem : VirtQueueElement),
        pending_event_device.event_queue[k]? = some event →
        [sample_buffer 1, sample_buffer 2][k]? = some elem →
        (delivered_events (virtio_video_event_vq_cb proto_v3 pending_event_device
            [sample_buffer 1, sample_buffer 2]).trace)[k]? =
          some { event with elem := some elem }) ∧
      (virtio_video_event_vq_cb proto_v3 pending_event_device
          [sample_buffer 1, sample_buffer 2]).v =
        { pending_event_device with
          event_queue := pending_event_device.event_queue.drop
            (min pending_event_device.event_queue.length
              [sample_buffer 1, sample_buffer 2].length) } ∧
      (virtio_video_event_vq_cb proto_v3 pending_event_device
          [sample_buffer 1, sample_buffer 2]).vq =
        [sample_buffer 1, sample_buffer 2].drop
          (min pending_event_device.event_queue.length
            [sample_buffer 1, sample_buffer 2].length) ∧
      (pending_event_device.event_queue = [] →
        (virtio_video_event_vq_cb proto_v3 pending_event_device
          [sample_buffer 1, sample_buffer 2]).vq = [sample_buffer 1, sample_buffer 2])) ∧
    delivered_events (virtio_video_event_vq_cb proto_v3 pending_event_device
        [sample_buffer 1, sample_buffer 2]).trace =
      [{ elem := some (sample_buffer 1), event_type := 1, stream_id := 1 },
       { elem := some (sample_buffer 2), event_type := 2, stream_id := 1 }] ∧
    (virtio_video_event_vq_cb proto_v3 pending_event_device
        [sample_buffer 1, sample_buffer 2]).v.event_queue =
      [{ elem := none, event_type := 3, stream_id := 1 }] :=
  ⟨by decide, by decide,
   event_pairing_fifo proto_v3 pending_event_device [sample_buffer 1, sample_buffer 2]
     (by decide) (by decide),
   by decide, by decide⟩

/-! ## Unrealize: the event queue -/

theorem unrealize_events_detached (events : List VirtIOVideoEvent) :
    detached_buffers (unrealize_events events) =
      (events.filterMap (fun event => event.elem)).map (fun elem => (elem, 0)) := by
  induction events with
  | nil => rfl
  | cons event rest ih =>
    unfold detached_buffers at ih ⊢
    rw [unrealize_events]
    cases he : event.elem with
    | none => simp [List.filterMap_cons, he, ih]
    | some elem => simp [List.filterMap_cons, he, ih]

theorem unrealize_events_freed (events : List VirtIOVideoEvent) :
    freed_events (unrealize_events events) = events := by
  induction events with
  | nil => rfl
  | cons event rest ih =>
    unfold freed_events at ih ⊢
    rw [unrealize_events]
    cases he : event.elem with
    | none => simp [List.filterMap_cons, ih]
    | some elem => simp [List.filterMap_cons, ih]

/-- C12: let `queue` be the event queue when `virtio_video_device_unrealize`
reaches it (the queue of the device, after the shut-down of the backend when
the backend is media-sdk).  The buffers detached during the teardown are
exactly the buffers held by the events of `queue`, in queue order, one
`virtqueue_detach_element` with length 0 for each holding event; the events
freed are exactly the events of `queue`, each once; and the event queue of the
device left behind is empty. -/
theorem unrealize_returns_buffers (uninit : VirtIOVideo → VirtIOVideo) (conf : VirtIOVideoConf)
    (v : VirtIOVideo) (queue : List VirtIOVideoEvent)
    (hqueue : queue =
      (if v.backend = VIRTIO_VIDEO_BACKEND_MEDIA_SDK then uninit v else v).event_queue) :
    detached_buffers (virtio_video_device_unrealize uninit conf v).2 =
        (queue.filterMap (fun event => event.elem)).map (fun elem => (elem, 0)) ∧
      freed_events (virtio_video_device_unrealize uninit conf v).2 = queue ∧
      (virtio_video_device_unrealize uninit conf v).1.event_queue = [] := by
  subst hqueue
  unfold virtio_video_device_unrealize
  simp only
  refine ⟨?_, ?_, trivial⟩
  · have h := unrealize_events_detached
      (if v.backend = VIRTIO_VIDEO_BACKEND_MEDIA_SDK then uninit v else v).event_queue
    unfold detached_buffers at h ⊢
    rw [List.filterMap_append, List.filterMap_append, List.filterMap_append, h]
    cases conf.iothread <;> simp
  · have h := unrealize_events_freed
      (if v.backend = VIRTIO_VIDEO_BACKEND_MEDIA_SDK then uninit v else v).event_queue
    unfold freed_events at h ⊢
    rw [List.filterMap_append, List.filterMap_append, List.filterMap_append, h]
    cases conf.iothread <;> simp

/-- Witness of C12: the device with two queued events, the older of which
holds a receive buffer, is torn down. -/
theorem unrealize_returns_buffers_witness :
    stalled_event_device.event_queue =
        (if stalled_event_device.backend = VIRTIO_VIDEO_BACKEND_MEDIA_SDK then
          sample_uninit stalled_event_device else stalled_event_device).event_queue ∧
      (detached_buffers (virtio_video_device_unrealize sample_uninit sample_conf
          stalled_event_device).2 =
          (stalled_event_device.event_queue.filterMap (fun event => event.elem)).map
            (fun elem => (elem, 0)) ∧
        freed_events (virtio_video_device_unrealize sample_uninit sample_conf
          stalled_event_device).2 = stalled_event_device.event_queue ∧
        (virtio_video_device_unrealize sample_uninit sample_conf
          stalled_event_device).1.event_queue = []) ∧
      (virtio_video_device_unrealize sample_uninit sample_conf stalled_event_device).2 =
        [Effect.virtqueue_detach_element (sample_buffer 0) 0,
         Effect.g_free_elem (sample_buffer 0),
         Effect.g_free_event { elem := some (sample_buffer 0), event_type := 1, stream_id := 1 },
         Effect.g_free_event { elem := none, event_type := 2, stream_id := 1 },
         Effect.qemu_mutex_destroy, Effect.virtio_del_queue 0, Effect.virtio_del_queue 1,
         Effect.virtio_cleanup] :=
  ⟨by decide,
   unrealize_returns_buffers sample_uninit sample_conf stalled_event_device
     stalled_event_device.event_queue (by decide),
   by decide⟩

/-! ## Realize and the configuration block -/

theorem table_lookup_models (name : String) (id : Nat)
    (h : table_lookup virtio_video_models name = some id) :
    id = VIRTIO_VIDEO_DEVICE_V4L2_ENC ∨ id = VIRTIO_VIDEO_DEVICE_V4L2_DEC := by
  unfold table_lookup virtio_video_models at h
  simp only [List.find?_cons, List.find?_nil] at h
  by_cases h1 : "v4l2-enc" = name
  · simp [h1] at h; left; exact h.symm
  · by_cases h2 : "v4l2-dec" = name
    · simp [h1, h2] at h; right; exact h.symm
    · simp [h1, h2] at h

theorem realize_device_config (probe : BackendInit) (conf : VirtIOVideoConf) (v : VirtIOVideo)
    (hmodel : v.model = VIRTIO_VIDEO_DEVICE_V4L2_ENC ∨ v.model = VIRTIO_VIDEO_DEVICE_V4L2_DEC)
    (h : (realize_device probe conf v).errp = none) :
    (realize_device probe conf v).v.config =
        { version := VIRTIO_VIDEO_VERSION
          max_caps_length := VIRTIO_VIDEO_CAPS_LENGTH_MAX
          max_resp_length := VIRTIO_VIDEO_RESPONSE_LENGTH_MAX } ∧
      v.backend = VIRTIO_VIDEO_BACKEND_MEDIA_SDK ∧ probe.ret = 0 := by
  unfold realize_device at h ⊢
  have hm : ¬ (v.model ≠ VIRTIO_VIDEO_DEVICE_V4L2_ENC ∧ v.model ≠ VIRTIO_VIDEO_DEVICE_V4L2_DEC) := by
    rintro ⟨h1, h2⟩
    rcases hmodel with h | h
    · exact h1 h
    · exact h2 h
  rw [if_neg hm] at h ⊢
  simp only at h ⊢
  by_cases hb : v.backend = VIRTIO_VIDEO_BACKEND_MEDIA_SDK
  · simp only [hb, if_true, virtio_video_init_msdk] at h ⊢
    by_cases hr : probe.ret = 0
    · simp [hr]
    · simp [hr] at h
  · simp [hb] at h

theorem realize_reaches_device (probe : BackendInit) (conf : VirtIOVideoConf) (v : VirtIOVideo)
    (h : (virtio_video_device_realize probe conf v).errp = none) :
    ∃ model model_id backend backend_id,
      conf.model = some model ∧ table_lookup virtio_video_models model = some model_id ∧
      conf.backend = some backend ∧
      table_lookup virtio_video_backends backend = some backend_id ∧
      virtio_video_device_realize probe conf v =
        realize_device probe conf { v with model := model_id, backend := backend_id } := by
  unfold virtio_video_device_realize at h ⊢
  cases hm : conf.model with
  | none => simp [hm] at h
  | some model =>
    cases hl : table_lookup virtio_video_models model with
    | none => simp [hm, hl] at h
    | some model_id =>
      cases hb : conf.backend with
      | none => simp [hm, hl, hb] at h
      | some backend =>
        cases hlb : table_lookup virtio_video_backends backend with
        | none => simp [hm, hl, hb, hlb] at h
        | some backend_id =>
          exact ⟨model, model_id, backend, backend_id, rfl, hl, rfl, hlb, by simp only [hl, hlb]⟩

/-- C16: when `virtio_video_device_realize` reports no error, the
configuration block of the device holds version 0 and the maximum lengths
1024 and 1024, whatever the device object held before, and
`virtio_video_get_config` hands out exactly that block. -/
theorem realize_populates_config (probe : BackendInit) (conf : VirtIOVideoConf)
    (v : VirtIOVideo)
    (h : (virtio_video_device_realize probe conf v).errp = none) :
    (virtio_video_device_realize probe conf v).v.config =
        { version := 0, max_caps_length := 1024, max_resp_length := 1024 } ∧
      virtio_video_get_config (virtio_video_device_realize probe conf v).v =
        { version := 0, max_caps_length := 1024, max_resp_length := 1024 } ∧
      virtio_video_get_config (virtio_video_device_realize probe conf v).v =
        (virtio_video_device_realize probe conf v).v.config := by
  have hcfg : (virtio_video_device_realize probe conf v).v.config =
      { version := 0, max_caps_length := 1024, max_resp_length := 1024 } := by
    obtain ⟨model, model_id, backend, backend_id, _, hl, _, _, heq⟩ :=
      realize_reaches_device probe conf v h
    rw [heq] at h ⊢
    exact (realize_device_config probe conf _ (table_lookup_models model model_id hl) h).1
  exact ⟨hcfg, hcfg, rfl⟩

/-- Witness of C16: a media-sdk decoder whose backend initialises is realised
on a device object with other old contents. -/
theorem realize_populates_config_witness :
    (virtio_video_device_realize sample_probe sample_conf unrealized_device).errp = none ∧
      ((virtio_video_device_realize sample_probe sample_conf unrealized_device).v.config =
          { version := 0, max_caps_length := 1024, max_resp_length := 1024 } ∧
        virtio_video_get_config
            (virtio_video_device_realize sample_probe sample_conf unrealized_device).v =
          { version := 0, max_caps_length := 1024, max_resp_length := 1024 } ∧
        virtio_video_get_config
            (virtio_video_device_realize sample_probe sample_conf unrealized_device).v =
          (virtio_video_device_realize sample_probe sample_conf unrealized_device).v.config) :=
  ⟨by decide,
   realize_populates_config sample_probe sample_conf unrealized_device (by decide)⟩

/-! ## Locking discipline of the callbacks -/

theorem lock_state_quiet (held : List Mutex) (trace : List Effect)
    (h : ∀ e ∈ trace, e.is_mutex_call = false) : lock_state held trace = some held := by
  induction trace with
  | nil => rfl
  | cons e rest ih =>
    have he := h e (List.mem_cons_self _ _)
    have hr := ih (fun x hx => h x (List.mem_cons_of_mem _ hx))
    cases e <;> simp [Effect.is_mutex_call] at he <;> simp [lock_state, hr]

theorem lock_state_append (held : List Mutex) (t1 t2 : List Effect) :
    lock_state held (t1 ++ t2) = (lock_state held t1).bind (fun h => lock_state h t2) := by
  induction t1 generalizing held with
  | nil => rfl
  | cons e rest ih =>
    cases e with
    | qemu_mutex_lock m =>
      simp only [List.cons_append, lock_state]
      by_cases hm : m ∈ held
      · simp [hm]
      · simp only [hm, if_false]; exact ih _
    | qemu_mutex_unlock m =>
      simp only [List.cons_append, lock_state]
      by_cases hm : m ∈ held
      · simp only [hm, if_true]; exact ih _
      · simp [hm]
    | _ => simp [lock_state, ih]

theorem lock_state_section (held : List Mutex) (m : Mutex) (trace : List Effect)
    (hm : m ∉ held) (h : ∀ e ∈ trace, e.is_mutex_call = false) :
    lock_state held ([Effect.qemu_mutex_lock m] ++ trace ++ [Effect.qemu_mutex_unlock m]) =
      some held := by
  rw [List.append_assoc, List.singleton_append, lock_state, if_neg hm, lock_state_append,
    lock_state_quiet _ _ h]
  simp [lock_state]

theorem create_page_entries_quiet (H : Host) (entries : List virtio_video_mem_entry)
    (output : Bool) (k n : Nat) (row : List VirtIOVideoResourceSlice) (trace : List Effect)
    (h : ∀ e ∈ trace, e.is_mutex_call = false) :
    ∀ e ∈ (create_page_entries H entries output k n row trace).2.2.2,
      e.is_mutex_call = false := by
  induction k generalizing n row trace with
  | zero => simpa [create_page_entries] using h
  | succ k ih =>
    rw [create_page_entries]
    have h1 : ∀ e ∈ trace ++ [map_effect H output (entries.getD n default)],
        e.is_mutex_call = false := by
      intro e he
      rcases List.mem_append.mp he with he | he
      · exact h e he
      · rw [List.mem_singleton.mp he]; rfl
    by_cases hs : (slice_of H output (entries.getD n default)).len <
        (entries.getD n default).length
    · rw [if_pos hs]
      intro e he
      rcases List.mem_append.mp he with he | he
      · exact h1 e he
      · rw [List.mem_singleton.mp he]; rfl
    · rw [if_neg hs]
      exact ih _ _ _ h1

theorem create_page_planes_quiet (H : Host) (resource : VirtIOVideoResource)
    (entries : List virtio_video_mem_entry) (output : Bool) (p i n : Nat)
    (slices : List (List VirtIOVideoResourceSlice)) (trace : List Effect)
    (h : ∀ e ∈ trace, e.is_mutex_call = false) :
    ∀ e ∈ (create_page_planes H resource entries output p i n slices trace).trace,
      e.is_mutex_call = false := by
  induction p generalizing i n slices trace with
  | zero => simpa [create_page_planes] using h
  | succ p ih =>
    rw [create_page_planes]
    have hq := create_page_entries_quiet H entries output (resource.num_entries.getD i 0) n []
      trace h
    rcases hr : create_page_entries H entries output (resource.num_entries.getD i 0) n []
      trace with ⟨ok, n1, row, trace1⟩
    rw [hr] at hq
    cases ok
    · simp only
      intro e he
      rcases List.mem_append.mp he with he | he
      · exact hq e he
      · obtain ⟨s, _, rfl⟩ := List.mem_map.mp he
        rfl
    · exact ih _ _ _ _ hq

theorem destroy_effects_no_mutex (resource : VirtIOVideoResource) (input : Bool) :
    ∀ e ∈ destroy_effects resource input, e.is_mutex_call = false := by
  intro e he
  unfold destroy_effects at he
  rcases List.mem_append.mp he with h | h
  · obtain ⟨s, _, rfl⟩ := List.mem_map.mp h
    rfl
  · cases hb : resource.remapped_base with
    | none => rw [hb] at h; simp at h
    | some b =>
      rw [hb] at h
      simp only [List.mem_singleton] at h
      subst h
      rfl

theorem replace_no_mutex (stream : VirtIOVideoStream) (resource_id mem_type dir : Nat) :
    ∀ e ∈ (resource_create_replace stream resource_id mem_type dir).2,
      e.is_mutex_call = false := by
  rcases replace_cases stream resource_id mem_type dir with ⟨_, h⟩ | ⟨old, _, _, h⟩
  · rw [h]; intro e he; simp at he
  · rw [h]; exact destroy_effects_no_mutex _ _

theorem resource_create_mem_no_mutex (K : Proto) (H : Host) (stream : VirtIOVideoStream)
    (req : virtio_video_resource_create) (elem : VirtQueueElement) (mem_type dir : Nat) :
    ∀ e ∈ (resource_create_mem K H stream req elem mem_type dir).trace,
      e.is_mutex_call = false := by
  have hpage : ∀ e ∈ (resource_create_page K H stream req elem mem_type).trace,
      e.is_mutex_call = false := by
    unfold resource_create_page virtio_video_resource_create_page
    exact create_page_planes_quiet _ _ _ _ _ _ _ _ _ (by intro e he; simp at he)
  unfold resource_create_mem
  by_cases hm : mem_type = K.VIRTIO_VIDEO_MEM_TYPE_GUEST_PAGES
  · rw [if_pos hm]
    by_cases hb : (resource_create_entry_bytes K req elem).length ≠
        K.sizeof_mem_entry * resource_create_num_entries req
    · rw [if_pos hb]
      intro e he
      simp only [List.mem_singleton] at he
      rw [he]; rfl
    · rw [if_neg hb]
      simp only
      by_cases hp : (resource_create_page K H stream req elem mem_type).ret < 0
      · rw [if_pos hp]; exact hpage
      · rw [if_neg hp]; exact hpage
  · rw [if_neg hm]
    by_cases ho : mem_type = K.VIRTIO_VIDEO_MEM_TYPE_VIRTIO_OBJECT
    · rw [if_pos ho]; intro e he; simp at he
    · rw [if_neg ho]; intro e he; simp at he

theorem resource_create_locked_no_mutex (K : Proto) (H : Host) (stream : VirtIOVideoStream)
    (req : virtio_video_resource_create) (elem : VirtQueueElement) :
    ∀ e ∈ (resource_create_locked K H stream req elem).trace, e.is_mutex_call = false := by
  cases hd : queue_dir K req.queue_type with
  | none =>
    rw [resource_create_locked_default K H stream req elem hd]
    intro e he; simp at he
  | some dir =>
    cases hw : find_work (stream.work_queue dir) req.resource_id with
    | some w =>
      rw [resource_create_locked_busy K H stream req elem dir w hd hw]
      intro e he; simp at he
    | none =>
      rw [resource_create_locked_idle K H stream req elem dir hd hw]
      by_cases hv : ¬ (H.virtio_video_format_is_valid (stream.queue_info dir).params.format
          req.num_planes = true)
      · rw [if_pos hv]; exact replace_no_mutex _ _ _ _
      · rw [if_neg hv]
        simp only
        intro e he
        rcases List.mem_append.mp he with he | he
        · exact replace_no_mutex _ _ _ _ e he
        · exact resource_create_mem_no_mutex _ _ _ _ _ _ _ e he

theorem resource_create_locks (K : Proto) (H : Host) (v : VirtIOVideo)
    (req : virtio_video_resource_create) (elem : VirtQueueElement) (held : List Mutex)
    (hheld : ∀ id, Mutex.stream id ∉ held) :
    lock_state held (virtio_video_process_cmd_resource_create K H v req elem).trace =
      some held := by
  cases hf : find_stream v.stream_list req.hdr.stream_id with
  | none =>
    simp only [virtio_video_process_cmd_resource_create, hf]
    rfl
  | some stream =>
    rw [resource_create_found K H v req elem stream hf]
    exact lock_state_section held _ _ (hheld _) (resource_create_locked_no_mutex K H stream req elem)

theorem lock_state_suffix (held : List Mutex) (trace suffix : List Effect)
    (h : lock_state held trace = some held) (hs : ∀ e ∈ suffix, e.is_mutex_call = false) :
    lock_state held (trace ++ suffix) = some held := by
  rw [lock_state_append, h]
  exact lock_state_quiet _ _ hs

theorem command_error_locks (v : VirtIOVideo) (trace : List Effect) (held : List Mutex)
    (h : lock_state held trace = some held) :
    lock_state held (command_error v trace).trace = some held := by
  unfold command_error
  exact lock_state_suffix _ _ _ h (by intro e he; rw [List.mem_singleton.mp he]; rfl)

theorem CMD_SET_RESP_locks (elem : VirtQueueElement) (v : VirtIOVideo) (trace : List Effect)
    (resp : Option Resp) (len : Nat) (held : List Mutex)
    (h : lock_state held trace = some held) :
    lock_state held (CMD_SET_RESP elem v trace resp len).trace = some held := by
  unfold CMD_SET_RESP
  cases resp with
  | none => exact command_error_locks _ _ _ h
  | some r =>
    simp only
    by_cases h0 : len = 0
    · rw [if_pos h0]; exact command_error_locks _ _ _ h
    · rw [if_neg h0]
      by_cases h1 : iov_from_buf elem.in_sg len ≠ len
      · rw [if_pos h1]
        exact command_error_locks _ _ _
          (lock_state_suffix _ _ _ h (by intro e he; rw [List.mem_singleton.mp he]; rfl))
      · rw [if_neg h1]
        exact lock_state_suffix _ _ _ h (by intro e he; rw [List.mem_singleton.mp he]; rfl)

theorem command_handler_locks (K : Proto) (H : Host) (B : Backend) (v : VirtIOVideo)
    (elem : VirtQueueElement) (req : List Nat) (c : CmdCase) (held : List Mutex)
    (hheld : ∀ id, Mutex.stream id ∉ held) :
    lock_state held (command_handler K H B v elem req c).trace = some held := by
  cases c <;> first
    | exact resource_create_locks K H v _ elem held hheld
    | rfl

theorem command_body_locks (K : Proto) (H : Host) (B : Backend) (v : VirtIOVideo)
    (elem : VirtQueueElement) (req : List Nat) (c : CmdCase) (held : List Mutex)
    (hheld : ∀ id, Mutex.stream id ∉ held) :
    lock_state held (command_body K H B v elem req c).trace = some held := by
  have hh := command_handler_locks K H B v elem req c held hheld
  unfold command_body
  simp only
  split_ifs
  · rfl
  · exact hh
  · exact CMD_SET_RESP_locks _ _ _ _ _ _ hh
  · exact hh
  · exact CMD_SET_RESP_locks _ _ _ _ _ _ hh
  · exact CMD_SET_RESP_locks _ _ _ _ _ _ hh

theorem process_command_locks (K : Proto) (H : Host) (B : Backend) (v : VirtIOVideo)
    (elem : VirtQueueElement) (held : List Mutex) (hheld : ∀ id, Mutex.stream id ∉ held) :
    lock_state held (virtio_video_process_command K H B v elem).trace = some held := by
  unfold virtio_video_process_command
  cases CMD_GET_REQ elem K.sizeof_cmd_hdr with
  | none => exact command_error_locks _ _ _ rfl
  | some hdr =>
    simp only
    split_ifs
    · rfl
    · exact command_error_locks _ _ _ rfl
    · cases CMD_GET_REQ elem (cmd_req_size K (cmd_case K (K.decode_cmd_hdr hdr).type)) with
      | none => exact command_error_locks _ _ _ rfl
      | some req => exact command_body_locks K H B v elem req _ held hheld

theorem command_cb_sections (K : Proto) (H : Host) (B : Backend) (v : VirtIOVideo)
    (vq : List VirtQueueElement) :
    ∃ (calls : List (VirtIOVideo × VirtQueueElement × List Effect)) (last : List Effect),
      (virtio_video_command_vq_cb K H B v vq).trace =
        calls.flatMap (fun c =>
          [Effect.qemu_mutex_lock Mutex.device] ++
            (virtio_video_process_command K H B c.1 c.2.1).trace ++
            [Effect.qemu_mutex_unlock Mutex.device] ++ c.2.2) ++ last ∧
      (calls.map (fun c => c.2.1)).IsPrefix vq ∧
      (∀ c ∈ calls, ∀ e ∈ c.2.2, e.is_mutex_call = false) ∧
      ∀ e ∈ last, e.is_mutex_call = false := by
  induction vq generalizing v with
  | nil => exact ⟨[], [], rfl, by simp, by simp, by simp⟩
  | cons elem vq ih =>
    rw [virtio_video_command_vq_cb]
    by_cases hbad : elem.out_num < 1 ∨ elem.in_num < 1
    · rw [if_pos hbad]
      refine ⟨[], _, rfl, by simp, by simp, ?_⟩
      intro e he
      simp only [List.mem_cons, List.mem_singleton, List.not_mem_nil, or_false] at he
      rcases he with rfl | rfl | rfl <;> rfl
    · rw [if_neg hbad]
      simp only
      obtain ⟨calls, last, htrace, hprefix, hcalls, hlast⟩ :=
        ih (virtio_video_process_command K H B v elem).v
      by_cases hneg : (virtio_video_process_command K H B v elem).ret < 0
      · rw [if_pos hneg]
        refine ⟨[(v, elem, [Effect.virtqueue_detach_element elem 0, Effect.g_free_elem elem])],
          [], by simp [List.flatMap_cons], by simp, ?_, by simp⟩
        intro c hc e he
        rw [List.mem_singleton.mp hc] at he
        simp only [List.mem_cons, List.mem_singleton, List.not_mem_nil, or_false] at he
        rcases he with rfl | rfl <;> rfl
      · rw [if_neg hneg]
        by_cases hzero : (virtio_video_process_command K H B v elem).ret = 0
        · rw [if_pos hzero]
          refine ⟨(v, elem, [Effect.virtqueue_push elem
              (virtio_video_process_command K H B v elem).resp_size, Effect.virtio_notify,
              Effect.g_free_elem elem]) :: calls, last, ?_, ?_, ?_, hlast⟩
          · simp only [htrace, List.flatMap_cons, List.append_assoc]
          · simpa [List.prefix_cons_inj] using hprefix
          · intro c hc e he
            rcases List.mem_cons.mp hc with rfl | hc
            · simp only [List.mem_cons, List.mem_singleton, List.not_mem_nil, or_false] at he
              rcases he with rfl | rfl | rfl <;> rfl
            · exact hcalls c hc e he
        · rw [if_neg hzero]
          refine ⟨(v, elem, []) :: calls, last, ?_, ?_, ?_, hlast⟩
          · simp only [htrace, List.flatMap_cons, List.append_assoc, List.append_nil]
          · simpa [List.prefix_cons_inj] using hprefix
          · intro c hc e he
            rcases List.mem_cons.mp hc with rfl | hc
            · simp at he
            · exact hcalls c hc e he

theorem lock_state_bracket (m : Mutex) (trace rest : List Effect)
    (h : lock_state [m] trace = some [m]) :
    lock_state [] ([Effect.qemu_mutex_lock m] ++ trace ++ [Effect.qemu_mutex_unlock m] ++ rest) =
      lock_state [] rest := by
  simp only [List.append_assoc, List.singleton_append]
  simp [lock_state, lock_state_append, h]

theorem sections_balanced (K : Proto) (H : Host) (B : Backend)
    (calls : List (VirtIOVideo × VirtQueueElement × List Effect)) (last : List Effect)
    (hcalls : ∀ c ∈ calls, ∀ e ∈ c.2.2, e.is_mutex_call = false)
    (hlast : ∀ e ∈ last, e.is_mutex_call = false) :
    lock_state []
      (calls.flatMap (fun c =>
        [Effect.qemu_mutex_lock Mutex.device] ++
          (virtio_video_process_command K H B c.1 c.2.1).trace ++
          [Effect.qemu_mutex_unlock Mutex.device] ++ c.2.2) ++ last) = some [] := by
  induction calls with
  | nil => exact lock_state_quiet _ _ hlast
  | cons c rest ih =>
    have hpc := process_command_locks K H B c.1 c.2.1 [Mutex.device] (by simp)
    rw [List.flatMap_cons, List.append_assoc, List.append_assoc, lock_state_bracket _ _ _ hpc,
      lock_state_append, lock_state_quiet _ _ (hcalls c (List.mem_cons_self _ _))]
    exact ih (fun x hx => hcalls x (List.mem_cons_of_mem _ hx))

theorem event_cb_balanced (K : Proto) (v : VirtIOVideo) (vq : List VirtQueueElement) :
    lock_state [] (virtio_video_event_vq_cb K v vq).trace = some [] := by
  induction vq generalizing v with
  | nil => rw [event_cb_no_buffer]; simp [event_idle, lock_state]
  | cons elem vq ih =>
    cases h : v.event_queue with
    | nil => rw [event_cb_no_event K v _ h]; simp [event_idle, lock_state]
    | cons event events =>
      by_cases he : event.elem = none
      · by_cases hwf : well_formed_buffer K elem
        · rw [event_cb_deliver K v elem vq event events h he hwf]
          have hb := lock_state_bracket Mutex.device
            [Effect.virtio_video_event_complete { event with elem := some elem }]
            (virtio_video_event_vq_cb K { v with event_queue := events } vq).trace
            (by simp [lock_state])
          simp only [List.cons_append, List.nil_append, List.singleton_append,
            List.append_assoc] at hb ⊢
          rw [hb]
          exact ih _
        · rw [event_cb_reject K v elem vq event events h he hwf]
          simp [event_reject, lock_state]
      · rw [event_cb_holds_buffer K v _ event events h he]; simp [event_idle, lock_state]

/-- C20: the host calls of one run of `virtio_video_command_vq_cb` are a
sequence of sections, one for each call of `virtio_video_process_command`
(made on the first messages of the queue, in order): the lock of the device
mutex, the host calls of `virtio_video_process_command`, during which the
device mutex stays held and every other mutex locked is unlocked again, the
unlock of the device mutex, and the completion of the message, which touches
no mutex; what follows the last section touches no mutex either.  Over the
whole run of the command callback, of the event callback and of the
resource-create handler every lock is of a mutex that is not held, every
unlock is of a mutex that is held, and no mutex is held at the end; the
handler called with the device mutex held leaves exactly that mutex held. -/
theorem locking_discipline (K : Proto) (H : Host) (B : Backend) (v : VirtIOVideo)
    (vq : List VirtQueueElement) (req : virtio_video_resource_create)
    (elem : VirtQueueElement) :
    (∃ (calls : List (VirtIOVideo × VirtQueueElement × List Effect)) (last : List Effect),
      (virtio_video_command_vq_cb K H B v vq).trace =
        calls.flatMap (fun c =>
          [Effect.qemu_mutex_lock Mutex.device] ++
            (virtio_video_process_command K H B c.1 c.2.1).trace ++
            [Effect.qemu_mutex_unlock Mutex.device] ++ c.2.2) ++ last ∧
      (calls.map (fun c => c.2.1)).IsPrefix vq ∧
      (∀ c ∈ calls,
        lock_state [Mutex.device] (virtio_video_process_command K H B c.1 c.2.1).trace =
          some [Mutex.device]) ∧
      (∀ c ∈ calls, ∀ e ∈ c.2.2, e.is_mutex_call = false) ∧
      ∀ e ∈ last, e.is_mutex_call = false) ∧
    lock_state [] (virtio_video_command_vq_cb K H B v vq).trace = some [] ∧
    lock_state [] (virtio_video_event_vq_cb K v vq).trace = some [] ∧
    lock_state [] (virtio_video_process_cmd_resource_create K H v req elem).trace = some [] ∧
    lock_state [Mutex.device] (virtio_video_process_cmd_resource_create K H v req elem).trace =
      some [Mutex.device] := by
  obtain ⟨calls, last, htrace, hprefix, hcalls, hlast⟩ := command_cb_sections K H B v vq
  refine ⟨⟨calls, last, htrace, hprefix, ?_, hcalls, hlast⟩, ?_, event_cb_balanced K v vq,
    resource_create_locks K H v req elem [] (by simp),
    resource_create_locks K H v req elem [Mutex.device] (by simp)⟩
  · intro c _
    exact process_command_locks K H B c.1 c.2.1 [Mutex.device] (by simp)
  · rw [htrace]
    exact sections_balanced K H B calls last hcalls hlast

/-! ## The configuration block under the callbacks -/

/-- C21 (code evaluated at a failing input): a media-sdk decoder is realised,
which stores version 0 and the maximum lengths 1024 and 1024 in the
configuration block.  A command message, an event-queue kick and a
configuration read leave the block as it is; but after the guest writes the
block `{7, 0, 0}` through `virtio_video_set_config`, `virtio_video_get_config`
returns `{7, 0, 0}`: the values set at realisation are gone.  In general
`virtio_video_get_config` returns, after a write, the block written. -/
theorem set_config_overwrites_config :
    (virtio_video_device_realize sample_probe sample_conf unrealized_device).errp = none ∧
      virtio_video_get_config realized_device =
        { version := 0, max_caps_length := 1024, max_resp_length := 1024 } ∧
      virtio_video_get_config
          (device_callbacks proto_v3 host_short_at_8192 sample_backend realized_device
            [DeviceCallback.command_vq [sample_create_elem],
             DeviceCallback.event_vq [sample_buffer 1], DeviceCallback.get_config]) =
        { version := 0, max_caps_length := 1024, max_resp_length := 1024 } ∧
      virtio_video_get_config
          (device_callbacks proto_v3 host_short_at_8192 sample_backend realized_device
            [DeviceCallback.set_config
              { version := 7, max_caps_length := 0, max_resp_length := 0 }]) =
        { version := 7, max_caps_length := 0, max_resp_length := 0 } ∧
      virtio_video_get_config
          (device_callbacks proto_v3 host_short_at_8192 sample_backend realized_device
            [DeviceCallback.set_config
              { version := 7, max_caps_length := 0, max_resp_length := 0 }]) ≠
        virtio_video_get_config realized_device ∧
      ∀ v config, virtio_video_get_config (virtio_video_set_config v config) = config :=
  ⟨by decide, by decide, by decide, by decide, by decide, fun _ _ => rfl⟩

/-! ## The dispatcher: unknown opcodes -/

theorem cmd_case_default (K : Proto) (type : Nat)
    (h : type ∉ [K.VIRTIO_VIDEO_CMD_QUERY_CAPABILITY, K.VIRTIO_VIDEO_CMD_STREAM_CREATE,
      K.VIRTIO_VIDEO_CMD_STREAM_DESTROY, K.VIRTIO_VIDEO_CMD_STREAM_DRAIN,
      K.VIRTIO_VIDEO_CMD_RESOURCE_CREATE, K.VIRTIO_VIDEO_CMD_RESOURCE_QUEUE,
      K.VIRTIO_VIDEO_CMD_RESOURCE_DESTROY_ALL, K.VIRTIO_VIDEO_CMD_QUEUE_CLEAR,
      K.VIRTIO_VIDEO_CMD_GET_PARAMS, K.VIRTIO_VIDEO_CMD_SET_PARAMS,
      K.VIRTIO_VIDEO_CMD_QUERY_CONTROL, K.VIRTIO_VIDEO_CMD_GET_CONTROL,
      K.VIRTIO_VIDEO_CMD_SET_CONTROL]) :
    cmd_case K type = CmdCase.default := by
  simp only [List.mem_cons, List.mem_singleton, List.not_mem_nil, or_false, not_or] at h
  obtain ⟨h1, h2, h3, h4, h5, h6, h7, h8, h9, h10, h11, h12, h13⟩ := h
  unfold cmd_case
  simp only [h1, h2, h3, h4, h5, h6, h7, h8, h9, h10, h11, h12, h13, if_false]

/-- C23: take a message whose request buffers hold a request header with an
opcode that is none of the thirteen.  `virtio_video_process_command` returns
0 with response size 0, makes no host call (nothing is written to the
response buffers) and leaves the device as it is.  The command callback,
which hands on every message that has a request and a response segment, then
pushes the message with length 0, notifies, frees it and goes on with the
next message on the unchanged device. -/
theorem unknown_opcode_completes_empty (K : Proto) (H : Host) (B : Backend) (v : VirtIOVideo)
    (elem : VirtQueueElement) (vq : List VirtQueueElement) (hdr : List Nat)
    (hhdr : CMD_GET_REQ elem K.sizeof_cmd_hdr = some hdr)
    (hop : (K.decode_cmd_hdr hdr).type ∉
      [K.VIRTIO_VIDEO_CMD_QUERY_CAPABILITY, K.VIRTIO_VIDEO_CMD_STREAM_CREATE,
       K.VIRTIO_VIDEO_CMD_STREAM_DESTROY, K.VIRTIO_VIDEO_CMD_STREAM_DRAIN,
       K.VIRTIO_VIDEO_CMD_RESOURCE_CREATE, K.VIRTIO_VIDEO_CMD_RESOURCE_QUEUE,
       K.VIRTIO_VIDEO_CMD_RESOURCE_DESTROY_ALL, K.VIRTIO_VIDEO_CMD_QUEUE_CLEAR,
       K.VIRTIO_VIDEO_CMD_GET_PARAMS, K.VIRTIO_VIDEO_CMD_SET_PARAMS,
       K.VIRTIO_VIDEO_CMD_QUERY_CONTROL, K.VIRTIO_VIDEO_CMD_GET_CONTROL,
       K.VIRTIO_VIDEO_CMD_SET_CONTROL]) :
    virtio_video_process_command K H B v elem =
        { ret := 0, resp_size := 0, v := v, trace := [] } ∧
      (1 ≤ elem.out_num → 1 ≤ elem.in_num →
        virtio_video_command_vq_cb K H B v (elem :: vq) =
          { v := (virtio_video_command_vq_cb K H B v vq).v
            vq := (virtio_video_command_vq_cb K H B v vq).vq
            trace := [Effect.qemu_mutex_lock Mutex.device, Effect.qemu_mutex_unlock Mutex.device,
                Effect.virtqueue_push elem 0, Effect.virtio_notify, Effect.g_free_elem elem] ++
              (virtio_video_command_vq_cb K H B v vq).trace }) := by
  have hpc : virtio_video_process_command K H B v elem =
      { ret := 0, resp_size := 0, v := v, trace := [] } := by
    unfold virtio_video_process_command
    rw [hhdr]
    simp only [cmd_case_default K _ hop, if_true]
  refine ⟨hpc, ?_⟩
  intro hout hin
  rw [callback_step K H B v elem vq hout hin, hpc]
  simp

/-- Witness of C23: the message with opcode 0x999, followed by a
stream-destroy message, on the sample device. -/
theorem unknown_opcode_completes_empty_witness :
    CMD_GET_REQ unknown_opcode_elem proto_v3.sizeof_cmd_hdr =
        some (le32_bytes 0x999 ++ le32_bytes 1) ∧
      (proto_v3.decode_cmd_hdr (le32_bytes 0x999 ++ le32_bytes 1)).type ∉
        [proto_v3.VIRTIO_VIDEO_CMD_QUERY_CAPABILITY, proto_v3.VIRTIO_VIDEO_CMD_STREAM_CREATE,
         proto_v3.VIRTIO_VIDEO_CMD_STREAM_DESTROY, proto_v3.VIRTIO_VIDEO_CMD_STREAM_DRAIN,
         proto_v3.VIRTIO_VIDEO_CMD_RESOURCE_CREATE, proto_v3.VIRTIO_VIDEO_CMD_RESOURCE_QUEUE,
         proto_v3.VIRTIO_VIDEO_CMD_RESOURCE_DESTROY_ALL, proto_v3.VIRTIO_VIDEO_CMD_QUEUE_CLEAR,
         proto_v3.VIRTIO_VIDEO_CMD_GET_PARAMS, proto_v3.VIRTIO_VIDEO_CMD_SET_PARAMS,
         proto_v3.VIRTIO_VIDEO_CMD_QUERY_CONTROL, proto_v3.VIRTIO_VIDEO_CMD_GET_CONTROL,
         proto_v3.VIRTIO_VIDEO_CMD_SET_CONTROL] ∧
      virtio_video_process_command proto_v3 host_short_at_8192 sample_backend sample_device
          unknown_opcode_elem =
        { ret := 0, resp_size := 0, v := sample_device, trace := [] } ∧
      (1 ≤ unknown_opcode_elem.out_num ∧ 1 ≤ unknown_opcode_elem.in_num) ∧
      virtio_video_command_vq_cb proto_v3 host_short_at_8192 sample_backend sample_device
          (unknown_opcode_elem :: [stream_destroy_elem 8]) =
        { v := (virtio_video_command_vq_cb proto_v3 host_short_at_8192 sample_backend
            sample_device [stream_destroy_elem 8]).v
          vq := (virtio_video_command_vq_cb proto_v3 host_short_at_8192 sample_backend
            sample_device [stream_destroy_elem 8]).vq
          trace := [Effect.qemu_mutex_lock Mutex.device, Effect.qemu_mutex_unlock Mutex.device,
              Effect.virtqueue_push unknown_opcode_elem 0, Effect.virtio_notify,
              Effect.g_free_elem unknown_opcode_elem] ++
            (virtio_video_command_vq_cb proto_v3 host_short_at_8192 sample_backend
              sample_device [stream_destroy_elem 8]).trace } :=
  have h := unknown_opcode_completes_empty proto_v3 host_short_at_8192 sample_backend
    sample_device unknown_opcode_elem [stream_destroy_elem 8]
    (le32_bytes 0x999 ++ le32_bytes 1) (by decide) (by decide)
  ⟨by decide, by decide, h.1, ⟨by decide, by decide⟩, h.2 (by decide) (by decide)⟩

/-! ## Resource creation: replacement is not undone by a later failure -/

theorem resource_create_page_stream (K : Proto) (H : Host) (s1 s2 : VirtIOVideoStream)
    (req : virtio_video_resource_create) (elem : VirtQueueElement) (mem_type : Nat)
    (h : s1.in_ = s2.in_) :
    resource_create_page K H s1 req elem mem_type =
      resource_create_page K H s2 req elem mem_type := by
  unfold resource_create_page resource_create_new resource_create_planes_layout
  rw [h]

theorem failed_create_destroys (K : Proto) (H : Host) (v : VirtIOVideo)
    (req : virtio_video_resource_create) (elem : VirtQueueElement) (stream : VirtIOVideoStream)
    (dir : Nat) (old : VirtIOVideoResource) (len type : Nat) (tail : List Effect)
    (hstream : find_stream v.stream_list req.hdr.stream_id = some stream)
    (hold : old ∈ stream.resource_list dir)
    (hid : old.id = req.resource_id)
    (huniq : ((stream.resource_list dir).map (fun r => r.id)).Nodup)
    (hlocked : resource_create_locked K H stream req elem =
      { len := len, type := type
        stream := stream.set_resource_list dir ((stream.resource_list dir).erase old)
        trace := destroy_effects old (dir = VIRTIO_VIDEO_QUEUE_INPUT) ++ tail }) :
    (∃ stream1,
      find_stream (virtio_video_process_cmd_resource_create K H v req elem).v.stream_list
        req.hdr.stream_id = some stream1 ∧
      stream1.resource_list dir = (stream.resource_list dir).erase old ∧
      ∀ r ∈ stream1.resource_list dir, r.id ≠ req.resource_id) ∧
    (virtio_video_process_cmd_resource_create K H v req elem).trace =
      [Effect.qemu_mutex_lock (Mutex.stream stream.id)] ++
        destroy_effects old (dir = VIRTIO_VIDEO_QUEUE_INPUT) ++ tail ++
        [Effect.qemu_mutex_unlock (Mutex.stream stream.id)] ∧
    (virtio_video_process_cmd_resource_create K H v req elem).len = len ∧
    (virtio_video_process_cmd_resource_create K H v req elem).resp.type = type := by
  rw [resource_create_found K H v req elem stream hstream, hlocked]
  refine ⟨⟨stream.set_resource_list dir ((stream.resource_list dir).erase old), ?_, ?_, ?_⟩,
    ?_, rfl, rfl⟩
  · exact find_stream_update _ _ _ _ hstream
      (by rw [(set_resource_list_fields _ _ _).1]; exact find_stream_id _ _ _ hstream)
  · rw [resource_list_set]
  · rw [resource_list_set, ← hid]
    exact erase_no_id _ _ hold huniq
  · simp only [List.append_assoc]

/-- C22: take a resource-create request on a live stream, for a valid queue
type, whose id is held by a resource `old` of that direction's list (ids
pairwise distinct) and is not in flight, and which fails one of the later
checks: the plane count is not valid for the format; or the memory type is
not guest pages; or the entry list cannot be read in full; or a host mapping
comes back short.  The host calls start with the lock of the stream mutex and
the teardown of `old`, and afterwards the direction's list is the old list
without `old` and holds no resource with the requested id.  The outcome is
that of the failing check: `ERR_INVALID_PARAMETER` for the plane count and
for the memory type, `ERR_INVALID_OPERATION` for the short mapping, each in a
response of the size of the response header; and for the unreadable entry
list `virtio_error` and the return value 0, with which no response is
sent. -/
theorem resource_create_not_atomic (K : Proto) (H : Host) (v : VirtIOVideo)
    (req : virtio_video_resource_create) (elem : VirtQueueElement) (stream : VirtIOVideoStream)
    (dir : Nat) (old : VirtIOVideoResource)
    (hstream : find_stream v.stream_list req.hdr.stream_id = some stream)
    (hdir : queue_dir K req.queue_type = some dir)
    (hwork : find_work (stream.work_queue dir) req.resource_id = none)
    (hold : old ∈ stream.resource_list dir)
    (hid : old.id = req.resource_id)
    (huniq : ((stream.resource_list dir).map (fun r => r.id)).Nodup)
    (hfail :
      H.virtio_video_format_is_valid (stream.queue_info dir).params.format req.num_planes =
          false ∨
        (H.virtio_video_format_is_valid (stream.queue_info dir).params.format req.num_planes =
            true ∧
          ((stream.queue_info dir).mem_type ≠ K.VIRTIO_VIDEO_MEM_TYPE_GUEST_PAGES ∨
            ((stream.queue_info dir).mem_type = K.VIRTIO_VIDEO_MEM_TYPE_GUEST_PAGES ∧
              ((resource_create_entry_bytes K req elem).length ≠
                  K.sizeof_mem_entry * resource_create_num_entries req ∨
                ((resource_create_entry_bytes K req elem).length =
                    K.sizeof_mem_entry * resource_create_num_entries req ∧
                  (resource_create_page K H stream req elem
                    (stream.queue_info dir).mem_type).ret < 0)))))) :
    (∃ stream1,
      find_stream (virtio_video_process_cmd_resource_create K H v req elem).v.stream_list
        req.hdr.stream_id = some stream1 ∧
      stream1.resource_list dir = (stream.resource_list dir).erase old ∧
      ∀ r ∈ stream1.resource_list dir, r.id ≠ req.resource_id) ∧
    (∃ tail, (virtio_video_process_cmd_resource_create K H v req elem).trace =
      [Effect.qemu_mutex_lock (Mutex.stream stream.id)] ++
        destroy_effects old (dir = VIRTIO_VIDEO_QUEUE_INPUT) ++ tail ++
        [Effect.qemu_mutex_unlock (Mutex.stream stream.id)]) ∧
    (H.virtio_video_format_is_valid (stream.queue_info dir).params.format req.num_planes =
        false →
      (virtio_video_process_cmd_resource_create K H v req elem).resp.type =
          K.VIRTIO_VIDEO_RESP_ERR_INVALID_PARAMETER ∧
        (virtio_video_process_cmd_resource_create K H v req elem).len = K.sizeof_cmd_hdr) ∧
    (H.virtio_video_format_is_valid (stream.queue_info dir).params.format req.num_planes =
        true →
      ((stream.queue_info dir).mem_type ≠ K.VIRTIO_VIDEO_MEM_TYPE_GUEST_PAGES →
        (virtio_video_process_cmd_resource_create K H v req elem).resp.type =
            K.VIRTIO_VIDEO_RESP_ERR_INVALID_PARAMETER ∧
          (virtio_video_process_cmd_resource_create K H v req elem).len = K.sizeof_cmd_hdr) ∧
      ((stream.queue_info dir).mem_type = K.VIRTIO_VIDEO_MEM_TYPE_GUEST_PAGES →
        ((resource_create_entry_bytes K req elem).length ≠
            K.sizeof_mem_entry * resource_create_num_entries req →
          (virtio_video_process_cmd_resource_create K H v req elem).len = 0 ∧
            (virtio_video_process_cmd_resource_create K H v req elem).trace =
              [Effect.qemu_mutex_lock (Mutex.stream stream.id)] ++
                destroy_effects old (dir = VIRTIO_VIDEO_QUEUE_INPUT) ++
                [Effect.virtio_error, Effect.qemu_mutex_unlock (Mutex.stream stream.id)]) ∧
        ((resource_create_entry_bytes K req elem).length =
            K.sizeof_mem_entry * resource_create_num_entries req →
          (resource_create_page K H stream req elem (stream.queue_info dir).mem_type).ret < 0 →
          (virtio_video_process_cmd_resource_create K H v req elem).resp.type =
              K.VIRTIO_VIDEO_RESP_ERR_INVALID_OPERATION ∧
            (virtio_video_process_cmd_resource_create K H v req elem).len =
              K.sizeof_cmd_hdr))) := by
  have hfind : find_resource (stream.resource_list dir) req.resource_id = some old := by
    rw [← hid]; exact find_resource_unique _ _ hold huniq
  have hrepl : resource_create_replace stream req.resource_id (stream.queue_info dir).mem_type
      dir = (stream.set_resource_list dir ((stream.resource_list dir).erase old),
        destroy_effects old (dir = VIRTIO_VIDEO_QUEUE_INPUT)) := by
    simp [resource_create_replace, hfind, virtio_video_destroy_resource]
  have hpage : resource_create_page K H
      (stream.set_resource_list dir ((stream.resource_list dir).erase old)) req elem
      (stream.queue_info dir).mem_type =
      resource_create_page K H stream req elem (stream.queue_info dir).mem_type :=
    resource_create_page_stream K H _ _ req elem _ (set_resource_list_fields _ _ _).2.1
  have hidle := resource_create_locked_idle K H stream req elem dir hdir hwork
  rw [hrepl] at hidle
  simp only at hidle
  -- the four failing checks, each with the result of the locked part
  have hA : H.virtio_video_format_is_valid (stream.queue_info dir).params.format
      req.num_planes = false →
      resource_create_locked K H stream req elem =
        { len := K.sizeof_cmd_hdr, type := K.VIRTIO_VIDEO_RESP_ERR_INVALID_PARAMETER
          stream := stream.set_resource_list dir ((stream.resource_list dir).erase old)
          trace := destroy_effects old (dir = VIRTIO_VIDEO_QUEUE_INPUT) ++ [] } := by
    intro hv
    rw [hidle, if_pos (by simp [hv])]
    simp
  have hB : H.virtio_video_format_is_valid (stream.queue_info dir).params.format
      req.num_planes = true →
      (stream.queue_info dir).mem_type ≠ K.VIRTIO_VIDEO_MEM_TYPE_GUEST_PAGES →
      resource_create_locked K H stream req elem =
        { len := K.sizeof_cmd_hdr, type := K.VIRTIO_VIDEO_RESP_ERR_INVALID_PARAMETER
          stream := stream.set_resource_list dir ((stream.resource_list dir).erase old)
          trace := destroy_effects old (dir = VIRTIO_VIDEO_QUEUE_INPUT) ++ [] } := by
    intro hv hm
    rw [hidle, if_neg (by simp [hv])]
    unfold resource_create_mem
    rw [if_neg hm]
    by_cases ho : (stream.queue_info dir).mem_type = K.VIRTIO_VIDEO_MEM_TYPE_VIRTIO_OBJECT
    · rw [if_pos ho]
    · rw [if_neg ho]
  have hC : H.virtio_video_format_is_valid (stream.queue_info dir).params.format
      req.num_planes = true →
      (stream.queue_info dir).mem_type = K.VIRTIO_VIDEO_MEM_TYPE_GUEST_PAGES →
      (resource_create_entry_bytes K req elem).length ≠
        K.sizeof_mem_entry * resource_create_num_entries req →
      resource_create_locked K H stream req elem =
        { len := 0, type := K.VIRTIO_VIDEO_RESP_OK_NODATA
          stream := stream.set_resource_list dir ((stream.resource_list dir).erase old)
          trace := destroy_effects old (dir = VIRTIO_VIDEO_QUEUE_INPUT) ++
            [Effect.virtio_error] } := by
    intro hv hm hb
    rw [hidle, if_neg (by simp [hv])]
    unfold resource_create_mem
    rw [if_pos hm, if_pos hb]
  have hD : H.virtio_video_format_is_valid (stream.queue_info dir).params.format
      req.num_planes = true →
      (stream.queue_info dir).mem_type = K.VIRTIO_VIDEO_MEM_TYPE_GUEST_PAGES →
      (resource_create_entry_bytes K req elem).length =
        K.sizeof_mem_entry * resource_create_num_entries req →
      (resource_create_page K H stream req elem (stream.queue_info dir).mem_type).ret < 0 →
      resource_create_locked K H stream req elem =
        { len := K.sizeof_cmd_hdr, type := K.VIRTIO_VIDEO_RESP_ERR_INVALID_OPERATION
          stream := stream.set_resource_list dir ((stream.resource_list dir).erase old)
          trace := destroy_effects old (dir = VIRTIO_VIDEO_QUEUE_INPUT) ++
            (resource_create_page K H stream req elem
              (stream.queue_info dir).mem_type).trace } := by
    intro hv hm hb hp
    rw [hidle, if_neg (by simp [hv])]
    unfold resource_create_mem
    rw [if_pos hm, if_neg (by simpa using hb)]
    simp only [hpage]
    rw [if_pos hp]
  have hcommon : ∃ len type tail, resource_create_locked K H stream req elem =
      { len := len, type := type
        stream := stream.set_resource_list dir ((stream.resource_list dir).erase old)
        trace := destroy_effects old (dir = VIRTIO_VIDEO_QUEUE_INPUT) ++ tail } := by
    rcases hfail with hv | ⟨hv, hm | ⟨hm, hb | ⟨hb, hp⟩⟩⟩
    · exact ⟨_, _, _, hA hv⟩
    · exact ⟨_, _, _, hB hv hm⟩
    · exact ⟨_, _, _, hC hv hm hb⟩
    · exact ⟨_, _, _, hD hv hm hb hp⟩
  obtain ⟨len, type, tail, hlocked⟩ := hcommon
  have hmain := failed_create_destroys K H v req elem stream dir old len type tail hstream hold
    hid huniq hlocked
  refine ⟨hmain.1, ⟨tail, hmain.2.1⟩, ?_, ?_⟩
  · intro hv
    have h := failed_create_destroys K H v req elem stream dir old _ _ _ hstream hold hid huniq
      (hA hv)
    exact ⟨h.2.2.2, h.2.2.1⟩
  · intro hv
    refine ⟨?_, ?_⟩
    · intro hm
      have h := failed_create_destroys K H v req elem stream dir old _ _ _ hstream hold hid
        huniq (hB hv hm)
      exact ⟨h.2.2.2, h.2.2.1⟩
    · intro hm
      refine ⟨?_, ?_⟩
      · intro hb
        have h := failed_create_destroys K H v req elem stream dir old _ _ _ hstream hold hid
          huniq (hC hv hm hb)
        refine ⟨h.2.2.1, ?_⟩
        rw [h.2.1]
        simp only [List.append_assoc, List.singleton_append]
      · intro hb hp
        have h := failed_create_destroys K H v req elem stream dir old _ _ _ hstream hold hid
          huniq (hD hv hm hb hp)
        exact ⟨h.2.2.2, h.2.2.1⟩

/-- Witness of C22, for a short host mapping: stream 1 of the sample device
holds idle input resource 7; the guest creates input resource 7 again with one
entry at guest address 8192, which the sample host maps short.  Afterwards the
input list holds resource 9 only and the response is `ERR_INVALID_OPERATION`. -/
theorem resource_create_not_atomic_witness :
    (find_stream sample_device.stream_list sample_create.hdr.stream_id = some sample_stream) ∧
    (queue_dir proto_v3 sample_create.queue_type = some 0) ∧
    (find_work (sample_stream.work_queue 0) sample_create.resource_id = none) ∧
    (idle_resource ∈ sample_stream.resource_list 0) ∧
    (idle_resource.id = sample_create.resource_id) ∧
    (((sample_stream.resource_list 0).map (fun r => r.id)).Nodup) ∧
    (host_short_at_8192.virtio_video_format_is_valid (sample_stream.queue_info 0).params.format
        sample_create.num_planes =
          false ∨
        (host_short_at_8192.virtio_video_format_is_valid (sample_stream.queue_info 0).params.format
            sample_create.num_planes =
            true ∧
          ((sample_stream.queue_info 0).mem_type ≠ proto_v3.VIRTIO_VIDEO_MEM_TYPE_GUEST_PAGES ∨
            ((sample_stream.queue_info 0).mem_type = proto_v3.VIRTIO_VIDEO_MEM_TYPE_GUEST_PAGES ∧
              ((resource_create_entry_bytes proto_v3 sample_create short_entry_create_elem).length ≠
                  proto_v3.sizeof_mem_entry * resource_create_num_entries sample_create ∨
                ((resource_create_entry_bytes proto_v3 sample_create
                    short_entry_create_elem).length =
                    proto_v3.sizeof_mem_entry * resource_create_num_entries sample_create ∧
                  (resource_create_page proto_v3 host_short_at_8192 sample_stream sample_create
                      short_entry_create_elem
                    (sample_stream.queue_info 0).mem_type).ret < 0)))))) ∧
    ((∃ stream1,
      find_stream (virtio_video_process_cmd_resource_create proto_v3 host_short_at_8192
          sample_device sample_create short_entry_create_elem).v.stream_list
        sample_create.hdr.stream_id = some stream1 ∧
      stream1.resource_list 0 = (sample_stream.resource_list 0).erase idle_resource ∧
      ∀ r ∈ stream1.resource_list 0, r.id ≠ sample_create.resource_id) ∧
    (∃ tail, (virtio_video_process_cmd_resource_create proto_v3 host_short_at_8192
        sample_device sample_create short_entry_create_elem).trace =
      [Effect.qemu_mutex_lock (Mutex.stream sample_stream.id)] ++
        destroy_effects idle_resource (0 = VIRTIO_VIDEO_QUEUE_INPUT) ++ tail ++
        [Effect.qemu_mutex_unlock (Mutex.stream sample_stream.id)]) ∧
    (host_short_at_8192.virtio_video_format_is_valid (sample_stream.queue_info 0).params.format
        sample_create.num_planes =
        false →
      (virtio_video_process_cmd_resource_create proto_v3 host_short_at_8192
          sample_device sample_create short_entry_create_elem).resp.type =
          proto_v3.VIRTIO_VIDEO_RESP_ERR_INVALID_PARAMETER ∧
        (virtio_video_process_cmd_resource_create proto_v3 host_short_at_8192
            sample_device sample_create short_entry_create_elem).len =
            proto_v3.sizeof_cmd_hdr) ∧
    (host_short_at_8192.virtio_video_format_is_valid (sample_stream.queue_info 0).params.format
        sample_create.num_planes =
        true →
      ((sample_stream.queue_info 0).mem_type ≠ proto_v3.VIRTIO_VIDEO_MEM_TYPE_GUEST_PAGES →
        (virtio_video_process_cmd_resource_create proto_v3 host_short_at_8192
            sample_device sample_create short_entry_create_elem).resp.type =
            proto_v3.VIRTIO_VIDEO_RESP_ERR_INVALID_PARAMETER ∧
          (virtio_video_process_cmd_resource_create proto_v3 host_short_at_8192
              sample_device sample_create short_entry_create_elem).len =
              proto_v3.sizeof_cmd_hdr) ∧
      ((sample_stream.queue_info 0).mem_type = proto_v3.VIRTIO_VIDEO_MEM_TYPE_GUEST_PAGES →
        ((resource_create_entry_bytes proto_v3 sample_create short_entry_create_elem).length ≠
            proto_v3.sizeof_mem_entry * resource_create_num_entries sample_create →
          (virtio_video_process_cmd_resource_create proto_v3 host_short_at_8192
              sample_device sample_create short_entry_create_elem).len =
              0 ∧
            (virtio_video_process_cmd_resource_create proto_v3 host_short_at_8192
                sample_device sample_create short_entry_create_elem).trace =
              [Effect.qemu_mutex_lock (Mutex.stream sample_stream.id)] ++
                destroy_effects idle_resource (0 = VIRTIO_VIDEO_QUEUE_INPUT) ++
                [Effect.virtio_error, Effect.qemu_mutex_unlock (Mutex.stream sample_stream.id)]) ∧
        ((resource_create_entry_bytes proto_v3 sample_create short_entry_create_elem).length =
            proto_v3.sizeof_mem_entry * resource_create_num_entries sample_create →
          (resource_create_page proto_v3 host_short_at_8192 sample_stream sample_create
              short_entry_create_elem (sample_stream.queue_info 0).mem_type).ret < 0 →
          (virtio_video_process_cmd_resource_create proto_v3 host_short_at_8192
              sample_device sample_create short_entry_create_elem).resp.type =
              proto_v3.VIRTIO_VIDEO_RESP_ERR_INVALID_OPERATION ∧
            (virtio_video_process_cmd_resource_create proto_v3 host_short_at_8192
                sample_device sample_create short_entry_create_elem).len =
              proto_v3.sizeof_cmd_hdr)))) ∧
    (virtio_video_process_cmd_resource_create proto_v3 host_short_at_8192 sample_device
        sample_create short_entry_create_elem).resp.type =
      proto_v3.VIRTIO_VIDEO_RESP_ERR_INVALID_OPERATION ∧
    ((virtio_video_process_cmd_resource_create proto_v3 host_short_at_8192 sample_device
        sample_create short_entry_create_elem).v.stream_list.map
      (fun s => s.resource_list_input.map (fun r => r.id))) = [[9]] :=
  have h := resource_create_not_atomic proto_v3 host_short_at_8192 sample_device sample_create
    short_entry_create_elem sample_stream 0 idle_resource (by decide) (by decide) (by decide)
    (by decide) (by decide) (by decide)
    (Or.inr ⟨by decide, Or.inr ⟨by decide, Or.inr ⟨by decide, by decide⟩⟩⟩)
  ⟨by decide, by decide, by decide, by decide, by decide, by decide,
   Or.inr ⟨by decide, Or.inr ⟨by decide, Or.inr ⟨by decide, by decide⟩⟩⟩, h,
   by decide, by decide⟩

/-! ## Realize: when it succeeds and when it fails -/

theorem table_lookup_models_eq (name : String) :
    table_lookup virtio_video_models name =
      if name = "v4l2-enc" then some VIRTIO_VIDEO_DEVICE_V4L2_ENC
      else if name = "v4l2-dec" then some VIRTIO_VIDEO_DEVICE_V4L2_DEC
      else none := by
  unfold table_lookup virtio_video_models
  by_cases h1 : name = "v4l2-enc"
  · subst h1; rfl
  · by_cases h2 : name = "v4l2-dec"
    · subst h2; rfl
    · have e1 : ¬ "v4l2-enc" = name := fun h => h1 h.symm
      have e2 : ¬ "v4l2-dec" = name := fun h => h2 h.symm
      simp [List.find?_cons, h1, h2, e1, e2]

theorem table_lookup_backends_eq (name : String) :
    table_lookup virtio_video_backends name =
      if name = "vaapi" then some VIRTIO_VIDEO_BACKEND_VAAPI
      else if name = "ffmpeg" then some VIRTIO_VIDEO_BACKEND_FFMPEG
      else if name = "gstreamer" then some VIRTIO_VIDEO_BACKEND_GSTREAMER
      else if name = "media-sdk" then some VIRTIO_VIDEO_BACKEND_MEDIA_SDK
      else none := by
  unfold table_lookup virtio_video_backends
  by_cases h1 : name = "vaapi"
  · subst h1; rfl
  · by_cases h2 : name = "ffmpeg"
    · subst h2; rfl
    · by_cases h3 : name = "gstreamer"
      · subst h3; rfl
      · by_cases h4 : name = "media-sdk"
        · subst h4; rfl
        · have e1 : ¬ "vaapi" = name := fun h => h1 h.symm
          have e2 : ¬ "ffmpeg" = name := fun h => h2 h.symm
          have e3 : ¬ "gstreamer" = name := fun h => h3 h.symm
          have e4 : ¬ "media-sdk" = name := fun h => h4 h.symm
          simp [List.find?_cons, h1, h2, h3, h4, e1, e2, e3, e4]

theorem realize_device_errp (probe : BackendInit) (conf : VirtIOVideoConf) (v : VirtIOVideo)
    (hmodel : v.model = VIRTIO_VIDEO_DEVICE_V4L2_ENC ∨ v.model = VIRTIO_VIDEO_DEVICE_V4L2_DEC) :
    ((realize_device probe conf v).errp = none ↔
      v.backend = VIRTIO_VIDEO_BACKEND_MEDIA_SDK ∧ probe.ret = 0) ∧
    (v.backend ≠ VIRTIO_VIDEO_BACKEND_MEDIA_SDK →
      (realize_device probe conf v).errp = some RealizeError.init_failed ∧
      (realize_device probe conf v).trace =
        [Effect.virtio_init
           (if v.model = VIRTIO_VIDEO_DEVICE_V4L2_ENC then "virtio-video-enc"
            else "virtio-video-dec"),
         Effect.virtio_add_queue, Effect.virtio_add_queue, Effect.qemu_mutex_init] ++
          (if conf.iothread then [Effect.object_ref] else []) ++
          [Effect.qemu_mutex_destroy] ++
          (if conf.iothread then [Effect.object_unref] else []) ++
          [Effect.virtio_del_queue 0, Effect.virtio_del_queue 1, Effect.virtio_cleanup]) := by
  have hm : ¬ (v.model ≠ VIRTIO_VIDEO_DEVICE_V4L2_ENC ∧ v.model ≠ VIRTIO_VIDEO_DEVICE_V4L2_DEC) := by
    rintro ⟨h1, h2⟩
    rcases hmodel with h | h
    · exact h1 h
    · exact h2 h
  unfold realize_device
  rw [if_neg hm]
  simp only
  by_cases hb : v.backend = VIRTIO_VIDEO_BACKEND_MEDIA_SDK
  · simp only [hb, if_true, virtio_video_init_msdk]
    by_cases hr : probe.ret = 0
    · simp [hr]
    · simp [hr]
  · simp [hb]

theorem realize_names (probe : BackendInit) (conf : VirtIOVideoConf) (v : VirtIOVideo)
    (model backend : String) (model_id backend_id : Nat)
    (hm : conf.model = some model) (hl : table_lookup virtio_video_models model = some model_id)
    (hb : conf.backend = some backend)
    (hlb : table_lookup virtio_video_backends backend = some backend_id) :
    virtio_video_device_realize probe conf v =
      realize_device probe conf { v with model := model_id, backend := backend_id } := by
  unfold virtio_video_device_realize
  simp only [hm, hl, hb, hlb]

theorem lookup_model_id (model : String) (hmodel : model = "v4l2-enc" ∨ model = "v4l2-dec") :
    ∃ model_id, table_lookup virtio_video_models model = some model_id ∧
      (model_id = VIRTIO_VIDEO_DEVICE_V4L2_ENC ∨ model_id = VIRTIO_VIDEO_DEVICE_V4L2_DEC) ∧
      (model_id = VIRTIO_VIDEO_DEVICE_V4L2_ENC ↔ model = "v4l2-enc") := by
  rcases hmodel with h | h
  · subst h; exact ⟨_, rfl, Or.inl rfl, by decide⟩
  · subst h; exact ⟨_, rfl, Or.inr rfl, by decide⟩

theorem lookup_backend_id (backend : String) (backend_id : Nat)
    (h : table_lookup virtio_video_backends backend = some backend_id) :
    (backend_id = VIRTIO_VIDEO_BACKEND_MEDIA_SDK ↔ backend = "media-sdk") ∧
      backend ∈ ["vaapi", "ffmpeg", "gstreamer", "media-sdk"] := by
  rw [table_lookup_backends_eq] at h
  by_cases h1 : backend = "vaapi"
  · subst h1; simp at h; subst h; decide
  · by_cases h2 : backend = "ffmpeg"
    · subst h2; simp at h; subst h; decide
    · by_cases h3 : backend = "gstreamer"
      · subst h3; simp at h; subst h; decide
      · by_cases h4 : backend = "media-sdk"
        · subst h4; simp at h; subst h; decide
        · simp [h1, h2, h3, h4] at h

/-- C24: `virtio_video_device_realize` reports no error exactly when the
model property is "v4l2-enc" or "v4l2-dec", the backend property is
"media-sdk" and the initialisation of the backend returns 0.  It reports an
error when the model is unset or is not one of the two names, and, the model
being valid, when the backend is unset or is not one of the four names of the
backend table.  For a valid model and each of the backends "vaapi", "ffmpeg"
and "gstreamer" it initialises the device, adds the two queues, and then
fails: it destroys the mutex, drops the reference on the iothread if there is
one, deletes queue 0 and queue 1, cleans the device up and reports an
error. -/
theorem realize_conditions (probe : BackendInit) (conf : VirtIOVideoConf) (v : VirtIOVideo) :
    ((virtio_video_device_realize probe conf v).errp = none ↔
      (conf.model = some "v4l2-enc" ∨ conf.model = some "v4l2-dec") ∧
        conf.backend = some "media-sdk" ∧ probe.ret = 0) ∧
    (conf.model = none →
      (virtio_video_device_realize probe conf v).errp = some RealizeError.model_not_set) ∧
    (∀ model, conf.model = some model → model ∉ ["v4l2-enc", "v4l2-dec"] →
      (virtio_video_device_realize probe conf v).errp = some RealizeError.unknown_model) ∧
    (∀ model, conf.model = some model → model ∈ ["v4l2-enc", "v4l2-dec"] →
      conf.backend = none →
      (virtio_video_device_realize probe conf v).errp = some RealizeError.backend_not_set) ∧
    (∀ model backend, conf.model = some model → model ∈ ["v4l2-enc", "v4l2-dec"] →
      conf.backend = some backend →
      backend ∉ ["vaapi", "ffmpeg", "gstreamer", "media-sdk"] →
      (virtio_video_device_realize probe conf v).errp = some RealizeError.unknown_backend) ∧
    (∀ model backend, conf.model = some model → model ∈ ["v4l2-enc", "v4l2-dec"] →
      conf.backend = some backend → backend ∈ ["vaapi", "ffmpeg", "gstreamer"] →
      (virtio_video_device_realize probe conf v).errp = some RealizeError.init_failed ∧
      (virtio_video_device_realize probe conf v).trace =
        [Effect.virtio_init
           (if model = "v4l2-enc" then "virtio-video-enc" else "virtio-video-dec"),
         Effect.virtio_add_queue, Effect.virtio_add_queue, Effect.qemu_mutex_init] ++
          (if conf.iothread then [Effect.object_ref] else []) ++
          [Effect.qemu_mutex_destroy] ++
          (if conf.iothread then [Effect.object_unref] else []) ++
          [Effect.virtio_del_queue 0, Effect.virtio_del_queue 1, Effect.virtio_cleanup]) := by
  have hmem2 : ∀ model : String, model ∈ ["v4l2-enc", "v4l2-dec"] ↔
      (model = "v4l2-enc" ∨ model = "v4l2-dec") := by
    intro model; simp
  refine ⟨⟨?_, ?_⟩, ?_, ?_, ?_, ?_, ?_⟩
  · intro h
    obtain ⟨model, model_id, backend, backend_id, hm, hl, hb, hlb, heq⟩ :=
      realize_reaches_device probe conf v h
    rw [heq] at h
    have hid := table_lookup_models model model_id hl
    obtain ⟨hsdk, hret⟩ := ((realize_device_errp probe conf _ hid).1).mp h
    have hname : model = "v4l2-enc" ∨ model = "v4l2-dec" := by
      rw [table_lookup_models_eq] at hl
      by_cases h1 : model = "v4l2-enc"
      · left; exact h1
      · by_cases h2 : model = "v4l2-dec"
        · right; exact h2
        · simp [h1, h2] at hl
    refine ⟨?_, ?_, hret⟩
    · rcases hname with h1 | h1
      · left; rw [hm, h1]
      · right; rw [hm, h1]
    · rw [hb, ((lookup_backend_id backend backend_id hlb).1).mp hsdk]
  · rintro ⟨hmodel, hbackend, hret⟩
    have hres : ∀ model, conf.model = some model → (model = "v4l2-enc" ∨ model = "v4l2-dec") →
        (virtio_video_device_realize probe conf v).errp = none := by
      intro model hm hname
      obtain ⟨model_id, hl, hid, _⟩ := lookup_model_id model hname
      rw [realize_names probe conf v model "media-sdk" model_id VIRTIO_VIDEO_BACKEND_MEDIA_SDK
        hm hl hbackend rfl]
      exact ((realize_device_errp probe conf _ hid).1).mpr ⟨rfl, hret⟩
    rcases hmodel with h1 | h1
    · exact hres _ h1 (Or.inl rfl)
    · exact hres _ h1 (Or.inr rfl)
  · intro hm
    simp only [virtio_video_device_realize, hm]
  · intro model hm hname
    have hl : table_lookup virtio_video_models model = none := by
      rw [table_lookup_models_eq]
      simp only [List.mem_cons, List.mem_singleton, List.not_mem_nil, or_false, not_or] at hname
      simp [hname.1, hname.2]
    simp only [virtio_video_device_realize, hm, hl]
  · intro model hm hname hb
    obtain ⟨model_id, hl, _, _⟩ := lookup_model_id model ((hmem2 model).mp hname)
    simp only [virtio_video_device_realize, hm, hl, hb]
  · intro model backend hm hname hb hbname
    obtain ⟨model_id, hl, _, _⟩ := lookup_model_id model ((hmem2 model).mp hname)
    have hlb : table_lookup virtio_video_backends backend = none := by
      rw [table_lookup_backends_eq]
      simp only [List.mem_cons, List.mem_singleton, List.not_mem_nil, or_false, not_or]
        at hbname
      simp [hbname.1, hbname.2.1, hbname.2.2.1, hbname.2.2.2]
    simp only [virtio_video_device_realize, hm, hl, hb, hlb]
  · intro model backend hm hname hb hbname
    obtain ⟨model_id, hl, hid, henc⟩ := lookup_model_id model ((hmem2 model).mp hname)
    have hlb : ∃ backend_id, table_lookup virtio_video_backends backend = some backend_id ∧
        backend_id ≠ VIRTIO_VIDEO_BACKEND_MEDIA_SDK := by
      simp only [List.mem_cons, List.mem_singleton, List.not_mem_nil, or_false] at hbname
      rcases hbname with h | h | h <;> subst h
      · exact ⟨_, rfl, by decide⟩
      · exact ⟨_, rfl, by decide⟩
      · exact ⟨_, rfl, by decide⟩
    obtain ⟨backend_id, hlb, hne⟩ := hlb
    rw [realize_names probe conf v model backend model_id backend_id hm hl hb hlb]
    have h := (realize_device_errp probe conf
      { v with model := model_id, backend := backend_id } hid).2 hne
    refine ⟨h.1, ?_⟩
    rw [h.2]
    simp only [henc]

/-- Witness of C24: on the sample device object, a media-sdk decoder whose
backend initialises is realised without error, and a vaapi decoder with an
iothread fails after setting the device up, deleting both queues and cleaning
up. -/
theorem realize_conditions_witness :
    (virtio_video_device_realize sample_probe sample_conf unrealized_device).errp = none ∧
      (virtio_video_device_realize sample_probe vaapi_conf unrealized_device).errp =
        some RealizeError.init_failed ∧
      (virtio_video_device_realize sample_probe vaapi_conf unrealized_device).trace =
        [Effect.virtio_init "virtio-video-dec", Effect.virtio_add_queue,
         Effect.virtio_add_queue, Effect.qemu_mutex_init, Effect.object_ref,
         Effect.qemu_mutex_destroy, Effect.object_unref, Effect.virtio_del_queue 0,
         Effect.virtio_del_queue 1, Effect.virtio_cleanup] :=
  have h := (realize_conditions sample_probe vaapi_conf unrealized_device).2.2.2.2.2
    "v4l2-dec" "vaapi" rfl (by decide) rfl (by decide)
  ⟨((realize_conditions sample_probe sample_conf unrealized_device).1).mpr
     ⟨Or.inr rfl, rfl, rfl⟩,
   h.1, h.2.trans (by decide)⟩

end VirtioVideo
